import Mathlib

/-!
Verification of the 2048 AI core (board engine and expectimax searcher).

The definitions below are a shallow embedding of the Rust sources:
game_logic.rs (packed 64-bit grid, row kernel, lookup tables, moves),
heuristic.rs (row heuristic and its table) and searcher.rs (expectimax
with a transposition cache).  Machine integers are modelled as Nat with
explicit reductions modulo 2^w at the points where the Rust operation
can wrap.  Fallible operations return Option.  The f32 values of the
heuristic are modelled over the reals (powf 3.5 is a real power);
f32 probabilities are modelled over the rationals.
-/

namespace Ai2048

/-- The Move enumeration, in the canonical order of the MOVES constant. -/
inductive Move where
  | left
  | right
  | up
  | down
deriving DecidableEq, Repr

/-- All possible moves, in canonical order (game_logic.rs MOVES). -/
def MOVES : List Move := [Move.left, Move.right, Move.up, Move.down]

/-- Row.unpack: the four tiles of a row, tile0 first. -/
def unpackRow (r : Nat) : List Nat :=
  [(r &&& 0xF000) >>> 12, (r &&& 0x0F00) >>> 8, (r &&& 0x00F0) >>> 4, r &&& 0x000F]

/-- Row.pack: pack four tiles into a row; a tile that does not fit a
nibble yields none (the Rust version returns Err of the index). -/
def packRowAux : List Nat → Nat → Option Nat
  | [], acc => some acc
  | t :: ts, acc => if 15 < t then none else packRowAux ts ((acc <<< 4) + t)

/-- Row.pack on a four-tile list, starting from an empty accumulator. -/
def packRow (l : List Nat) : Option Nat :=
  packRowAux l 0

/-- Row.reverse: swap nibbles 0 and 3, 1 and 2 (u16 arithmetic; the
left shift by 12 wraps modulo 2^16). -/
def reverseRow (r : Nat) : Nat :=
  (r >>> 12) ||| ((r >>> 4) &&& 0x00F0) ||| ((r <<< 4) &&& 0x0F00) ||| ((r <<< 12) % 2 ^ 16)

/-- Column.from_row: spread the four tiles of a row into the four
16-bit lanes of a 64-bit column word. -/
def columnFromRow (r : Nat) : Nat :=
  (r ||| (r <<< 12) ||| (r <<< 24) ||| (r <<< 36)) &&& 0x000F000F000F000F

/-- One step of the slide-and-merge loop of move_row_left: the state is
(to_row, last, last_index). -/
def slideStep : List Nat × Nat × Nat → Nat → List Nat × Nat × Nat
  | (toRow, last, lastIndex), tile =>
    if tile = 0 then (toRow, last, lastIndex)
    else if last = 0 then (toRow, tile, lastIndex)
    else if tile = last then (toRow.set lastIndex (last + 1), 0, lastIndex + 1)
    else (toRow.set lastIndex last, tile, lastIndex + 1)

/-- The clamp of move_row_left: a tile which does not fit a nibble is
merged into a 32768 (rank 15) instead. -/
def clampTile (i : Nat) : Nat :=
  if 15 < i then 15 else i

/-- move_row_left: slide the tiles of a row to the left, merging equal
neighbours once, clamping tiles above 15 down to 15, and repacking. -/
def moveRowLeft (r : Nat) : Nat :=
  let p := (unpackRow r).foldl slideStep ([0, 0, 0, 0], 0, 0)
  let toRow := if p.2.1 ≠ 0 then p.1.set p.2.2 p.2.1 else p.1
  let clamped := toRow.map clampTile
  (packRow clamped).getD 0

/-- CACHE_LEFT: built with u16::MAX (65535) entries, indices 0..65534. -/
def cacheLeft : List Nat :=
  (List.range 65535).map fun i => moveRowLeft i

/-- CACHE_RIGHT: also 65535 entries. -/
def cacheRight : List Nat :=
  (List.range 65535).map fun i => reverseRow (moveRowLeft (reverseRow i))

/-- CACHE_UP: columns spread from CACHE_LEFT; 65535 entries. -/
def cacheUp : List Nat :=
  (List.range 65535).map fun i => columnFromRow (moveRowLeft i)

/-- CACHE_DOWN: columns spread from CACHE_RIGHT; 65535 entries. -/
def cacheDown : List Nat :=
  (List.range 65535).map fun i => columnFromRow (reverseRow (moveRowLeft (reverseRow i)))

/-- lookup_left: the unchecked table access, modelled as a list access
that yields none exactly when the index is out of bounds. -/
def lookupLeft (r : Nat) : Option Nat :=
  cacheLeft.get? r

/-- lookup_right as a table access. -/
def lookupRight (r : Nat) : Option Nat :=
  cacheRight.get? r

/-- lookup_up as a table access. -/
def lookupUp (r : Nat) : Option Nat :=
  cacheUp.get? r

/-- lookup_down as a table access. -/
def lookupDown (r : Nat) : Option Nat :=
  cacheDown.get? r

/-- The intended (total) value of a lookup_left table hit. -/
def lookupLeftFn (r : Nat) : Nat := moveRowLeft r

/-- The intended (total) value of a lookup_right table hit. -/
def lookupRightFn (r : Nat) : Nat := reverseRow (moveRowLeft (reverseRow r))

/-- The intended (total) value of a lookup_up table hit. -/
def lookupUpFn (r : Nat) : Nat := columnFromRow (lookupLeftFn r)

/-- The intended (total) value of a lookup_down table hit. -/
def lookupDownFn (r : Nat) : Nat := columnFromRow (lookupRightFn r)

/-- Grid::rows: the four rows, row0 (high bits) first. -/
def rows (g : Nat) : List Nat :=
  [(g &&& 0xFFFF000000000000) >>> 48, (g &&& 0x0000FFFF00000000) >>> 32,
   (g &&& 0x00000000FFFF0000) >>> 16, g &&& 0x000000000000FFFF]

/-- Grid::from_rows. -/
def fromRows (rs : List Nat) : Nat :=
  (rs.getD 0 0 <<< 48) ||| (rs.getD 1 0 <<< 32) ||| (rs.getD 2 0 <<< 16) ||| rs.getD 3 0

/-- Grid::from_columns. -/
def fromColumns (cs : List Nat) : Nat :=
  ((cs.getD 0 0 <<< 12) % 2 ^ 64) ||| (cs.getD 1 0 <<< 8) ||| (cs.getD 2 0 <<< 4) ||| cs.getD 3 0

/-- Grid::transpose, the bit-math variant: two 4-bit swaps and two
8-bit swaps on the 64-bit word (left shifts wrap modulo 2^64). -/
def transpose (g : Nat) : Nat :=
  let a1 := g &&& 0xF0F00F0FF0F00F0F
  let a2 := g &&& 0x0000F0F00000F0F0
  let a3 := g &&& 0x0F0F00000F0F0000
  let a := a1 ||| ((a2 <<< 12) % 2 ^ 64) ||| (a3 >>> 12)
  let b1 := a &&& 0xFF00FF0000FF00FF
  let b2 := a &&& 0x00FF00FF00000000
  let b3 := a &&& 0x00000000FF00FF00
  b1 ||| (b2 >>> 24) ||| ((b3 <<< 24) % 2 ^ 64)

/-- Grid::count_empty: the branchless nibble-zero count (the bitwise
complement of a u64 is xor with 2^64 - 1; the additions wrap mod 2^64). -/
def countEmpty (g : Nat) : Nat :=
  let x1 := g ||| ((g >>> 2) &&& 0x3333333333333333)
  let x2 := x1 ||| (x1 >>> 1)
  let x3 := (x2 ^^^ 0xFFFFFFFFFFFFFFFF) &&& 0x1111111111111111
  let s1 := (x3 + (x3 >>> 32)) % 2 ^ 64
  let s2 := (s1 + (s1 >>> 16)) % 2 ^ 64
  let s3 := (s2 + (s2 >>> 8)) % 2 ^ 64
  let s4 := (s3 + (s3 >>> 4)) % 2 ^ 64
  s4 &&& 0xF

/-- Grid::move_left (table hits replaced by their defining function). -/
def moveLeft (g : Nat) : Nat :=
  fromRows ((rows g).map lookupLeftFn)

/-- Grid::move_right. -/
def moveRight (g : Nat) : Nat :=
  fromRows ((rows g).map lookupRightFn)

/-- Grid::move_up: columns of the transposed grid, slid left. -/
def moveUp (g : Nat) : Nat :=
  fromColumns ((rows (transpose g)).map lookupUpFn)

/-- Grid::move_down. -/
def moveDown (g : Nat) : Nat :=
  fromColumns ((rows (transpose g)).map lookupDownFn)

/-- Grid::make_move. -/
def makeMove (g : Nat) : Move → Nat
  | Move.left => moveLeft g
  | Move.right => moveRight g
  | Move.up => moveUp g
  | Move.down => moveDown g

/-- Grid::game_over: no move changes the grid. -/
def gameOver (g : Nat) : Bool :=
  (MOVES.find? fun m => makeMove g m != g).isNone

/-- Grid::player_moves: the legal moves in canonical order, with their
successor grids (moves that leave the grid unchanged are skipped). -/
def playerMoves (g : Nat) : List (Move × Nat) :=
  MOVES.filterMap fun m =>
    let ng := makeMove g m
    if ng = g then none else some (m, ng)

/-- The RandomMoves iterator with a given spawned value: scan the empty
nibbles from position 15 down to 0 and set each to the value. -/
def randomMovesWith (g : Nat) (val : Nat) : List Nat :=
  (List.range 16).reverse.filterMap fun idx =>
    if g &&& (0xF <<< (4 * idx)) = 0 then some (g ||| (val <<< (4 * idx))) else none

/-- Grid::random_moves_with2. -/
def randomMovesWith2 (g : Nat) : List Nat :=
  randomMovesWith g 1

/-- Grid::random_moves_with4. -/
def randomMovesWith4 (g : Nat) : List Nat :=
  randomMovesWith g 2

/-- Grid::unpack_log: the sixteen tile ranks, row by row. -/
def unpackLog (g : Nat) : List (List Nat) :=
  (rows g).map unpackRow

/-- Grid::unpack_human: rank 0 displays as 0, rank t as 2^t. -/
def unpackHuman (g : Nat) : List (List Nat) :=
  (unpackLog g).map (List.map fun t => if t = 0 then 0 else 1 <<< t)

/-- Grid::biggest_tile: the maximum displayed value. -/
def biggestTile (g : Nat) : Nat :=
  (unpackHuman g).flatten.foldl max 0

/-- Grid::count_distinct_tiles: distinct nonzero ranks. -/
def countDistinctTiles (g : Nat) : Nat :=
  (((unpackLog g).flatten.filter fun t => t != 0).eraseDups).length

/-- to_log: the f32 base-2 logarithm is modelled as the exact real
logarithm; note that the comparison against 1e-10 is one-sided, exactly
as in the source (no absolute value is taken). -/
noncomputable def toLog (n : Nat) : Option Nat :=
  let log : ℝ := if n = 0 then 0 else Real.logb 2 n
  let rounded : ℤ := round log
  if (rounded : ℝ) - log < 1e-10 then some rounded.toNat else none

/-- Grid::from_human: parse a grid of displayed values. -/
noncomputable def fromHuman (grid : List (List Nat)) : Option Nat := do
  let rs ← grid.mapM fun row => do
    let logs ← row.mapM toLog
    packRow logs
  some (fromRows rs)

/-- empty_tile_count_row. -/
def emptyTileCountRow (r : Nat) : Nat :=
  (unpackRow r).count 0

/-- One step of the monotonicity fold over adjacent pairs: the state is
(left, right), accumulated with fourth powers in integer arithmetic. -/
def monoStep (acc : ℤ × ℤ) (p : Nat × Nat) : ℤ × ℤ :=
  if p.2 < p.1 then (acc.1 + ((p.1 : ℤ) ^ 4 - (p.2 : ℤ) ^ 4), acc.2)
  else if p.1 < p.2 then (acc.1, acc.2 + ((p.2 : ℤ) ^ 4 - (p.1 : ℤ) ^ 4))
  else acc

/-- monotonicity_row: minus the smaller of the two directional penalties. -/
def monotonicityRow (r : Nat) : ℤ :=
  let l := unpackRow r
  let lr := (l.zip l.tail).foldl monoStep (0, 0);
  -(min lr.1 lr.2)

/-- The while loop of adjacent_row: count non-overlapping adjacent equal
nonzero pairs, stepping by 2 on a match and by 1 otherwise. -/
def adjacentCount : List Nat → Nat
  | [] => 0
  | [_] => 0
  | x :: y :: rest =>
    if x ≠ 0 ∧ x = y then 1 + adjacentCount rest
    else adjacentCount (y :: rest)

/-- adjacent_row. -/
def adjacentRow (r : Nat) : Nat :=
  adjacentCount (unpackRow r)

/-- f32::powf 3.5 on a small integer, modelled as the exact real power. -/
noncomputable def pow35 (v : Nat) : ℝ :=
  (v : ℝ) ^ (3.5 : ℝ)

/-- sum_row: minus the sum of tile ranks raised to the power 3.5. -/
noncomputable def sumRow (r : Nat) : ℝ :=
  -(((unpackRow r).map pow35).sum)

/-- eval_row_nocache with the strength constants of heuristic.rs. -/
noncomputable def evalRowNocache (r : Nat) : ℝ :=
  let empty := (emptyTileCountRow r : ℝ) * 270
  let monotonicity := (monotonicityRow r : ℝ) * 47
  let adjacent := (adjacentRow r : ℝ) * 700
  let sum := sumRow r * 11
  200000 + monotonicity + empty + adjacent + sum

/-- The heuristic CACHE: u16::MAX + 1 = 65536 entries, one per u16 row. -/
noncomputable def heurCache : List ℝ :=
  (List.range (65535 + 1)).map fun i => evalRowNocache i

/-- Heuristic::eval_row: the unchecked table access, modelled as a list
access that yields none exactly when the index is out of bounds. -/
noncomputable def evalRowLookup (r : Nat) : Option ℝ :=
  heurCache.get? r

/-- Heuristic::eval: sum the row heuristic over the rows and the rows of
the transposed grid (eight table hits). -/
noncomputable def heuristicEval (g : Nat) : ℝ :=
  ((rows g ++ rows (transpose g)).map evalRowNocache).sum

/-! ## The searcher (searcher.rs) -/

/-- SearchStats: the five counters. -/
structure SearchStats where
  nodes : Nat
  cacheSize : Nat
  cacheHits : Nat
  evals : Nat
  average : Nat
deriving Repr, DecidableEq

/-- SearchState: the transposition cache maps a grid to the pair
(probability, evaluation); probabilities are modelled over the rationals
and evaluations over the reals.  The cache is an association list whose
insertion prepends, so that lookup sees the newest binding (the HashMap
insert overwrite). -/
structure SearchState where
  cache : List (Nat × ℚ × ℝ)
  stats : SearchStats
  minProbability : ℚ

/-- PROBABILITY_OF2 as a probability. -/
def probabilityOf2 : ℚ := 9 / 10

/-- PROBABILITY_OF4 as a probability. -/
def probabilityOf4 : ℚ := 1 / 10

/-- PROBABILITY_OF2 as an evaluation weight. -/
noncomputable def probabilityOf2R : ℝ := 9 / 10

/-- PROBABILITY_OF4 as an evaluation weight. -/
noncomputable def probabilityOf4R : ℝ := 1 / 10

/-- stats.nodes += 1. -/
def bumpNodes (st : SearchState) : SearchState :=
  { st with stats := { st.stats with nodes := st.stats.nodes + 1 } }

/-- stats.evals += 1. -/
def bumpEvals (st : SearchState) : SearchState :=
  { st with stats := { st.stats with evals := st.stats.evals + 1 } }

/-- stats.cache_hits += 1. -/
def bumpHits (st : SearchState) : SearchState :=
  { st with stats := { st.stats with cacheHits := st.stats.cacheHits + 1 } }

/-- stats.average += 1. -/
def bumpAverage (st : SearchState) : SearchState :=
  { st with stats := { st.stats with average := st.stats.average + 1 } }

/-- cache.insert(grid, value): prepend, shadowing any older binding. -/
def cacheInsert (g : Nat) (v : ℚ × ℝ) (st : SearchState) : SearchState :=
  { st with cache := (g, v) :: st.cache }

/-- The .map(..).sum() accumulation of the chance node, threading the
search state left to right. -/
def foldSum (child : Nat → SearchState → ℝ × SearchState) :
    List Nat → ℝ → SearchState → ℝ × SearchState
  | [], acc, st => (acc, st)
  | g :: gs, acc, st =>
    let r := child g st
    foldSum child gs (acc + r.1) r.2

/-- The .map(..).fold(0f32, f32::max) accumulation of the max node,
threading the search state left to right.  The accumulator starts at 0,
exactly as in the source. -/
def foldMax (child : Nat → SearchState → ℝ × SearchState) :
    List Nat → ℝ → SearchState → ℝ × SearchState
  | [], acc, st => (acc, st)
  | g :: gs, acc, st =>
    let r := child g st
    foldMax child gs (max acc r.1) r.2

/-- random_move_eval, parameterized by the child evaluator (the
probability and depth arguments are already applied in the child). -/
def randomMoveEvalAux (child : Nat → SearchState → ℝ × SearchState)
    (grid : Nat) (st₀ : SearchState) : ℝ × SearchState :=
  let st := bumpAverage (bumpNodes st₀)
  foldMax child ((playerMoves grid).map Prod.snd) 0 st

/-- The leaf of player_move_eval: heuristic evaluation. -/
noncomputable def leafEval (grid : Nat) (st : SearchState) : ℝ × SearchState :=
  (heuristicEval grid, bumpEvals st)

/-- The recompute path of player_move_eval (the code after the early
returns): average += 1, recurse into the chance children for the spawns
of a 2 and of a 4, combine, and overwrite the cache entry wholesale. -/
noncomputable def computeEval
    (recur : Nat → ℚ → SearchState → ℝ × SearchState)
    (grid : Nat) (probability : ℚ) (st₀ : SearchState) : ℝ × SearchState :=
  let st := bumpAverage st₀
  let countQ : ℚ := (countEmpty grid : ℚ)
  let countR : ℝ := (countEmpty grid : ℝ)
  let prob2 := probability * probabilityOf2 / countQ
  let prob4 := probability * probabilityOf4 / countQ
  let r2 := foldSum (fun gs st' => randomMoveEvalAux (fun gc stc => recur gc prob2 stc) gs st')
    (randomMovesWith2 grid) 0 st
  let avg2 := r2.1 / countR
  let r4 := foldSum (fun gs st' => randomMoveEvalAux (fun gc stc => recur gc prob4 stc) gs st')
    (randomMovesWith4 grid) 0 r2.2
  let avg4 := r4.1 / countR
  let ev := avg2 * probabilityOf2R + avg4 * probabilityOf4R
  (ev, cacheInsert grid (probability, ev) r4.2)

/-- The body of player_move_eval at positive depth, with the recursive
occurrence (one depth lower) abstracted. -/
noncomputable def playerMoveEvalStep
    (recur : Nat → ℚ → SearchState → ℝ × SearchState)
    (grid : Nat) (probability : ℚ) (st₀ : SearchState) : ℝ × SearchState :=
  let st := bumpNodes st₀
  if probability < st.minProbability then leafEval grid st
  else
    match List.lookup grid st.cache with
    | some pv =>
      if probability ≤ pv.1 then (pv.2, bumpHits st)
      else computeEval recur grid probability st
    | none => computeEval recur grid probability st

/-- player_move_eval: the chance node of searcher.rs, recursing on the
depth.  At depth 0 (or when the probability falls below the cutoff,
handled in the step) the heuristic is returned. -/
noncomputable def playerMoveEval : Nat → Nat → ℚ → SearchState → ℝ × SearchState
  | 0 => fun grid _ st₀ => leafEval grid (bumpNodes st₀)
  | d + 1 => playerMoveEvalStep (playerMoveEval d)

/-- random_move_eval: the max node of searcher.rs (argument order as in
the source: grid, probability, depth, state). -/
noncomputable def randomMoveEval (grid : Nat) (probability : ℚ) (depth : Nat)
    (st : SearchState) : ℝ × SearchState :=
  randomMoveEvalAux (fun g st' => playerMoveEval depth g probability st') grid st

/-- SearchResult. -/
structure SearchResult where
  rootGrid : Nat
  moveEvaluations : List (Move × ℝ)
  bestMove : Option Move
  stats : SearchStats
  depth : Nat

/-- MIN_DEPTH. -/
def MIN_DEPTH : Nat := 3

/-- MAX_DEPTH. -/
def MAX_DEPTH : Nat := 14

/-- num::clamp. -/
def clampNum (v lo hi : Nat) : Nat :=
  if v < lo then lo else if hi < v then hi else v

/-- calculate_depth: the adaptive depth policy. -/
def calculateDepth (g : Nat) : Nat :=
  let stageAdjustment :=
    if 8192 < biggestTile g then 0
    else if 4096 < biggestTile g then 1
    else 2
  clampNum (countDistinctTiles g - stageAdjustment) MIN_DEPTH MAX_DEPTH

/-- The sequential evaluation of the legal root moves (the map over
player_moves in search_inner, threading the mutable state). -/
noncomputable def evalMoves (depth : Nat) :
    List (Move × Nat) → SearchState → List (Move × ℝ) × SearchState
  | [], st => ([], st)
  | (m, g) :: rest, st =>
    let r := playerMoveEval depth g 1 st
    let tail := evalMoves depth rest r.2
    ((m, r.1) :: tail.1, tail.2)

/-- search_inner (the sequential variant): evaluate each legal move at
probability 1, sort descending by evaluation (a stable sort, as Rust
sort_by), and pick the head as the best move. -/
noncomputable def searchInner (rootGrid : Nat) (depth : Nat) (minProbability : ℚ) :
    SearchResult :=
  let st₀ : SearchState :=
    { cache := [], stats := ⟨0, 0, 0, 0, 0⟩, minProbability := minProbability }
  let r := evalMoves depth (playerMoves rootGrid) st₀
  let sorted := r.1.mergeSort fun a b => decide (b.2 ≤ a.2)
  let bestMove := sorted.head?.map Prod.fst
  let finalStats :=
    { r.2.stats with cacheSize := ((r.2.cache.map Prod.fst).eraseDups).length }
  { rootGrid := rootGrid, moveEvaluations := sorted, bestMove := bestMove,
    stats := finalStats, depth := depth }

/-- search: choose the depth adaptively, then run search_inner. -/
noncomputable def search (grid : Nat) (minProbability : ℚ) : SearchResult :=
  searchInner grid (calculateDepth grid) minProbability

/-! ## Specification-side helpers (nibble views of a 64-bit word) -/

/-- The value of a little-endian list of nibbles. -/
def ofNibs : List Nat → Nat
  | [] => 0
  | d :: ds => d + 16 * ofNibs ds

/-- Nibble i of a word (nibble 0 is the least significant). -/
def nib (x i : Nat) : Nat :=
  (x >>> (4 * i)) &&& 15

/-- The number of zero nibbles of a 64-bit word. -/
def zeroNibbles (x : Nat) : Nat :=
  ((List.range 16).filter fun i => nib x i == 0).length

/-- The zero-nibble indicator of nibble i. -/
def eDig (x i : Nat) : Nat :=
  if nib x i = 0 then 1 else 0

/-- The sixteen zero-nibble indicators. -/
def eDigits (x : Nat) : List Nat :=
  [eDig x 0, eDig x 1, eDig x 2, eDig x 3, eDig x 4, eDig x 5, eDig x 6, eDig x 7,
   eDig x 8, eDig x 9, eDig x 10, eDig x 11, eDig x 12, eDig x 13, eDig x 14, eDig x 15]

/-- The first masking step of count_empty. -/
def ceStep1 (g : Nat) : Nat :=
  g ||| ((g >>> 2) &&& 0x3333333333333333)

/-- The second masking step of count_empty. -/
def ceStep2 (x : Nat) : Nat :=
  x ||| (x >>> 1)

/-- The complement-and-mask step of count_empty. -/
def ceStep3 (x : Nat) : Nat :=
  (x ^^^ 0xFFFFFFFFFFFFFFFF) &&& 0x1111111111111111

/-- The horizontal-sum phase of count_empty. -/
def ceSum (x : Nat) : Nat :=
  let s1 := (x + (x >>> 32)) % 2 ^ 64
  let s2 := (s1 + (s1 >>> 16)) % 2 ^ 64
  let s3 := (s2 + (s2 >>> 8)) % 2 ^ 64
  let s4 := (s3 + (s3 >>> 4)) % 2 ^ 64
  s4 &&& 0xF

/-! ## Specification-side helper: the cache-growth relation of the searcher. -/

/-- Entry-to-exit growth of the stored probability of every cache key:
every binding of c₁ is still bound in c₂, with a stored probability at
least as large. -/
def cacheLe (c₁ c₂ : List (Nat × ℚ × ℝ)) : Prop :=
  ∀ g q v, List.lookup g c₁ = some (q, v) →
    ∃ q' v', List.lookup g c₂ = some (q', v') ∧ q ≤ q'

end Ai2048


open Ai2048

theorem and_shift_shift (x m k : Nat) : (x &&& (m <<< k)) >>> k = (x >>> k) &&& m := by
  apply Nat.eq_of_testBit_eq
  intro j
  rw [Nat.testBit_shiftRight, Nat.testBit_land, Nat.testBit_land, Nat.testBit_shiftRight,
    Nat.testBit_shiftLeft]
  have h1 : k + j - k = j := by omega
  have h2 : k + j ≥ k := by omega
  simp [h1, h2]

theorem nibv (x k : Nat) : (x >>> k) &&& 15 = x / 2 ^ k % 16 := by
  have h15 : (15 : Nat) = 2 ^ 4 - 1 := by norm_num
  rw [Nat.shiftRight_eq_div_pow, h15, Nat.and_pow_two_sub_one_eq_mod]

theorem unpackRow_val (t0 t1 t2 t3 : Nat) (h0 : t0 < 16) (h1 : t1 < 16) (h2 : t2 < 16)
    (h3 : t3 < 16) :
    unpackRow (4096 * t0 + 256 * t1 + 16 * t2 + t3) = [t0, t1, t2, t3] := by
  have e12 : (0xF000 : Nat) = 15 <<< 12 := by decide
  have e8 : (0x0F00 : Nat) = 15 <<< 8 := by decide
  have e4 : (0x00F0 : Nat) = 15 <<< 4 := by decide
  rw [unpackRow, e12, e8, e4, and_shift_shift, and_shift_shift, and_shift_shift]
  rw [nibv, nibv, nibv]
  have h4 : (4096 * t0 + 256 * t1 + 16 * t2 + t3) &&& 15
      = (4096 * t0 + 256 * t1 + 16 * t2 + t3) / 2 ^ 0 % 16 := by
    have := nibv (4096 * t0 + 256 * t1 + 16 * t2 + t3) 0
    simpa using this
  rw [h4]
  norm_num
  refine ⟨by omega, by omega, by omega, by omega⟩

theorem clampTile_zero : clampTile 0 = 0 := rfl

theorem clampTile_le (v : Nat) : clampTile v ≤ 15 := by
  unfold clampTile; split <;> omega

theorem clampTile_small (v : Nat) (h : v ≤ 15) : clampTile v = v := by
  unfold clampTile; split <;> omega

theorem clampTile_pos (v : Nat) (h : 1 ≤ v) : 1 ≤ clampTile v := by
  unfold clampTile; split <;> omega

theorem packRow_val (a b c d : Nat) (ha : a ≤ 15) (hb : b ≤ 15) (hc : c ≤ 15) (hd : d ≤ 15) :
    (packRow [a, b, c, d]).getD 0 = 4096 * a + 256 * b + 16 * c + d := by
  rw [packRow, packRowAux, if_neg (by omega), packRowAux, if_neg (by omega),
    packRowAux, if_neg (by omega), packRowAux, if_neg (by omega), packRowAux]
  simp [Nat.shiftLeft_eq]
  ring


set_option maxHeartbeats 4000000 in
theorem mrl_master (t0 t1 t2 t3 : Nat) (h0 : t0 < 16) (h1 : t1 < 16) (h2 : t2 < 16)
    (h3 : t3 < 16) :
    moveRowLeft (4096 * t0 + 256 * t1 + 16 * t2 + t3) < 65536 ∧
    (moveRowLeft (4096 * t0 + 256 * t1 + 16 * t2 + t3) = 4096 * t0 + 256 * t1 + 16 * t2 + t3 ∨
      moveRowLeft (4096 * t0 + 256 * t1 + 16 * t2 + t3) % 16 = 0 ∨
      moveRowLeft (4096 * t0 + 256 * t1 + 16 * t2 + t3) / 16 % 16 = 0 ∨
      moveRowLeft (4096 * t0 + 256 * t1 + 16 * t2 + t3) / 256 % 16 = 0 ∨
      moveRowLeft (4096 * t0 + 256 * t1 + 16 * t2 + t3) / 4096 % 16 = 0) ∧
    (4096 * t0 + 256 * t1 + 16 * t2 + t3 ≠ 0 →
      moveRowLeft (4096 * t0 + 256 * t1 + 16 * t2 + t3) ≠ 0) := by
  simp only [moveRowLeft, unpackRow_val t0 t1 t2 t3 h0 h1 h2 h3, List.foldl_cons,
    List.foldl_nil]

  by_cases c0 : t0 = 0
  · -- tile t0 is empty
    by_cases c1 : t1 = 0
    · -- tile t1 is empty
      by_cases c2 : t2 = 0
      · -- tile t2 is empty
        by_cases c3 : t3 = 0
        · -- tile t3 is empty
          simp [slideStep, List.set, clampTile_zero, c0, c1, c2, c3]
          all_goals try rw [packRow_val (0) (0) (0) (0) (by omega) (by omega) (by omega) (by omega)]
          all_goals omega
        · -- t3 becomes the pending tile
          simp [slideStep, List.set, clampTile_zero, c0, c1, c2, c3]
          all_goals try rw [clampTile_small t3 (by omega)]
          all_goals try rw [packRow_val (t3) (0) (0) (0) (by omega) (by omega) (by omega) (by omega)]
          all_goals omega
      · -- t2 becomes the pending tile
        by_cases c3 : t3 = 0
        · -- tile t3 is empty
          simp [slideStep, List.set, clampTile_zero, c0, c1, c2, c3]
          all_goals try rw [clampTile_small t2 (by omega)]
          all_goals try rw [packRow_val (t2) (0) (0) (0) (by omega) (by omega) (by omega) (by omega)]
          all_goals omega
        · -- t3 meets the pending t2
          by_cases d3 : t3 = t2
          · -- merge
            simp [slideStep, List.set, clampTile_zero, c0, c1, c2, c3, d3]
            all_goals try rw [packRow_val (clampTile (t2 + 1)) (0) (0) (0) (clampTile_le _) (by omega) (by omega) (by omega)]
            all_goals have hm0a : 1 ≤ clampTile (t2 + 1) := clampTile_pos _ (by omega)
            all_goals have hm0b : clampTile (t2 + 1) ≤ 15 := clampTile_le _
            all_goals omega
          · -- retire the pending tile
            simp [slideStep, List.set, clampTile_zero, c0, c1, c2, c3, d3]
            all_goals try rw [clampTile_small t2 (by omega)]
            all_goals try rw [clampTile_small t3 (by omega)]
            all_goals try rw [packRow_val (t2) (t3) (0) (0) (by omega) (by omega) (by omega) (by omega)]
            all_goals omega
    · -- t1 becomes the pending tile
      by_cases c2 : t2 = 0
      · -- tile t2 is empty
        by_cases c3 : t3 = 0
        · -- tile t3 is empty
          simp [slideStep, List.set, clampTile_zero, c0, c1, c2, c3]
          all_goals try rw [clampTile_small t1 (by omega)]
          all_goals try rw [packRow_val (t1) (0) (0) (0) (by omega) (by omega) (by omega) (by omega)]
          all_goals omega
        · -- t3 meets the pending t1
          by_cases d3 : t3 = t1
          · -- merge
            simp [slideStep, List.set, clampTile_zero, c0, c1, c2, c3, d3]
            all_goals try rw [packRow_val (clampTile (t1 + 1)) (0) (0) (0) (clampTile_le _) (by omega) (by omega) (by omega)]
            all_goals have hm0a : 1 ≤ clampTile (t1 + 1) := clampTile_pos _ (by omega)
            all_goals have hm0b : clampTile (t1 + 1) ≤ 15 := clampTile_le _
            all_goals omega
          · -- retire the pending tile
            simp [slideStep, List.set, clampTile_zero, c0, c1, c2, c3, d3]
            all_goals try rw [clampTile_small t1 (by omega)]
            all_goals try rw [clampTile_small t3 (by omega)]
            all_goals try rw [packRow_val (t1) (t3) (0) (0) (by omega) (by omega) (by omega) (by omega)]
            all_goals omega
      · -- t2 meets the pending t1
        by_cases d2 : t2 = t1
        · -- merge
          by_cases c3 : t3 = 0
          · -- tile t3 is empty
            simp [slideStep, List.set, clampTile_zero, c0, c1, c2, d2, c3]
            all_goals try rw [packRow_val (clampTile (t1 + 1)) (0) (0) (0) (clampTile_le _) (by omega) (by omega) (by omega)]
            all_goals have hm0a : 1 ≤ clampTile (t1 + 1) := clampTile_pos _ (by omega)
            all_goals have hm0b : clampTile (t1 + 1) ≤ 15 := clampTile_le _
            all_goals omega
          · -- t3 becomes the pending tile
            simp [slideStep, List.set, clampTile_zero, c0, c1, c2, d2, c3]
            all_goals try rw [clampTile_small t3 (by omega)]
            all_goals try rw [packRow_val (clampTile (t1 + 1)) (t3) (0) (0) (clampTile_le _) (by omega) (by omega) (by omega)]
            all_goals have hm0a : 1 ≤ clampTile (t1 + 1) := clampTile_pos _ (by omega)
            all_goals have hm0b : clampTile (t1 + 1) ≤ 15 := clampTile_le _
            all_goals omega
        · -- retire the pending tile
          by_cases c3 : t3 = 0
          · -- tile t3 is empty
            simp [slideStep, List.set, clampTile_zero, c0, c1, c2, d2, c3]
            all_goals try rw [clampTile_small t1 (by omega)]
            all_goals try rw [clampTile_small t2 (by omega)]
            all_goals try rw [packRow_val (t1) (t2) (0) (0) (by omega) (by omega) (by omega) (by omega)]
            all_goals omega
          · -- t3 meets the pending t2
            by_cases d3 : t3 = t2
            · -- merge
              simp [slideStep, List.set, clampTile_zero, c0, c1, c2, d2, c3, d3]
              all_goals try rw [clampTile_small t1 (by omega)]
              all_goals try rw [packRow_val (t1) (clampTile (t2 + 1)) (0) (0) (by omega) (clampTile_le _) (by omega) (by omega)]
              all_goals have hm0a : 1 ≤ clampTile (t2 + 1) := clampTile_pos _ (by omega)
              all_goals have hm0b : clampTile (t2 + 1) ≤ 15 := clampTile_le _
              all_goals omega
            · -- retire the pending tile
              simp [slideStep, List.set, clampTile_zero, c0, c1, c2, d2, c3, d3]
              all_goals try rw [clampTile_small t1 (by omega)]
              all_goals try rw [clampTile_small t2 (by omega)]
              all_goals try rw [clampTile_small t3 (by omega)]
              all_goals try rw [packRow_val (t1) (t2) (t3) (0) (by omega) (by omega) (by omega) (by omega)]
              all_goals omega
  · -- t0 becomes the pending tile
    by_cases c1 : t1 = 0
    · -- tile t1 is empty
      by_cases c2 : t2 = 0
      · -- tile t2 is empty
        by_cases c3 : t3 = 0
        · -- tile t3 is empty
          simp [slideStep, List.set, clampTile_zero, c0, c1, c2, c3]
          all_goals try rw [clampTile_small t0 (by omega)]
          all_goals try rw [packRow_val (t0) (0) (0) (0) (by omega) (by omega) (by omega) (by omega)]
          all_goals omega
        · -- t3 meets the pending t0
          by_cases d3 : t3 = t0
          · -- merge
            simp [slideStep, List.set, clampTile_zero, c0, c1, c2, c3, d3]
            all_goals try rw [packRow_val (clampTile (t0 + 1)) (0) (0) (0) (clampTile_le _) (by omega) (by omega) (by omega)]
            all_goals have hm0a : 1 ≤ clampTile (t0 + 1) := clampTile_pos _ (by omega)
            all_goals have hm0b : clampTile (t0 + 1) ≤ 15 := clampTile_le _
            all_goals omega
          · -- retire the pending tile
            simp [slideStep, List.set, clampTile_zero, c0, c1, c2, c3, d3]
            all_goals try rw [clampTile_small t0 (by omega)]
            all_goals try rw [clampTile_small t3 (by omega)]
            all_goals try rw [packRow_val (t0) (t3) (0) (0) (by omega) (by omega) (by omega) (by omega)]
            all_goals omega
      · -- t2 meets the pending t0
        by_cases d2 : t2 = t0
        · -- merge
          by_cases c3 : t3 = 0
          · -- tile t3 is empty
            simp [slideStep, List.set, clampTile_zero, c0, c1, c2, d2, c3]
            all_goals try rw [packRow_val (clampTile (t0 + 1)) (0) (0) (0) (clampTile_le _) (by omega) (by omega) (by omega)]
            all_goals have hm0a : 1 ≤ clampTile (t0 + 1) := clampTile_pos _ (by omega)
            all_goals have hm0b : clampTile (t0 + 1) ≤ 15 := clampTile_le _
            all_goals omega
          · -- t3 becomes the pending tile
            simp [slideStep, List.set, clampTile_zero, c0, c1, c2, d2, c3]
            all_goals try rw [clampTile_small t3 (by omega)]
            all_goals try rw [packRow_val (clampTile (t0 + 1)) (t3) (0) (0) (clampTile_le _) (by omega) (by omega) (by omega)]
            all_goals have hm0a : 1 ≤ clampTile (t0 + 1) := clampTile_pos _ (by omega)
            all_goals have hm0b : clampTile (t0 + 1) ≤ 15 := clampTile_le _
            all_goals omega
        · -- retire the pending tile
          by_cases c3 : t3 = 0
          · -- tile t3 is empty
            simp [slideStep, List.set, clampTile_zero, c0, c1, c2, d2, c3]
            all_goals try rw [clampTile_small t0 (by omega)]
            all_goals try rw [clampTile_small t2 (by omega)]
            all_goals try rw [packRow_val (t0) (t2) (0) (0) (by omega) (by omega) (by omega) (by omega)]
            all_goals omega
          · -- t3 meets the pending t2
            by_cases d3 : t3 = t2
            · -- merge
              simp [slideStep, List.set, clampTile_zero, c0, c1, c2, d2, c3, d3]
              all_goals try rw [clampTile_small t0 (by omega)]
              all_goals try rw [packRow_val (t0) (clampTile (t2 + 1)) (0) (0) (by omega) (clampTile_le _) (by omega) (by omega)]
              all_goals have hm0a : 1 ≤ clampTile (t2 + 1) := clampTile_pos _ (by omega)
              all_goals have hm0b : clampTile (t2 + 1) ≤ 15 := clampTile_le _
              all_goals omega
            · -- retire the pending tile
              simp [slideStep, List.set, clampTile_zero, c0, c1, c2, d2, c3, d3]
              all_goals try rw [clampTile_small t0 (by omega)]
              all_goals try rw [clampTile_small t2 (by omega)]
              all_goals try rw [clampTile_small t3 (by omega)]
              all_goals try rw [packRow_val (t0) (t2) (t3) (0) (by omega) (by omega) (by omega) (by omega)]
              all_goals omega
    · -- t1 meets the pending t0
      by_cases d1 : t1 = t0
      · -- merge
        by_cases c2 : t2 = 0
        · -- tile t2 is empty
          by_cases c3 : t3 = 0
          · -- tile t3 is empty
            simp [slideStep, List.set, clampTile_zero, c0, c1, d1, c2, c3]
            all_goals try rw [packRow_val (clampTile (t0 + 1)) (0) (0) (0) (clampTile_le _) (by omega) (by omega) (by omega)]
            all_goals have hm0a : 1 ≤ clampTile (t0 + 1) := clampTile_pos _ (by omega)
            all_goals have hm0b : clampTile (t0 + 1) ≤ 15 := clampTile_le _
            all_goals omega
          · -- t3 becomes the pending tile
            simp [slideStep, List.set, clampTile_zero, c0, c1, d1, c2, c3]
            all_goals try rw [clampTile_small t3 (by omega)]
            all_goals try rw [packRow_val (clampTile (t0 + 1)) (t3) (0) (0) (clampTile_le _) (by omega) (by omega) (by omega)]
            all_goals have hm0a : 1 ≤ clampTile (t0 + 1) := clampTile_pos _ (by omega)
            all_goals have hm0b : clampTile (t0 + 1) ≤ 15 := clampTile_le _
            all_goals omega
        · -- t2 becomes the pending tile
          by_cases c3 : t3 = 0
          · -- tile t3 is empty
            simp [slideStep, List.set, clampTile_zero, c0, c1, d1, c2, c3]
            all_goals try rw [clampTile_small t2 (by omega)]
            all_goals try rw [packRow_val (clampTile (t0 + 1)) (t2) (0) (0) (clampTile_le _) (by omega) (by omega) (by omega)]
            all_goals have hm0a : 1 ≤ clampTile (t0 + 1) := clampTile_pos _ (by omega)
            all_goals have hm0b : clampTile (t0 + 1) ≤ 15 := clampTile_le _
            all_goals omega
          · -- t3 meets the pending t2
            by_cases d3 : t3 = t2
            · -- merge
              simp [slideStep, List.set, clampTile_zero, c0, c1, d1, c2, c3, d3]
              all_goals try rw [packRow_val (clampTile (t0 + 1)) (clampTile (t2 + 1)) (0) (0) (clampTile_le _) (clampTile_le _) (by omega) (by omega)]
              all_goals have hm0a : 1 ≤ clampTile (t0 + 1) := clampTile_pos _ (by omega)
              all_goals have hm0b : clampTile (t0 + 1) ≤ 15 := clampTile_le _
              all_goals have hm1a : 1 ≤ clampTile (t2 + 1) := clampTile_pos _ (by omega)
              all_goals have hm1b : clampTile (t2 + 1) ≤ 15 := clampTile_le _
              all_goals omega
            · -- retire the pending tile
              simp [slideStep, List.set, clampTile_zero, c0, c1, d1, c2, c3, d3]
              all_goals try rw [clampTile_small t2 (by omega)]
              all_goals try rw [clampTile_small t3 (by omega)]
              all_goals try rw [packRow_val (clampTile (t0 + 1)) (t2) (t3) (0) (clampTile_le _) (by omega) (by omega) (by omega)]
              all_goals have hm0a : 1 ≤ clampTile (t0 + 1) := clampTile_pos _ (by omega)
              all_goals have hm0b : clampTile (t0 + 1) ≤ 15 := clampTile_le _
              all_goals omega
      · -- retire the pending tile
        by_cases c2 : t2 = 0
        · -- tile t2 is empty
          by_cases c3 : t3 = 0
          · -- tile t3 is empty
            simp [slideStep, List.set, clampTile_zero, c0, c1, d1, c2, c3]
            all_goals try rw [clampTile_small t0 (by omega)]
            all_goals try rw [clampTile_small t1 (by omega)]
            all_goals try rw [packRow_val (t0) (t1) (0) (0) (by omega) (by omega) (by omega) (by omega)]
            all_goals omega
          · -- t3 meets the pending t1
            by_cases d3 : t3 = t1
            · -- merge
              simp [slideStep, List.set, clampTile_zero, c0, c1, d1, c2, c3, d3]
              all_goals try rw [clampTile_small t0 (by omega)]
              all_goals try rw [packRow_val (t0) (clampTile (t1 + 1)) (0) (0) (by omega) (clampTile_le _) (by omega) (by omega)]
              all_goals have hm0a : 1 ≤ clampTile (t1 + 1) := clampTile_pos _ (by omega)
              all_goals have hm0b : clampTile (t1 + 1) ≤ 15 := clampTile_le _
              all_goals omega
            · -- retire the pending tile
              simp [slideStep, List.set, clampTile_zero, c0, c1, d1, c2, c3, d3]
              all_goals try rw [clampTile_small t0 (by omega)]
              all_goals try rw [clampTile_small t1 (by omega)]
              all_goals try rw [clampTile_small t3 (by omega)]
              all_goals try rw [packRow_val (t0) (t1) (t3) (0) (by omega) (by omega) (by omega) (by omega)]
              all_goals omega
        · -- t2 meets the pending t1
          by_cases d2 : t2 = t1
          · -- merge
            by_cases c3 : t3 = 0
            · -- tile t3 is empty
              simp [slideStep, List.set, clampTile_zero, c0, c1, d1, c2, d2, c3]
              all_goals try rw [clampTile_small t0 (by omega)]
              all_goals try rw [packRow_val (t0) (clampTile (t1 + 1)) (0) (0) (by omega) (clampTile_le _) (by omega) (by omega)]
              all_goals have hm0a : 1 ≤ clampTile (t1 + 1) := clampTile_pos _ (by omega)
              all_goals have hm0b : clampTile (t1 + 1) ≤ 15 := clampTile_le _
              all_goals omega
            · -- t3 becomes the pending tile
              simp [slideStep, List.set, clampTile_zero, c0, c1, d1, c2, d2, c3]
              all_goals try rw [clampTile_small t0 (by omega)]
              all_goals try rw [clampTile_small t3 (by omega)]
              all_goals try rw [packRow_val (t0) (clampTile (t1 + 1)) (t3) (0) (by omega) (clampTile_le _) (by omega) (by omega)]
              all_goals have hm0a : 1 ≤ clampTile (t1 + 1) := clampTile_pos _ (by omega)
              all_goals have hm0b : clampTile (t1 + 1) ≤ 15 := clampTile_le _
              all_goals omega
          · -- retire the pending tile
            by_cases c3 : t3 = 0
            · -- tile t3 is empty
              simp [slideStep, List.set, clampTile_zero, c0, c1, d1, c2, d2, c3]
              all_goals try rw [clampTile_small t0 (by omega)]
              all_goals try rw [clampTile_small t1 (by omega)]
              all_goals try rw [clampTile_small t2 (by omega)]
              all_goals try rw [packRow_val (t0) (t1) (t2) (0) (by omega) (by omega) (by omega) (by omega)]
              all_goals omega
            · -- t3 meets the pending t2
              by_cases d3 : t3 = t2
              · -- merge
                simp [slideStep, List.set, clampTile_zero, c0, c1, d1, c2, d2, c3, d3]
                all_goals try rw [clampTile_small t0 (by omega)]
                all_goals try rw [clampTile_small t1 (by omega)]
                all_goals try rw [packRow_val (t0) (t1) (clampTile (t2 + 1)) (0) (by omega) (by omega) (clampTile_le _) (by omega)]
                all_goals have hm0a : 1 ≤ clampTile (t2 + 1) := clampTile_pos _ (by omega)
                all_goals have hm0b : clampTile (t2 + 1) ≤ 15 := clampTile_le _
                all_goals omega
              · -- retire the pending tile
                simp [slideStep, List.set, clampTile_zero, c0, c1, d1, c2, d2, c3, d3]
                all_goals try rw [clampTile_small t0 (by omega)]
                all_goals try rw [clampTile_small t1 (by omega)]
                all_goals try rw [clampTile_small t2 (by omega)]
                all_goals try rw [clampTile_small t3 (by omega)]
                all_goals try rw [packRow_val (t0) (t1) (t2) (t3) (by omega) (by omega) (by omega) (by omega)]
                all_goals omega


/-! ## Nibble-list toolkit -/

theorem ofNibs_testBit (ds : List Nat) (h : ∀ d ∈ ds, d < 16) (j : Nat) :
    (ofNibs ds).testBit j = (ds.getD (j / 4) 0).testBit (j % 4) := by
  induction ds generalizing j with
  | nil => simp [ofNibs]
  | cons d ds ih =>
    have hd : d < 16 := h d (by simp)
    have hds : ∀ x ∈ ds, x < 16 := fun x hx => h x (by simp [hx])
    have hrw : ofNibs (d :: ds) = 2 ^ 4 * ofNibs ds + d := by
      simp [ofNibs]; ring
    rw [hrw, Nat.testBit_mul_pow_two_add _ hd]
    by_cases hj : j < 4
    · have h0 : j / 4 = 0 := by omega
      have hm : j % 4 = j := by omega
      rw [if_pos hj, h0, hm, List.getD_cons_zero]
    · have h1 : j / 4 = ((j - 4) / 4) + 1 := by omega
      have h2 : (j - 4) % 4 = j % 4 := by omega
      rw [if_neg hj, ih hds (j - 4), h1, List.getD_cons_succ, h2]

theorem ofNibs_lt (ds : List Nat) (h : ∀ d ∈ ds, d < 16) :
    ofNibs ds < 16 ^ ds.length := by
  induction ds with
  | nil => simp [ofNibs]
  | cons d ds ih =>
    have hd : d < 16 := h d (by simp)
    have := ih (fun x hx => h x (by simp [hx]))
    simp only [ofNibs, List.length_cons, pow_succ]
    have h16 : 16 ^ ds.length * 16 = 16 * 16 ^ ds.length := by ring
    omega

theorem nib_add_split_land (d e t u : Nat) (hd : d < 16) (he : e < 16) :
    (d + 16 * t) &&& (e + 16 * u) = (d &&& e) + 16 * (t &&& u) := by
  have hde : d &&& e < 16 := lt_of_le_of_lt (Nat.and_le_left) hd
  apply Nat.eq_of_testBit_eq
  intro j
  have h1 : d + 16 * t = 2 ^ 4 * t + d := by ring
  have h2 : e + 16 * u = 2 ^ 4 * u + e := by ring
  have h3 : (d &&& e) + 16 * (t &&& u) = 2 ^ 4 * (t &&& u) + (d &&& e) := by ring
  rw [h1, h2, h3, Nat.testBit_land, Nat.testBit_mul_pow_two_add _ hd,
    Nat.testBit_mul_pow_two_add _ he, Nat.testBit_mul_pow_two_add _ hde]
  by_cases hj : j < 4
  · simp [hj, Nat.testBit_land]
  · simp [hj, Nat.testBit_land]

theorem nib_add_split_lor (d e t u : Nat) (hd : d < 16) (he : e < 16) :
    (d + 16 * t) ||| (e + 16 * u) = (d ||| e) + 16 * (t ||| u) := by
  have hd4 : d < 2 ^ 4 := by omega
  have he4 : e < 2 ^ 4 := by omega
  have hde : d ||| e < 16 := by
    have := Nat.or_lt_two_pow hd4 he4
    omega
  apply Nat.eq_of_testBit_eq
  intro j
  have h1 : d + 16 * t = 2 ^ 4 * t + d := by ring
  have h2 : e + 16 * u = 2 ^ 4 * u + e := by ring
  have h3 : (d ||| e) + 16 * (t ||| u) = 2 ^ 4 * (t ||| u) + (d ||| e) := by ring
  rw [h1, h2, h3, Nat.testBit_lor, Nat.testBit_mul_pow_two_add _ hd,
    Nat.testBit_mul_pow_two_add _ he, Nat.testBit_mul_pow_two_add _ hde]
  by_cases hj : j < 4
  · simp [hj, Nat.testBit_lor]
  · simp [hj, Nat.testBit_lor]

theorem ofNibs_land (ds es : List Nat) (hd : ∀ d ∈ ds, d < 16) (he : ∀ e ∈ es, e < 16) :
    ofNibs ds &&& ofNibs es = ofNibs (List.zipWith (· &&& ·) ds es) := by
  induction ds generalizing es with
  | nil => simp [ofNibs]
  | cons d ds ih =>
    cases es with
    | nil => simp [ofNibs]
    | cons e es =>
      simp only [ofNibs, List.zipWith_cons_cons]
      rw [nib_add_split_land d e _ _ (hd d (by simp)) (he e (by simp)),
        ih es (fun x hx => hd x (by simp [hx])) (fun x hx => he x (by simp [hx]))]

theorem ofNibs_lor (ds es : List Nat) (hlen : ds.length = es.length)
    (hd : ∀ d ∈ ds, d < 16) (he : ∀ e ∈ es, e < 16) :
    ofNibs ds ||| ofNibs es = ofNibs (List.zipWith (· ||| ·) ds es) := by
  induction ds generalizing es with
  | nil =>
    cases es with
    | nil => simp [ofNibs]
    | cons e es => simp at hlen
  | cons d ds ih =>
    cases es with
    | nil => simp at hlen
    | cons e es =>
      simp only [ofNibs, List.zipWith_cons_cons]
      rw [nib_add_split_lor d e _ _ (hd d (by simp)) (he e (by simp)),
        ih es (by simpa using hlen) (fun x hx => hd x (by simp [hx]))
          (fun x hx => he x (by simp [hx]))]

theorem ofNibs_shiftRight4 (ds : List Nat) (hd : ∀ d ∈ ds, d < 16) :
    ofNibs ds >>> 4 = ofNibs ds.tail := by
  cases ds with
  | nil => simp [ofNibs]
  | cons d ds =>
    have : d < 16 := hd d (by simp)
    simp only [ofNibs, List.tail_cons, Nat.shiftRight_eq_div_pow]
    omega

theorem ofNibs_shiftRight_mul4 (ds : List Nat) (k : Nat) (hd : ∀ d ∈ ds, d < 16) :
    ofNibs ds >>> (4 * k) = ofNibs (ds.drop k) := by
  induction k generalizing ds with
  | zero => simp
  | succ k ih =>
    have h1 : 4 * (k + 1) = 4 + 4 * k := by ring
    have h2 : ofNibs ds >>> (4 + 4 * k) = (ofNibs ds >>> 4) >>> (4 * k) := by
      simp [Nat.shiftRight_eq_div_pow, Nat.div_div_eq_div_mul, pow_add]
    rw [h1, h2, ofNibs_shiftRight4 ds hd, ih ds.tail
      (fun x hx => hd x (List.mem_of_mem_tail hx))]
    cases ds <;> simp

theorem ofNibs_shiftLeft_mul4 (ds : List Nat) (k : Nat) :
    ofNibs ds <<< (4 * k) = ofNibs (List.replicate k 0 ++ ds) := by
  induction k with
  | zero => simp
  | succ k ih =>
    have h1 : 4 * (k + 1) = 4 * k + 4 := by ring
    have h2 : ofNibs ds <<< (4 * k + 4) = (ofNibs ds <<< (4 * k)) <<< 4 := by
      simp [Nat.shiftLeft_eq, pow_add]; ring
    rw [h1, h2, ih]
    have h3 : List.replicate (k + 1) 0 ++ ds = 0 :: (List.replicate k 0 ++ ds) := by
      simp [List.replicate_succ]
    rw [h3]
    simp [ofNibs, Nat.shiftLeft_eq]; ring

theorem ofNibs_mod_pow16 (ds : List Nat) (k : Nat) (hd : ∀ d ∈ ds, d < 16) :
    ofNibs ds % 16 ^ k = ofNibs (ds.take k) := by
  induction ds generalizing k with
  | nil => simp [ofNibs, Nat.zero_mod]
  | cons d ds ih =>
    cases k with
    | zero => simp [ofNibs, Nat.mod_one]
    | succ k =>
      have hdlt : d < 16 := hd d (by simp)
      have hds : ∀ x ∈ ds, x < 16 := fun x hx => hd x (by simp [hx])
      simp only [ofNibs, List.take_succ_cons]
      rw [pow_succ]
      obtain ⟨q, r, hr, ha⟩ : ∃ q r, r < 16 ^ k ∧ ofNibs ds = 16 ^ k * q + r :=
        ⟨ofNibs ds / 16 ^ k, ofNibs ds % 16 ^ k, Nat.mod_lt _ (by positivity),
          (Nat.div_add_mod _ _).symm⟩
      have h1 : d + 16 * ofNibs ds = 16 ^ k * 16 * q + (d + 16 * r) := by rw [ha]; ring
      have hlt : d + 16 * r < 16 ^ k * 16 := by
        have h2 : 16 * (r + 1) ≤ 16 * 16 ^ k := Nat.mul_le_mul_left 16 hr
        omega
      have h3 : ofNibs ds % 16 ^ k = r := by
        rw [ha, Nat.mul_add_mod]
        exact Nat.mod_eq_of_lt hr
      rw [h1, Nat.mul_add_mod, Nat.mod_eq_of_lt hlt, ← ih k hds, h3]

theorem ofNibs_append_zeros (ds : List Nat) (k : Nat) :
    ofNibs (ds ++ List.replicate k 0) = ofNibs ds := by
  induction ds with
  | nil =>
    induction k with
    | zero => simp [ofNibs]
    | succ k ih => simpa [List.replicate_succ, ofNibs] using ih
  | cons d ds ih => simp [ofNibs, ih]

theorem ofNibs_eq_zero (ds : List Nat) : ofNibs ds = 0 ↔ ∀ d ∈ ds, d = 0 := by
  induction ds with
  | nil => simp [ofNibs]
  | cons d ds ih =>
    simp only [ofNibs, List.mem_cons]
    constructor
    · intro h
      have hd : d = 0 := by omega
      have ht : ofNibs ds = 0 := by omega
      intro x hx
      rcases hx with hx | hx
      · omega
      · exact ih.mp ht x hx
    · intro h
      have hd : d = 0 := h d (Or.inl rfl)
      have ht : ofNibs ds = 0 := ih.mpr fun x hx => h x (Or.inr hx)
      omega

/-! ## Decompositions -/

theorem exists4 (r : Nat) (hr : r < 65536) :
    ∃ t0 t1 t2 t3 : Nat, t0 < 16 ∧ t1 < 16 ∧ t2 < 16 ∧ t3 < 16 ∧
      r = 4096 * t0 + 256 * t1 + 16 * t2 + t3 := by
  exact ⟨r / 4096 % 16, r / 256 % 16, r / 16 % 16, r % 16, by omega, by omega, by omega,
    by omega, by omega⟩

theorem exists16 (x : Nat) (hx : x < 2 ^ 64) :
    ∃ n0 n1 n2 n3 n4 n5 n6 n7 n8 n9 n10 n11 n12 n13 n14 n15 : Nat,
      n0 < 16 ∧ n1 < 16 ∧ n2 < 16 ∧ n3 < 16 ∧ n4 < 16 ∧ n5 < 16 ∧ n6 < 16 ∧ n7 < 16 ∧
      n8 < 16 ∧ n9 < 16 ∧ n10 < 16 ∧ n11 < 16 ∧ n12 < 16 ∧ n13 < 16 ∧ n14 < 16 ∧ n15 < 16 ∧
      x = ofNibs [n0, n1, n2, n3, n4, n5, n6, n7, n8, n9, n10, n11, n12, n13, n14, n15] := by
  refine ⟨x % 16, x / 16 % 16, x / 16 ^ 2 % 16, x / 16 ^ 3 % 16, x / 16 ^ 4 % 16,
    x / 16 ^ 5 % 16, x / 16 ^ 6 % 16, x / 16 ^ 7 % 16, x / 16 ^ 8 % 16, x / 16 ^ 9 % 16,
    x / 16 ^ 10 % 16, x / 16 ^ 11 % 16, x / 16 ^ 12 % 16, x / 16 ^ 13 % 16,
    x / 16 ^ 14 % 16, x / 16 ^ 15 % 16, ?_, ?_, ?_, ?_, ?_, ?_, ?_, ?_, ?_, ?_, ?_, ?_,
    ?_, ?_, ?_, ?_, ?_⟩
  all_goals first
  | omega
  | (simp only [ofNibs]
     norm_num
     omega)

theorem or_lt_16 {a b : Nat} (ha : a < 16) (hb : b < 16) : a ||| b < 16 := by
  have h1 : a < 2 ^ 4 := by omega
  have h2 : b < 2 ^ 4 := by omega
  have := Nat.or_lt_two_pow h1 h2
  omega

theorem land_fifteen (n : Nat) (h : n < 16) : n &&& 15 = n := by
  have h15 : (15 : Nat) = 2 ^ 4 - 1 := by norm_num
  rw [h15, Nat.and_pow_two_sub_one_eq_mod]
  omega

theorem lor_and_fifteen (a b : Nat) (ha : a < 16) (hb : b < 16) :
    (a ||| b) &&& 15 = a ||| b :=
  land_fifteen _ (or_lt_16 ha hb)

set_option maxHeartbeats 3200000 in
theorem transpose_nibs (n0 n1 n2 n3 n4 n5 n6 n7 n8 n9 n10 n11 n12 n13 n14 n15 : Nat)
    (h0 : n0 < 16) (h1 : n1 < 16) (h2 : n2 < 16) (h3 : n3 < 16) (h4 : n4 < 16) (h5 : n5 < 16) (h6 : n6 < 16) (h7 : n7 < 16) (h8 : n8 < 16) (h9 : n9 < 16) (h10 : n10 < 16) (h11 : n11 < 16) (h12 : n12 < 16) (h13 : n13 < 16) (h14 : n14 < 16) (h15 : n15 < 16) :
    transpose (ofNibs [n0, n1, n2, n3, n4, n5, n6, n7, n8, n9, n10, n11, n12, n13, n14, n15]) = ofNibs [n0, n4, n8, n12, n1, n5, n9, n13, n2, n6, n10, n14, n3, n7, n11, n15] := by
  have hmFF00FF00 : (0xFF00FF00 : Nat) = ofNibs [0, 0, 15, 15, 0, 0, 15, 15, 0, 0, 0, 0, 0, 0, 0, 0] := by decide
  have hmF0F00000F0F0 : (0xF0F00000F0F0 : Nat) = ofNibs [0, 15, 0, 15, 0, 0, 0, 0, 0, 15, 0, 15, 0, 0, 0, 0] := by decide
  have hmFF00FF00000000 : (0xFF00FF00000000 : Nat) = ofNibs [0, 0, 0, 0, 0, 0, 0, 0, 15, 15, 0, 0, 15, 15, 0, 0] := by decide
  have hmF0F00000F0F0000 : (0xF0F00000F0F0000 : Nat) = ofNibs [0, 0, 0, 0, 15, 0, 15, 0, 0, 0, 0, 0, 15, 0, 15, 0] := by decide
  have hmF0F00F0FF0F00F0F : (0xF0F00F0FF0F00F0F : Nat) = ofNibs [15, 0, 15, 0, 0, 15, 0, 15, 15, 0, 15, 0, 0, 15, 0, 15] := by decide
  have hmFF00FF0000FF00FF : (0xFF00FF0000FF00FF : Nat) = ofNibs [15, 15, 0, 0, 15, 15, 0, 0, 0, 0, 15, 15, 0, 0, 15, 15] := by decide
  simp only [transpose]
  have e1 : ofNibs [n0, n1, n2, n3, n4, n5, n6, n7, n8, n9, n10, n11, n12, n13, n14, n15] &&& 0xF0F00F0FF0F00F0F = ofNibs [n0, 0, n2, 0, 0, n5, 0, n7, n8, 0, n10, 0, 0, n13, 0, n15] := by
    rw [hmF0F00F0FF0F00F0F, ofNibs_land _ _ (by intro d hd; fin_cases hd <;> first | omega | (exact or_lt_16 (by omega) (by omega)) | (exact or_lt_16 (or_lt_16 (by omega) (by omega)) (by omega))) (by intro d hd; fin_cases hd <;> first | omega | (exact or_lt_16 (by omega) (by omega)) | (exact or_lt_16 (or_lt_16 (by omega) (by omega)) (by omega)))]
    simp only [List.zipWith_cons_cons, List.zipWith_nil_right, List.zipWith_nil_left,
      land_fifteen n0 h0, land_fifteen n1 h1, land_fifteen n2 h2, land_fifteen n3 h3, land_fifteen n4 h4, land_fifteen n5 h5, land_fifteen n6 h6, land_fifteen n7 h7, land_fifteen n8 h8, land_fifteen n9 h9, land_fifteen n10 h10, land_fifteen n11 h11, land_fifteen n12 h12, land_fifteen n13 h13, land_fifteen n14 h14, land_fifteen n15 h15, Nat.and_zero, Nat.zero_and, Nat.and_self, lor_and_fifteen]
  rw [e1]
  have e2 : ofNibs [n0, n1, n2, n3, n4, n5, n6, n7, n8, n9, n10, n11, n12, n13, n14, n15] &&& 0xF0F00000F0F0 = ofNibs [0, n1, 0, n3, 0, 0, 0, 0, 0, n9, 0, n11, 0, 0, 0, 0] := by
    rw [hmF0F00000F0F0, ofNibs_land _ _ (by intro d hd; fin_cases hd <;> first | omega | (exact or_lt_16 (by omega) (by omega)) | (exact or_lt_16 (or_lt_16 (by omega) (by omega)) (by omega))) (by intro d hd; fin_cases hd <;> first | omega | (exact or_lt_16 (by omega) (by omega)) | (exact or_lt_16 (or_lt_16 (by omega) (by omega)) (by omega)))]
    simp only [List.zipWith_cons_cons, List.zipWith_nil_right, List.zipWith_nil_left,
      land_fifteen n0 h0, land_fifteen n1 h1, land_fifteen n2 h2, land_fifteen n3 h3, land_fifteen n4 h4, land_fifteen n5 h5, land_fifteen n6 h6, land_fifteen n7 h7, land_fifteen n8 h8, land_fifteen n9 h9, land_fifteen n10 h10, land_fifteen n11 h11, land_fifteen n12 h12, land_fifteen n13 h13, land_fifteen n14 h14, land_fifteen n15 h15, Nat.and_zero, Nat.zero_and, Nat.and_self, lor_and_fifteen]
  rw [e2]
  have e3 : ofNibs [n0, n1, n2, n3, n4, n5, n6, n7, n8, n9, n10, n11, n12, n13, n14, n15] &&& 0xF0F00000F0F0000 = ofNibs [0, 0, 0, 0, n4, 0, n6, 0, 0, 0, 0, 0, n12, 0, n14, 0] := by
    rw [hmF0F00000F0F0000, ofNibs_land _ _ (by intro d hd; fin_cases hd <;> first | omega | (exact or_lt_16 (by omega) (by omega)) | (exact or_lt_16 (or_lt_16 (by omega) (by omega)) (by omega))) (by intro d hd; fin_cases hd <;> first | omega | (exact or_lt_16 (by omega) (by omega)) | (exact or_lt_16 (or_lt_16 (by omega) (by omega)) (by omega)))]
    simp only [List.zipWith_cons_cons, List.zipWith_nil_right, List.zipWith_nil_left,
      land_fifteen n0 h0, land_fifteen n1 h1, land_fifteen n2 h2, land_fifteen n3 h3, land_fifteen n4 h4, land_fifteen n5 h5, land_fifteen n6 h6, land_fifteen n7 h7, land_fifteen n8 h8, land_fifteen n9 h9, land_fifteen n10 h10, land_fifteen n11 h11, land_fifteen n12 h12, land_fifteen n13 h13, land_fifteen n14 h14, land_fifteen n15 h15, Nat.and_zero, Nat.zero_and, Nat.and_self, lor_and_fifteen]
  rw [e3]
  have e4 : (ofNibs [0, n1, 0, n3, 0, 0, 0, 0, 0, n9, 0, n11, 0, 0, 0, 0] <<< 12) % 2 ^ 64 = ofNibs [0, 0, 0, 0, n1, 0, n3, 0, 0, 0, 0, 0, n9, 0, n11, 0] := by
    rw [show (12 : Nat) = 4 * 3 by norm_num, ofNibs_shiftLeft_mul4,
      show (2 : Nat) ^ 64 = 16 ^ 16 by norm_num, ofNibs_mod_pow16 _ _ (by intro d hd; fin_cases hd <;> first | omega | (exact or_lt_16 (by omega) (by omega)) | (exact or_lt_16 (or_lt_16 (by omega) (by omega)) (by omega)))]
    simp [ofNibs]
    try ring
  rw [e4]
  have e5 : ofNibs [0, 0, 0, 0, n4, 0, n6, 0, 0, 0, 0, 0, n12, 0, n14, 0] >>> 12 = ofNibs [0, n4, 0, n6, 0, 0, 0, 0, 0, n12, 0, n14, 0, 0, 0, 0] := by
    rw [show (12 : Nat) = 4 * 3 by norm_num, ofNibs_shiftRight_mul4 _ _ (by intro d hd; fin_cases hd <;> first | omega | (exact or_lt_16 (by omega) (by omega)) | (exact or_lt_16 (or_lt_16 (by omega) (by omega)) (by omega)))]
    simp [ofNibs]
    try ring
  rw [e5]
  have e6 : ofNibs [n0, 0, n2, 0, 0, n5, 0, n7, n8, 0, n10, 0, 0, n13, 0, n15] ||| ofNibs [0, 0, 0, 0, n1, 0, n3, 0, 0, 0, 0, 0, n9, 0, n11, 0] = ofNibs [n0, 0, n2, 0, n1, n5, n3, n7, n8, 0, n10, 0, n9, n13, n11, n15] := by
    rw [ofNibs_lor _ _ (by simp) (by intro d hd; fin_cases hd <;> first | omega | (exact or_lt_16 (by omega) (by omega)) | (exact or_lt_16 (or_lt_16 (by omega) (by omega)) (by omega))) (by intro d hd; fin_cases hd <;> first | omega | (exact or_lt_16 (by omega) (by omega)) | (exact or_lt_16 (or_lt_16 (by omega) (by omega)) (by omega)))]
    simp only [List.zipWith_cons_cons, List.zipWith_nil_right, List.zipWith_nil_left,
      Nat.or_zero, Nat.zero_or]
  rw [e6]
  have e7 : ofNibs [n0, 0, n2, 0, n1, n5, n3, n7, n8, 0, n10, 0, n9, n13, n11, n15] ||| ofNibs [0, n4, 0, n6, 0, 0, 0, 0, 0, n12, 0, n14, 0, 0, 0, 0] = ofNibs [n0, n4, n2, n6, n1, n5, n3, n7, n8, n12, n10, n14, n9, n13, n11, n15] := by
    rw [ofNibs_lor _ _ (by simp) (by intro d hd; fin_cases hd <;> first | omega | (exact or_lt_16 (by omega) (by omega)) | (exact or_lt_16 (or_lt_16 (by omega) (by omega)) (by omega))) (by intro d hd; fin_cases hd <;> first | omega | (exact or_lt_16 (by omega) (by omega)) | (exact or_lt_16 (or_lt_16 (by omega) (by omega)) (by omega)))]
    simp only [List.zipWith_cons_cons, List.zipWith_nil_right, List.zipWith_nil_left,
      Nat.or_zero, Nat.zero_or]
  rw [e7]
  have e8 : ofNibs [n0, n4, n2, n6, n1, n5, n3, n7, n8, n12, n10, n14, n9, n13, n11, n15] &&& 0xFF00FF0000FF00FF = ofNibs [n0, n4, 0, 0, n1, n5, 0, 0, 0, 0, n10, n14, 0, 0, n11, n15] := by
    rw [hmFF00FF0000FF00FF, ofNibs_land _ _ (by intro d hd; fin_cases hd <;> first | omega | (exact or_lt_16 (by omega) (by omega)) | (exact or_lt_16 (or_lt_16 (by omega) (by omega)) (by omega))) (by intro d hd; fin_cases hd <;> first | omega | (exact or_lt_16 (by omega) (by omega)) | (exact or_lt_16 (or_lt_16 (by omega) (by omega)) (by omega)))]
    simp only [List.zipWith_cons_cons, List.zipWith_nil_right, List.zipWith_nil_left,
      land_fifteen n0 h0, land_fifteen n1 h1, land_fifteen n2 h2, land_fifteen n3 h3, land_fifteen n4 h4, land_fifteen n5 h5, land_fifteen n6 h6, land_fifteen n7 h7, land_fifteen n8 h8, land_fifteen n9 h9, land_fifteen n10 h10, land_fifteen n11 h11, land_fifteen n12 h12, land_fifteen n13 h13, land_fifteen n14 h14, land_fifteen n15 h15, Nat.and_zero, Nat.zero_and, Nat.and_self, lor_and_fifteen]
  rw [e8]
  have e9 : ofNibs [n0, n4, n2, n6, n1, n5, n3, n7, n8, n12, n10, n14, n9, n13, n11, n15] &&& 0xFF00FF00000000 = ofNibs [0, 0, 0, 0, 0, 0, 0, 0, n8, n12, 0, 0, n9, n13, 0, 0] := by
    rw [hmFF00FF00000000, ofNibs_land _ _ (by intro d hd; fin_cases hd <;> first | omega | (exact or_lt_16 (by omega) (by omega)) | (exact or_lt_16 (or_lt_16 (by omega) (by omega)) (by omega))) (by intro d hd; fin_cases hd <;> first | omega | (exact or_lt_16 (by omega) (by omega)) | (exact or_lt_16 (or_lt_16 (by omega) (by omega)) (by omega)))]
    simp only [List.zipWith_cons_cons, List.zipWith_nil_right, List.zipWith_nil_left,
      land_fifteen n0 h0, land_fifteen n1 h1, land_fifteen n2 h2, land_fifteen n3 h3, land_fifteen n4 h4, land_fifteen n5 h5, land_fifteen n6 h6, land_fifteen n7 h7, land_fifteen n8 h8, land_fifteen n9 h9, land_fifteen n10 h10, land_fifteen n11 h11, land_fifteen n12 h12, land_fifteen n13 h13, land_fifteen n14 h14, land_fifteen n15 h15, Nat.and_zero, Nat.zero_and, Nat.and_self, lor_and_fifteen]
  rw [e9]
  have e10 : ofNibs [n0, n4, n2, n6, n1, n5, n3, n7, n8, n12, n10, n14, n9, n13, n11, n15] &&& 0xFF00FF00 = ofNibs [0, 0, n2, n6, 0, 0, n3, n7, 0, 0, 0, 0, 0, 0, 0, 0] := by
    rw [hmFF00FF00, ofNibs_land _ _ (by intro d hd; fin_cases hd <;> first | omega | (exact or_lt_16 (by omega) (by omega)) | (exact or_lt_16 (or_lt_16 (by omega) (by omega)) (by omega))) (by intro d hd; fin_cases hd <;> first | omega | (exact or_lt_16 (by omega) (by omega)) | (exact or_lt_16 (or_lt_16 (by omega) (by omega)) (by omega)))]
    simp only [List.zipWith_cons_cons, List.zipWith_nil_right, List.zipWith_nil_left,
      land_fifteen n0 h0, land_fifteen n1 h1, land_fifteen n2 h2, land_fifteen n3 h3, land_fifteen n4 h4, land_fifteen n5 h5, land_fifteen n6 h6, land_fifteen n7 h7, land_fifteen n8 h8, land_fifteen n9 h9, land_fifteen n10 h10, land_fifteen n11 h11, land_fifteen n12 h12, land_fifteen n13 h13, land_fifteen n14 h14, land_fifteen n15 h15, Nat.and_zero, Nat.zero_and, Nat.and_self, lor_and_fifteen]
  rw [e10]
  have e11 : ofNibs [0, 0, 0, 0, 0, 0, 0, 0, n8, n12, 0, 0, n9, n13, 0, 0] >>> 24 = ofNibs [0, 0, n8, n12, 0, 0, n9, n13, 0, 0, 0, 0, 0, 0, 0, 0] := by
    rw [show (24 : Nat) = 4 * 6 by norm_num, ofNibs_shiftRight_mul4 _ _ (by intro d hd; fin_cases hd <;> first | omega | (exact or_lt_16 (by omega) (by omega)) | (exact or_lt_16 (or_lt_16 (by omega) (by omega)) (by omega)))]
    simp [ofNibs]
    try ring
  rw [e11]
  have e12 : (ofNibs [0, 0, n2, n6, 0, 0, n3, n7, 0, 0, 0, 0, 0, 0, 0, 0] <<< 24) % 2 ^ 64 = ofNibs [0, 0, 0, 0, 0, 0, 0, 0, n2, n6, 0, 0, n3, n7, 0, 0] := by
    rw [show (24 : Nat) = 4 * 6 by norm_num, ofNibs_shiftLeft_mul4,
      show (2 : Nat) ^ 64 = 16 ^ 16 by norm_num, ofNibs_mod_pow16 _ _ (by intro d hd; fin_cases hd <;> first | omega | (exact or_lt_16 (by omega) (by omega)) | (exact or_lt_16 (or_lt_16 (by omega) (by omega)) (by omega)))]
    simp [ofNibs]
    try ring
  rw [e12]
  have e13 : ofNibs [n0, n4, 0, 0, n1, n5, 0, 0, 0, 0, n10, n14, 0, 0, n11, n15] ||| ofNibs [0, 0, n8, n12, 0, 0, n9, n13, 0, 0, 0, 0, 0, 0, 0, 0] = ofNibs [n0, n4, n8, n12, n1, n5, n9, n13, 0, 0, n10, n14, 0, 0, n11, n15] := by
    rw [ofNibs_lor _ _ (by simp) (by intro d hd; fin_cases hd <;> first | omega | (exact or_lt_16 (by omega) (by omega)) | (exact or_lt_16 (or_lt_16 (by omega) (by omega)) (by omega))) (by intro d hd; fin_cases hd <;> first | omega | (exact or_lt_16 (by omega) (by omega)) | (exact or_lt_16 (or_lt_16 (by omega) (by omega)) (by omega)))]
    simp only [List.zipWith_cons_cons, List.zipWith_nil_right, List.zipWith_nil_left,
      Nat.or_zero, Nat.zero_or]
  rw [e13]
  have e14 : ofNibs [n0, n4, n8, n12, n1, n5, n9, n13, 0, 0, n10, n14, 0, 0, n11, n15] ||| ofNibs [0, 0, 0, 0, 0, 0, 0, 0, n2, n6, 0, 0, n3, n7, 0, 0] = ofNibs [n0, n4, n8, n12, n1, n5, n9, n13, n2, n6, n10, n14, n3, n7, n11, n15] := by
    rw [ofNibs_lor _ _ (by simp) (by intro d hd; fin_cases hd <;> first | omega | (exact or_lt_16 (by omega) (by omega)) | (exact or_lt_16 (or_lt_16 (by omega) (by omega)) (by omega))) (by intro d hd; fin_cases hd <;> first | omega | (exact or_lt_16 (by omega) (by omega)) | (exact or_lt_16 (or_lt_16 (by omega) (by omega)) (by omega)))]
    simp only [List.zipWith_cons_cons, List.zipWith_nil_right, List.zipWith_nil_left,
      Nat.or_zero, Nat.zero_or]
  rw [e14]

set_option maxHeartbeats 1600000 in
theorem reverseRow_nibs (a b c d : Nat) (ha : a < 16) (hb : b < 16) (hc : c < 16)
    (hd : d < 16) :
    reverseRow (ofNibs [a, b, c, d]) = ofNibs [d, c, b, a] := by
  have hmF0 : (0xF0 : Nat) = ofNibs [0, 15, 0, 0] := by decide
  have hmF00 : (0xF00 : Nat) = ofNibs [0, 0, 15, 0] := by decide
  simp only [reverseRow]
  have e1 : ofNibs [a, b, c, d] >>> 12 = ofNibs [d, 0, 0, 0] := by
    rw [show (12 : Nat) = 4 * 3 by norm_num, ofNibs_shiftRight_mul4 _ _ (by intro d hd; fin_cases hd <;> first | omega | (exact or_lt_16 (by omega) (by omega)) | (exact or_lt_16 (or_lt_16 (by omega) (by omega)) (by omega)))]
    simp [ofNibs]
    try ring
  rw [e1]
  have e2 : ofNibs [a, b, c, d] >>> 4 = ofNibs [b, c, d, 0] := by
    rw [show (4 : Nat) = 4 * 1 by norm_num, ofNibs_shiftRight_mul4 _ _ (by intro d hd; fin_cases hd <;> first | omega | (exact or_lt_16 (by omega) (by omega)) | (exact or_lt_16 (or_lt_16 (by omega) (by omega)) (by omega)))]
    simp [ofNibs]
    try ring
  rw [e2]
  have e3 : ofNibs [b, c, d, 0] &&& 0xF0 = ofNibs [0, c, 0, 0] := by
    rw [hmF0, ofNibs_land _ _ (by intro d hd; fin_cases hd <;> first | omega | (exact or_lt_16 (by omega) (by omega)) | (exact or_lt_16 (or_lt_16 (by omega) (by omega)) (by omega))) (by intro d hd; fin_cases hd <;> first | omega | (exact or_lt_16 (by omega) (by omega)) | (exact or_lt_16 (or_lt_16 (by omega) (by omega)) (by omega)))]
    simp only [List.zipWith_cons_cons, List.zipWith_nil_right, List.zipWith_nil_left,
      land_fifteen a ha, land_fifteen b hb, land_fifteen c hc, land_fifteen d hd, Nat.and_zero, Nat.zero_and, Nat.and_self, lor_and_fifteen]
  rw [e3]
  have e4 : ofNibs [a, b, c, d] <<< 4 = ofNibs [0, a, b, c, d] := by
    rw [show (4 : Nat) = 4 * 1 by norm_num, ofNibs_shiftLeft_mul4]
    simp [ofNibs]
    try ring
  rw [e4]
  have e5 : ofNibs [0, a, b, c, d] &&& 0xF00 = ofNibs [0, 0, b, 0] := by
    rw [hmF00, ofNibs_land _ _ (by intro d hd; fin_cases hd <;> first | omega | (exact or_lt_16 (by omega) (by omega)) | (exact or_lt_16 (or_lt_16 (by omega) (by omega)) (by omega))) (by intro d hd; fin_cases hd <;> first | omega | (exact or_lt_16 (by omega) (by omega)) | (exact or_lt_16 (or_lt_16 (by omega) (by omega)) (by omega)))]
    simp only [List.zipWith_cons_cons, List.zipWith_nil_right, List.zipWith_nil_left,
      land_fifteen a ha, land_fifteen b hb, land_fifteen c hc, land_fifteen d hd, Nat.and_zero, Nat.zero_and, Nat.and_self, lor_and_fifteen]
  rw [e5]
  have e6 : (ofNibs [a, b, c, d] <<< 12) % 2 ^ 16 = ofNibs [0, 0, 0, a] := by
    rw [show (12 : Nat) = 4 * 3 by norm_num, ofNibs_shiftLeft_mul4,
      show (2 : Nat) ^ 16 = 16 ^ 4 by norm_num, ofNibs_mod_pow16 _ _ (by intro d hd; fin_cases hd <;> first | omega | (exact or_lt_16 (by omega) (by omega)) | (exact or_lt_16 (or_lt_16 (by omega) (by omega)) (by omega)))]
    simp [ofNibs]
    try ring
  rw [e6]
  have e7 : ofNibs [d, 0, 0, 0] ||| ofNibs [0, c, 0, 0] = ofNibs [d, c, 0, 0] := by
    rw [ofNibs_lor _ _ (by simp) (by intro d hd; fin_cases hd <;> first | omega | (exact or_lt_16 (by omega) (by omega)) | (exact or_lt_16 (or_lt_16 (by omega) (by omega)) (by omega))) (by intro d hd; fin_cases hd <;> first | omega | (exact or_lt_16 (by omega) (by omega)) | (exact or_lt_16 (or_lt_16 (by omega) (by omega)) (by omega)))]
    simp only [List.zipWith_cons_cons, List.zipWith_nil_right, List.zipWith_nil_left,
      Nat.or_zero, Nat.zero_or]
  rw [e7]
  have e8 : ofNibs [d, c, 0, 0] ||| ofNibs [0, 0, b, 0] = ofNibs [d, c, b, 0] := by
    rw [ofNibs_lor _ _ (by simp) (by intro d hd; fin_cases hd <;> first | omega | (exact or_lt_16 (by omega) (by omega)) | (exact or_lt_16 (or_lt_16 (by omega) (by omega)) (by omega))) (by intro d hd; fin_cases hd <;> first | omega | (exact or_lt_16 (by omega) (by omega)) | (exact or_lt_16 (or_lt_16 (by omega) (by omega)) (by omega)))]
    simp only [List.zipWith_cons_cons, List.zipWith_nil_right, List.zipWith_nil_left,
      Nat.or_zero, Nat.zero_or]
  rw [e8]
  have e9 : ofNibs [d, c, b, 0] ||| ofNibs [0, 0, 0, a] = ofNibs [d, c, b, a] := by
    rw [ofNibs_lor _ _ (by simp) (by intro d hd; fin_cases hd <;> first | omega | (exact or_lt_16 (by omega) (by omega)) | (exact or_lt_16 (or_lt_16 (by omega) (by omega)) (by omega))) (by intro d hd; fin_cases hd <;> first | omega | (exact or_lt_16 (by omega) (by omega)) | (exact or_lt_16 (or_lt_16 (by omega) (by omega)) (by omega)))]
    simp only [List.zipWith_cons_cons, List.zipWith_nil_right, List.zipWith_nil_left,
      Nat.or_zero, Nat.zero_or]
  rw [e9]

set_option maxHeartbeats 1600000 in
theorem columnFromRow_nibs (a b c d : Nat) (ha : a < 16) (hb : b < 16) (hc : c < 16)
    (hd : d < 16) :
    columnFromRow (ofNibs [a, b, c, d]) =
    ofNibs [a, 0, 0, 0, b, 0, 0, 0, c, 0, 0, 0, d, 0, 0, 0] := by
  have hmF000F000F000F : (0xF000F000F000F : Nat) = ofNibs [15, 0, 0, 0, 15, 0, 0, 0, 15, 0, 0, 0, 15, 0, 0, 0] := by decide
  simp only [columnFromRow]
  have e1 : ofNibs [a, b, c, d] <<< 12 = ofNibs [0, 0, 0, a, b, c, d, 0, 0, 0, 0, 0, 0, 0, 0, 0] := by
    rw [show (12 : Nat) = 4 * 3 by norm_num, ofNibs_shiftLeft_mul4]
    simp [ofNibs]
    try ring
  rw [e1]
  have e2 : ofNibs [a, b, c, d] <<< 24 = ofNibs [0, 0, 0, 0, 0, 0, a, b, c, d, 0, 0, 0, 0, 0, 0] := by
    rw [show (24 : Nat) = 4 * 6 by norm_num, ofNibs_shiftLeft_mul4]
    simp [ofNibs]
    try ring
  rw [e2]
  have e3 : ofNibs [a, b, c, d] <<< 36 = ofNibs [0, 0, 0, 0, 0, 0, 0, 0, 0, a, b, c, d, 0, 0, 0] := by
    rw [show (36 : Nat) = 4 * 9 by norm_num, ofNibs_shiftLeft_mul4]
    simp [ofNibs]
    try ring
  rw [e3]
  have e4 : ofNibs [a, b, c, d] = ofNibs [a, b, c, d, 0, 0, 0, 0, 0, 0, 0, 0, 0, 0, 0, 0] := by
    simp [ofNibs]
    try ring
  rw [e4]
  have e5 : ofNibs [a, b, c, d, 0, 0, 0, 0, 0, 0, 0, 0, 0, 0, 0, 0] ||| ofNibs [0, 0, 0, a, b, c, d, 0, 0, 0, 0, 0, 0, 0, 0, 0] = ofNibs [a, b, c, (d ||| a), b, c, d, 0, 0, 0, 0, 0, 0, 0, 0, 0] := by
    rw [ofNibs_lor _ _ (by simp) (by intro d hd; fin_cases hd <;> first | omega | (exact or_lt_16 (by omega) (by omega)) | (exact or_lt_16 (or_lt_16 (by omega) (by omega)) (by omega))) (by intro d hd; fin_cases hd <;> first | omega | (exact or_lt_16 (by omega) (by omega)) | (exact or_lt_16 (or_lt_16 (by omega) (by omega)) (by omega)))]
    simp only [List.zipWith_cons_cons, List.zipWith_nil_right, List.zipWith_nil_left,
      Nat.or_zero, Nat.zero_or]
  rw [e5]
  have e6 : ofNibs [a, b, c, (d ||| a), b, c, d, 0, 0, 0, 0, 0, 0, 0, 0, 0] ||| ofNibs [0, 0, 0, 0, 0, 0, a, b, c, d, 0, 0, 0, 0, 0, 0] = ofNibs [a, b, c, (d ||| a), b, c, (d ||| a), b, c, d, 0, 0, 0, 0, 0, 0] := by
    rw [ofNibs_lor _ _ (by simp) (by intro d hd; fin_cases hd <;> first | omega | (exact or_lt_16 (by omega) (by omega)) | (exact or_lt_16 (or_lt_16 (by omega) (by omega)) (by omega))) (by intro d hd; fin_cases hd <;> first | omega | (exact or_lt_16 (by omega) (by omega)) | (exact or_lt_16 (or_lt_16 (by omega) (by omega)) (by omega)))]
    simp only [List.zipWith_cons_cons, List.zipWith_nil_right, List.zipWith_nil_left,
      Nat.or_zero, Nat.zero_or]
  rw [e6]
  have e7 : ofNibs [a, b, c, (d ||| a), b, c, (d ||| a), b, c, d, 0, 0, 0, 0, 0, 0] ||| ofNibs [0, 0, 0, 0, 0, 0, 0, 0, 0, a, b, c, d, 0, 0, 0] = ofNibs [a, b, c, (d ||| a), b, c, (d ||| a), b, c, (d ||| a), b, c, d, 0, 0, 0] := by
    rw [ofNibs_lor _ _ (by simp) (by intro d hd; fin_cases hd <;> first | omega | (exact or_lt_16 (by omega) (by omega)) | (exact or_lt_16 (or_lt_16 (by omega) (by omega)) (by omega))) (by intro d hd; fin_cases hd <;> first | omega | (exact or_lt_16 (by omega) (by omega)) | (exact or_lt_16 (or_lt_16 (by omega) (by omega)) (by omega)))]
    simp only [List.zipWith_cons_cons, List.zipWith_nil_right, List.zipWith_nil_left,
      Nat.or_zero, Nat.zero_or]
  rw [e7]
  have e8 : ofNibs [a, b, c, (d ||| a), b, c, (d ||| a), b, c, (d ||| a), b, c, d, 0, 0, 0] &&& 0xF000F000F000F = ofNibs [a, 0, 0, 0, b, 0, 0, 0, c, 0, 0, 0, d, 0, 0, 0] := by
    rw [hmF000F000F000F, ofNibs_land _ _ (by intro d hd; fin_cases hd <;> first | omega | (exact or_lt_16 (by omega) (by omega)) | (exact or_lt_16 (or_lt_16 (by omega) (by omega)) (by omega))) (by intro d hd; fin_cases hd <;> first | omega | (exact or_lt_16 (by omega) (by omega)) | (exact or_lt_16 (or_lt_16 (by omega) (by omega)) (by omega)))]
    simp only [List.zipWith_cons_cons, List.zipWith_nil_right, List.zipWith_nil_left,
      land_fifteen a ha, land_fifteen b hb, land_fifteen c hc, land_fifteen d hd, Nat.and_zero, Nat.zero_and, Nat.and_self, lor_and_fifteen]
  rw [e8]

set_option maxHeartbeats 1600000 in
theorem fromRows_nibs (p0 q0 r0 s0 p1 q1 r1 s1 p2 q2 r2 s2 p3 q3 r3 s3 : Nat)
    (hp0 : p0 < 16) (hq0 : q0 < 16) (hr0 : r0 < 16) (hs0 : s0 < 16) (hp1 : p1 < 16) (hq1 : q1 < 16) (hr1 : r1 < 16) (hs1 : s1 < 16) (hp2 : p2 < 16) (hq2 : q2 < 16) (hr2 : r2 < 16) (hs2 : s2 < 16) (hp3 : p3 < 16) (hq3 : q3 < 16) (hr3 : r3 < 16) (hs3 : s3 < 16) :
    fromRows [ofNibs [p0, q0, r0, s0], ofNibs [p1, q1, r1, s1], ofNibs [p2, q2, r2, s2], ofNibs [p3, q3, r3, s3]] =
    ofNibs [p3, q3, r3, s3, p2, q2, r2, s2, p1, q1, r1, s1, p0, q0, r0, s0] := by
  simp only [fromRows, List.getD_cons_zero, List.getD_cons_succ]
  have e1 : ofNibs [p0, q0, r0, s0] <<< 48 = ofNibs [0, 0, 0, 0, 0, 0, 0, 0, 0, 0, 0, 0, p0, q0, r0, s0] := by
    rw [show (48 : Nat) = 4 * 12 by norm_num, ofNibs_shiftLeft_mul4]
    simp [ofNibs]
    try ring
  rw [e1]
  have e2 : ofNibs [p1, q1, r1, s1] <<< 32 = ofNibs [0, 0, 0, 0, 0, 0, 0, 0, p1, q1, r1, s1, 0, 0, 0, 0] := by
    rw [show (32 : Nat) = 4 * 8 by norm_num, ofNibs_shiftLeft_mul4]
    simp [ofNibs]
    try ring
  rw [e2]
  have e3 : ofNibs [p2, q2, r2, s2] <<< 16 = ofNibs [0, 0, 0, 0, p2, q2, r2, s2, 0, 0, 0, 0, 0, 0, 0, 0] := by
    rw [show (16 : Nat) = 4 * 4 by norm_num, ofNibs_shiftLeft_mul4]
    simp [ofNibs]
    try ring
  rw [e3]
  have e4 : ofNibs [p3, q3, r3, s3] = ofNibs [p3, q3, r3, s3, 0, 0, 0, 0, 0, 0, 0, 0, 0, 0, 0, 0] := by
    simp [ofNibs]
    try ring
  rw [e4]
  have e5 : ofNibs [0, 0, 0, 0, 0, 0, 0, 0, 0, 0, 0, 0, p0, q0, r0, s0] ||| ofNibs [0, 0, 0, 0, 0, 0, 0, 0, p1, q1, r1, s1, 0, 0, 0, 0] = ofNibs [0, 0, 0, 0, 0, 0, 0, 0, p1, q1, r1, s1, p0, q0, r0, s0] := by
    rw [ofNibs_lor _ _ (by simp) (by intro d hd; fin_cases hd <;> first | omega | (exact or_lt_16 (by omega) (by omega)) | (exact or_lt_16 (or_lt_16 (by omega) (by omega)) (by omega))) (by intro d hd; fin_cases hd <;> first | omega | (exact or_lt_16 (by omega) (by omega)) | (exact or_lt_16 (or_lt_16 (by omega) (by omega)) (by omega)))]
    simp only [List.zipWith_cons_cons, List.zipWith_nil_right, List.zipWith_nil_left,
      Nat.or_zero, Nat.zero_or]
  rw [e5]
  have e6 : ofNibs [0, 0, 0, 0, 0, 0, 0, 0, p1, q1, r1, s1, p0, q0, r0, s0] ||| ofNibs [0, 0, 0, 0, p2, q2, r2, s2, 0, 0, 0, 0, 0, 0, 0, 0] = ofNibs [0, 0, 0, 0, p2, q2, r2, s2, p1, q1, r1, s1, p0, q0, r0, s0] := by
    rw [ofNibs_lor _ _ (by simp) (by intro d hd; fin_cases hd <;> first | omega | (exact or_lt_16 (by omega) (by omega)) | (exact or_lt_16 (or_lt_16 (by omega) (by omega)) (by omega))) (by intro d hd; fin_cases hd <;> first | omega | (exact or_lt_16 (by omega) (by omega)) | (exact or_lt_16 (or_lt_16 (by omega) (by omega)) (by omega)))]
    simp only [List.zipWith_cons_cons, List.zipWith_nil_right, List.zipWith_nil_left,
      Nat.or_zero, Nat.zero_or]
  rw [e6]
  have e7 : ofNibs [0, 0, 0, 0, p2, q2, r2, s2, p1, q1, r1, s1, p0, q0, r0, s0] ||| ofNibs [p3, q3, r3, s3, 0, 0, 0, 0, 0, 0, 0, 0, 0, 0, 0, 0] = ofNibs [p3, q3, r3, s3, p2, q2, r2, s2, p1, q1, r1, s1, p0, q0, r0, s0] := by
    rw [ofNibs_lor _ _ (by simp) (by intro d hd; fin_cases hd <;> first | omega | (exact or_lt_16 (by omega) (by omega)) | (exact or_lt_16 (or_lt_16 (by omega) (by omega)) (by omega))) (by intro d hd; fin_cases hd <;> first | omega | (exact or_lt_16 (by omega) (by omega)) | (exact or_lt_16 (or_lt_16 (by omega) (by omega)) (by omega)))]
    simp only [List.zipWith_cons_cons, List.zipWith_nil_right, List.zipWith_nil_left,
      Nat.or_zero, Nat.zero_or]
  rw [e7]

set_option maxHeartbeats 1600000 in
theorem fromColumns_nibs (a0 b0 c0 d0 a1 b1 c1 d1 a2 b2 c2 d2 a3 b3 c3 d3 : Nat)
    (ha0 : a0 < 16) (hb0 : b0 < 16) (hc0 : c0 < 16) (hd0 : d0 < 16) (ha1 : a1 < 16) (hb1 : b1 < 16) (hc1 : c1 < 16) (hd1 : d1 < 16) (ha2 : a2 < 16) (hb2 : b2 < 16) (hc2 : c2 < 16) (hd2 : d2 < 16) (ha3 : a3 < 16) (hb3 : b3 < 16) (hc3 : c3 < 16) (hd3 : d3 < 16) :
    fromColumns [ofNibs [a0, 0, 0, 0, b0, 0, 0, 0, c0, 0, 0, 0, d0, 0, 0, 0], ofNibs [a1, 0, 0, 0, b1, 0, 0, 0, c1, 0, 0, 0, d1, 0, 0, 0], ofNibs [a2, 0, 0, 0, b2, 0, 0, 0, c2, 0, 0, 0, d2, 0, 0, 0], ofNibs [a3, 0, 0, 0, b3, 0, 0, 0, c3, 0, 0, 0, d3, 0, 0, 0]] =
    ofNibs [a3, a2, a1, a0, b3, b2, b1, b0, c3, c2, c1, c0, d3, d2, d1, d0] := by
  simp only [fromColumns, List.getD_cons_zero, List.getD_cons_succ]
  have e1 : (ofNibs [a0, 0, 0, 0, b0, 0, 0, 0, c0, 0, 0, 0, d0, 0, 0, 0] <<< 12) % 2 ^ 64 = ofNibs [0, 0, 0, a0, 0, 0, 0, b0, 0, 0, 0, c0, 0, 0, 0, d0] := by
    rw [show (12 : Nat) = 4 * 3 by norm_num, ofNibs_shiftLeft_mul4,
      show (2 : Nat) ^ 64 = 16 ^ 16 by norm_num, ofNibs_mod_pow16 _ _ (by intro d hd; fin_cases hd <;> first | omega | (exact or_lt_16 (by omega) (by omega)) | (exact or_lt_16 (or_lt_16 (by omega) (by omega)) (by omega)))]
    simp [ofNibs]
    try ring
  rw [e1]
  have e2 : ofNibs [a1, 0, 0, 0, b1, 0, 0, 0, c1, 0, 0, 0, d1, 0, 0, 0] <<< 8 = ofNibs [0, 0, a1, 0, 0, 0, b1, 0, 0, 0, c1, 0, 0, 0, d1, 0] := by
    rw [show (8 : Nat) = 4 * 2 by norm_num, ofNibs_shiftLeft_mul4]
    simp [ofNibs]
    try ring
  rw [e2]
  have e3 : ofNibs [a2, 0, 0, 0, b2, 0, 0, 0, c2, 0, 0, 0, d2, 0, 0, 0] <<< 4 = ofNibs [0, a2, 0, 0, 0, b2, 0, 0, 0, c2, 0, 0, 0, d2, 0, 0] := by
    rw [show (4 : Nat) = 4 * 1 by norm_num, ofNibs_shiftLeft_mul4]
    simp [ofNibs]
    try ring
  rw [e3]
  have e4 : ofNibs [a3, 0, 0, 0, b3, 0, 0, 0, c3, 0, 0, 0, d3, 0, 0, 0] = ofNibs [a3, 0, 0, 0, b3, 0, 0, 0, c3, 0, 0, 0, d3, 0, 0, 0] := by
    simp [ofNibs]
    try ring
  rw [e4]
  have e5 : ofNibs [0, 0, 0, a0, 0, 0, 0, b0, 0, 0, 0, c0, 0, 0, 0, d0] ||| ofNibs [0, 0, a1, 0, 0, 0, b1, 0, 0, 0, c1, 0, 0, 0, d1, 0] = ofNibs [0, 0, a1, a0, 0, 0, b1, b0, 0, 0, c1, c0, 0, 0, d1, d0] := by
    rw [ofNibs_lor _ _ (by simp) (by intro d hd; fin_cases hd <;> first | omega | (exact or_lt_16 (by omega) (by omega)) | (exact or_lt_16 (or_lt_16 (by omega) (by omega)) (by omega))) (by intro d hd; fin_cases hd <;> first | omega | (exact or_lt_16 (by omega) (by omega)) | (exact or_lt_16 (or_lt_16 (by omega) (by omega)) (by omega)))]
    simp only [List.zipWith_cons_cons, List.zipWith_nil_right, List.zipWith_nil_left,
      Nat.or_zero, Nat.zero_or]
  rw [e5]
  have e6 : ofNibs [0, 0, a1, a0, 0, 0, b1, b0, 0, 0, c1, c0, 0, 0, d1, d0] ||| ofNibs [0, a2, 0, 0, 0, b2, 0, 0, 0, c2, 0, 0, 0, d2, 0, 0] = ofNibs [0, a2, a1, a0, 0, b2, b1, b0, 0, c2, c1, c0, 0, d2, d1, d0] := by
    rw [ofNibs_lor _ _ (by simp) (by intro d hd; fin_cases hd <;> first | omega | (exact or_lt_16 (by omega) (by omega)) | (exact or_lt_16 (or_lt_16 (by omega) (by omega)) (by omega))) (by intro d hd; fin_cases hd <;> first | omega | (exact or_lt_16 (by omega) (by omega)) | (exact or_lt_16 (or_lt_16 (by omega) (by omega)) (by omega)))]
    simp only [List.zipWith_cons_cons, List.zipWith_nil_right, List.zipWith_nil_left,
      Nat.or_zero, Nat.zero_or]
  rw [e6]
  have e7 : ofNibs [0, a2, a1, a0, 0, b2, b1, b0, 0, c2, c1, c0, 0, d2, d1, d0] ||| ofNibs [a3, 0, 0, 0, b3, 0, 0, 0, c3, 0, 0, 0, d3, 0, 0, 0] = ofNibs [a3, a2, a1, a0, b3, b2, b1, b0, c3, c2, c1, c0, d3, d2, d1, d0] := by
    rw [ofNibs_lor _ _ (by simp) (by intro d hd; fin_cases hd <;> first | omega | (exact or_lt_16 (by omega) (by omega)) | (exact or_lt_16 (or_lt_16 (by omega) (by omega)) (by omega))) (by intro d hd; fin_cases hd <;> first | omega | (exact or_lt_16 (by omega) (by omega)) | (exact or_lt_16 (or_lt_16 (by omega) (by omega)) (by omega)))]
    simp only [List.zipWith_cons_cons, List.zipWith_nil_right, List.zipWith_nil_left,
      Nat.or_zero, Nat.zero_or]
  rw [e7]

set_option maxHeartbeats 3200000 in
theorem ceSum_ofNibs (e0 e1 e2 e3 e4 e5 e6 e7 e8 e9 e10 e11 e12 e13 e14 e15 : Nat)
    (b0 : e0 <= 1) (b1 : e1 <= 1) (b2 : e2 <= 1) (b3 : e3 <= 1) (b4 : e4 <= 1) (b5 : e5 <= 1) (b6 : e6 <= 1) (b7 : e7 <= 1) (b8 : e8 <= 1) (b9 : e9 <= 1) (b10 : e10 <= 1) (b11 : e11 <= 1) (b12 : e12 <= 1) (b13 : e13 <= 1) (b14 : e14 <= 1) (b15 : e15 <= 1) :
    ceSum (ofNibs [e0, e1, e2, e3, e4, e5, e6, e7, e8, e9, e10, e11, e12, e13, e14, e15]) = (e0 + e1 + e2 + e3 + e4 + e5 + e6 + e7 + e8 + e9 + e10 + e11 + e12 + e13 + e14 + e15) % 16 := by
  simp only [ceSum]
  have hsh1 : ofNibs [e0, e1, e2, e3, e4, e5, e6, e7, e8, e9, e10, e11, e12, e13, e14, e15] >>> 32 = ofNibs [e8, e9, e10, e11, e12, e13, e14, e15, 0, 0, 0, 0, 0, 0, 0, 0] := by
    rw [show (32 : Nat) = 4 * 8 by norm_num, ofNibs_shiftRight_mul4 _ _ (by intro d hd; fin_cases hd <;> omega)]
    simp [ofNibs]
    try ring
  have hadd1 : ofNibs [e0, e1, e2, e3, e4, e5, e6, e7, e8, e9, e10, e11, e12, e13, e14, e15] + ofNibs [e8, e9, e10, e11, e12, e13, e14, e15, 0, 0, 0, 0, 0, 0, 0, 0] = ofNibs [e0 + e8, e1 + e9, e2 + e10, e3 + e11, e4 + e12, e5 + e13, e6 + e14, e7 + e15, e8, e9, e10, e11, e12, e13, e14, e15] := by
    simp [ofNibs]
    ring
  have hlt1 : ofNibs [e0 + e8, e1 + e9, e2 + e10, e3 + e11, e4 + e12, e5 + e13, e6 + e14, e7 + e15, e8, e9, e10, e11, e12, e13, e14, e15] < 2 ^ 64 := by
    simp [ofNibs]
    omega
  rw [hsh1, hadd1, Nat.mod_eq_of_lt hlt1]
  have hsh2 : ofNibs [e0 + e8, e1 + e9, e2 + e10, e3 + e11, e4 + e12, e5 + e13, e6 + e14, e7 + e15, e8, e9, e10, e11, e12, e13, e14, e15] >>> 16 = ofNibs [e4 + e12, e5 + e13, e6 + e14, e7 + e15, e8, e9, e10, e11, e12, e13, e14, e15, 0, 0, 0, 0] := by
    rw [show (16 : Nat) = 4 * 4 by norm_num, ofNibs_shiftRight_mul4 _ _ (by intro d hd; fin_cases hd <;> omega)]
    simp [ofNibs]
    try ring
  have hadd2 : ofNibs [e0 + e8, e1 + e9, e2 + e10, e3 + e11, e4 + e12, e5 + e13, e6 + e14, e7 + e15, e8, e9, e10, e11, e12, e13, e14, e15] + ofNibs [e4 + e12, e5 + e13, e6 + e14, e7 + e15, e8, e9, e10, e11, e12, e13, e14, e15, 0, 0, 0, 0] = ofNibs [e0 + e8 + e4 + e12, e1 + e9 + e5 + e13, e2 + e10 + e6 + e14, e3 + e11 + e7 + e15, e4 + e12 + e8, e5 + e13 + e9, e6 + e14 + e10, e7 + e15 + e11, e8 + e12, e9 + e13, e10 + e14, e11 + e15, e12, e13, e14, e15] := by
    simp [ofNibs]
    ring
  have hlt2 : ofNibs [e0 + e8 + e4 + e12, e1 + e9 + e5 + e13, e2 + e10 + e6 + e14, e3 + e11 + e7 + e15, e4 + e12 + e8, e5 + e13 + e9, e6 + e14 + e10, e7 + e15 + e11, e8 + e12, e9 + e13, e10 + e14, e11 + e15, e12, e13, e14, e15] < 2 ^ 64 := by
    simp [ofNibs]
    omega
  rw [hsh2, hadd2, Nat.mod_eq_of_lt hlt2]
  have hsh3 : ofNibs [e0 + e8 + e4 + e12, e1 + e9 + e5 + e13, e2 + e10 + e6 + e14, e3 + e11 + e7 + e15, e4 + e12 + e8, e5 + e13 + e9, e6 + e14 + e10, e7 + e15 + e11, e8 + e12, e9 + e13, e10 + e14, e11 + e15, e12, e13, e14, e15] >>> 8 = ofNibs [e2 + e10 + e6 + e14, e3 + e11 + e7 + e15, e4 + e12 + e8, e5 + e13 + e9, e6 + e14 + e10, e7 + e15 + e11, e8 + e12, e9 + e13, e10 + e14, e11 + e15, e12, e13, e14, e15, 0, 0] := by
    rw [show (8 : Nat) = 4 * 2 by norm_num, ofNibs_shiftRight_mul4 _ _ (by intro d hd; fin_cases hd <;> omega)]
    simp [ofNibs]
    try ring
  have hadd3 : ofNibs [e0 + e8 + e4 + e12, e1 + e9 + e5 + e13, e2 + e10 + e6 + e14, e3 + e11 + e7 + e15, e4 + e12 + e8, e5 + e13 + e9, e6 + e14 + e10, e7 + e15 + e11, e8 + e12, e9 + e13, e10 + e14, e11 + e15, e12, e13, e14, e15] + ofNibs [e2 + e10 + e6 + e14, e3 + e11 + e7 + e15, e4 + e12 + e8, e5 + e13 + e9, e6 + e14 + e10, e7 + e15 + e11, e8 + e12, e9 + e13, e10 + e14, e11 + e15, e12, e13, e14, e15, 0, 0] = ofNibs [e0 + e8 + e4 + e12 + e2 + e10 + e6 + e14, e1 + e9 + e5 + e13 + e3 + e11 + e7 + e15, e2 + e10 + e6 + e14 + e4 + e12 + e8, e3 + e11 + e7 + e15 + e5 + e13 + e9, e4 + e12 + e8 + e6 + e14 + e10, e5 + e13 + e9 + e7 + e15 + e11, e6 + e14 + e10 + e8 + e12, e7 + e15 + e11 + e9 + e13, e8 + e12 + e10 + e14, e9 + e13 + e11 + e15, e10 + e14 + e12, e11 + e15 + e13, e12 + e14, e13 + e15, e14, e15] := by
    simp [ofNibs]
    ring
  have hlt3 : ofNibs [e0 + e8 + e4 + e12 + e2 + e10 + e6 + e14, e1 + e9 + e5 + e13 + e3 + e11 + e7 + e15, e2 + e10 + e6 + e14 + e4 + e12 + e8, e3 + e11 + e7 + e15 + e5 + e13 + e9, e4 + e12 + e8 + e6 + e14 + e10, e5 + e13 + e9 + e7 + e15 + e11, e6 + e14 + e10 + e8 + e12, e7 + e15 + e11 + e9 + e13, e8 + e12 + e10 + e14, e9 + e13 + e11 + e15, e10 + e14 + e12, e11 + e15 + e13, e12 + e14, e13 + e15, e14, e15] < 2 ^ 64 := by
    simp [ofNibs]
    omega
  rw [hsh3, hadd3, Nat.mod_eq_of_lt hlt3]
  have hsh4 : ofNibs [e0 + e8 + e4 + e12 + e2 + e10 + e6 + e14, e1 + e9 + e5 + e13 + e3 + e11 + e7 + e15, e2 + e10 + e6 + e14 + e4 + e12 + e8, e3 + e11 + e7 + e15 + e5 + e13 + e9, e4 + e12 + e8 + e6 + e14 + e10, e5 + e13 + e9 + e7 + e15 + e11, e6 + e14 + e10 + e8 + e12, e7 + e15 + e11 + e9 + e13, e8 + e12 + e10 + e14, e9 + e13 + e11 + e15, e10 + e14 + e12, e11 + e15 + e13, e12 + e14, e13 + e15, e14, e15] >>> 4 = ofNibs [e1 + e9 + e5 + e13 + e3 + e11 + e7 + e15, e2 + e10 + e6 + e14 + e4 + e12 + e8, e3 + e11 + e7 + e15 + e5 + e13 + e9, e4 + e12 + e8 + e6 + e14 + e10, e5 + e13 + e9 + e7 + e15 + e11, e6 + e14 + e10 + e8 + e12, e7 + e15 + e11 + e9 + e13, e8 + e12 + e10 + e14, e9 + e13 + e11 + e15, e10 + e14 + e12, e11 + e15 + e13, e12 + e14, e13 + e15, e14, e15, 0] := by
    rw [show (4 : Nat) = 4 * 1 by norm_num, ofNibs_shiftRight_mul4 _ _ (by intro d hd; fin_cases hd <;> omega)]
    simp [ofNibs]
    try ring
  have hadd4 : ofNibs [e0 + e8 + e4 + e12 + e2 + e10 + e6 + e14, e1 + e9 + e5 + e13 + e3 + e11 + e7 + e15, e2 + e10 + e6 + e14 + e4 + e12 + e8, e3 + e11 + e7 + e15 + e5 + e13 + e9, e4 + e12 + e8 + e6 + e14 + e10, e5 + e13 + e9 + e7 + e15 + e11, e6 + e14 + e10 + e8 + e12, e7 + e15 + e11 + e9 + e13, e8 + e12 + e10 + e14, e9 + e13 + e11 + e15, e10 + e14 + e12, e11 + e15 + e13, e12 + e14, e13 + e15, e14, e15] + ofNibs [e1 + e9 + e5 + e13 + e3 + e11 + e7 + e15, e2 + e10 + e6 + e14 + e4 + e12 + e8, e3 + e11 + e7 + e15 + e5 + e13 + e9, e4 + e12 + e8 + e6 + e14 + e10, e5 + e13 + e9 + e7 + e15 + e11, e6 + e14 + e10 + e8 + e12, e7 + e15 + e11 + e9 + e13, e8 + e12 + e10 + e14, e9 + e13 + e11 + e15, e10 + e14 + e12, e11 + e15 + e13, e12 + e14, e13 + e15, e14, e15, 0] = ofNibs [e0 + e8 + e4 + e12 + e2 + e10 + e6 + e14 + e1 + e9 + e5 + e13 + e3 + e11 + e7 + e15, e1 + e9 + e5 + e13 + e3 + e11 + e7 + e15 + e2 + e10 + e6 + e14 + e4 + e12 + e8, e2 + e10 + e6 + e14 + e4 + e12 + e8 + e3 + e11 + e7 + e15 + e5 + e13 + e9, e3 + e11 + e7 + e15 + e5 + e13 + e9 + e4 + e12 + e8 + e6 + e14 + e10, e4 + e12 + e8 + e6 + e14 + e10 + e5 + e13 + e9 + e7 + e15 + e11, e5 + e13 + e9 + e7 + e15 + e11 + e6 + e14 + e10 + e8 + e12, e6 + e14 + e10 + e8 + e12 + e7 + e15 + e11 + e9 + e13, e7 + e15 + e11 + e9 + e13 + e8 + e12 + e10 + e14, e8 + e12 + e10 + e14 + e9 + e13 + e11 + e15, e9 + e13 + e11 + e15 + e10 + e14 + e12, e10 + e14 + e12 + e11 + e15 + e13, e11 + e15 + e13 + e12 + e14, e12 + e14 + e13 + e15, e13 + e15 + e14, e14 + e15, e15] := by
    simp [ofNibs]
    ring
  have hlt4 : ofNibs [e0 + e8 + e4 + e12 + e2 + e10 + e6 + e14 + e1 + e9 + e5 + e13 + e3 + e11 + e7 + e15, e1 + e9 + e5 + e13 + e3 + e11 + e7 + e15 + e2 + e10 + e6 + e14 + e4 + e12 + e8, e2 + e10 + e6 + e14 + e4 + e12 + e8 + e3 + e11 + e7 + e15 + e5 + e13 + e9, e3 + e11 + e7 + e15 + e5 + e13 + e9 + e4 + e12 + e8 + e6 + e14 + e10, e4 + e12 + e8 + e6 + e14 + e10 + e5 + e13 + e9 + e7 + e15 + e11, e5 + e13 + e9 + e7 + e15 + e11 + e6 + e14 + e10 + e8 + e12, e6 + e14 + e10 + e8 + e12 + e7 + e15 + e11 + e9 + e13, e7 + e15 + e11 + e9 + e13 + e8 + e12 + e10 + e14, e8 + e12 + e10 + e14 + e9 + e13 + e11 + e15, e9 + e13 + e11 + e15 + e10 + e14 + e12, e10 + e14 + e12 + e11 + e15 + e13, e11 + e15 + e13 + e12 + e14, e12 + e14 + e13 + e15, e13 + e15 + e14, e14 + e15, e15] < 2 ^ 64 := by
    simp [ofNibs]
    omega
  rw [hsh4, hadd4, Nat.mod_eq_of_lt hlt4]
  have hand : ofNibs [e0 + e8 + e4 + e12 + e2 + e10 + e6 + e14 + e1 + e9 + e5 + e13 + e3 + e11 + e7 + e15, e1 + e9 + e5 + e13 + e3 + e11 + e7 + e15 + e2 + e10 + e6 + e14 + e4 + e12 + e8, e2 + e10 + e6 + e14 + e4 + e12 + e8 + e3 + e11 + e7 + e15 + e5 + e13 + e9, e3 + e11 + e7 + e15 + e5 + e13 + e9 + e4 + e12 + e8 + e6 + e14 + e10, e4 + e12 + e8 + e6 + e14 + e10 + e5 + e13 + e9 + e7 + e15 + e11, e5 + e13 + e9 + e7 + e15 + e11 + e6 + e14 + e10 + e8 + e12, e6 + e14 + e10 + e8 + e12 + e7 + e15 + e11 + e9 + e13, e7 + e15 + e11 + e9 + e13 + e8 + e12 + e10 + e14, e8 + e12 + e10 + e14 + e9 + e13 + e11 + e15, e9 + e13 + e11 + e15 + e10 + e14 + e12, e10 + e14 + e12 + e11 + e15 + e13, e11 + e15 + e13 + e12 + e14, e12 + e14 + e13 + e15, e13 + e15 + e14, e14 + e15, e15] &&& 0xF = ofNibs [e0 + e8 + e4 + e12 + e2 + e10 + e6 + e14 + e1 + e9 + e5 + e13 + e3 + e11 + e7 + e15, e1 + e9 + e5 + e13 + e3 + e11 + e7 + e15 + e2 + e10 + e6 + e14 + e4 + e12 + e8, e2 + e10 + e6 + e14 + e4 + e12 + e8 + e3 + e11 + e7 + e15 + e5 + e13 + e9, e3 + e11 + e7 + e15 + e5 + e13 + e9 + e4 + e12 + e8 + e6 + e14 + e10, e4 + e12 + e8 + e6 + e14 + e10 + e5 + e13 + e9 + e7 + e15 + e11, e5 + e13 + e9 + e7 + e15 + e11 + e6 + e14 + e10 + e8 + e12, e6 + e14 + e10 + e8 + e12 + e7 + e15 + e11 + e9 + e13, e7 + e15 + e11 + e9 + e13 + e8 + e12 + e10 + e14, e8 + e12 + e10 + e14 + e9 + e13 + e11 + e15, e9 + e13 + e11 + e15 + e10 + e14 + e12, e10 + e14 + e12 + e11 + e15 + e13, e11 + e15 + e13 + e12 + e14, e12 + e14 + e13 + e15, e13 + e15 + e14, e14 + e15, e15] % 16 := by
    rw [show (0xF : Nat) = 2 ^ 4 - 1 by norm_num, Nat.and_pow_two_sub_one_eq_mod]
    try norm_num
  rw [hand]
  simp [ofNibs]
  omega


theorem getD_replicate (n k v : Nat) :
    (List.replicate n v).getD k 0 = if k < n then v else 0 := by
  induction n generalizing k with
  | zero => simp
  | succ n ih =>
    cases k with
    | zero => simp [List.replicate_succ]
    | succ k =>
      simp only [List.replicate_succ, List.getD_cons_succ, ih]
      by_cases h : k < n
      · rw [if_pos h, if_pos (by omega)]
      · rw [if_neg h, if_neg (by omega)]

theorem mask1_testBit (j : Nat) :
    Nat.testBit 0x1111111111111111 j = (decide (j < 64) && decide (j % 4 = 0)) := by
  have hm : (0x1111111111111111 : Nat) = ofNibs (List.replicate 16 1) := by decide
  have hb : ∀ d ∈ List.replicate 16 1, d < 16 := by
    intro d hd
    rw [List.eq_of_mem_replicate hd]
    omega
  rw [hm, ofNibs_testBit _ hb, getD_replicate]
  by_cases h64 : j < 64
  · rw [if_pos (by omega)]
    have hr : j % 4 < 4 := by omega
    interval_cases h : (j % 4) <;> simp +decide [h64]
  · rw [if_neg (by omega)]
    simp [h64]

theorem mask3_testBit (j : Nat) :
    Nat.testBit 0x3333333333333333 j = (decide (j < 64) && decide (j % 4 < 2)) := by
  have hm : (0x3333333333333333 : Nat) = ofNibs (List.replicate 16 3) := by decide
  have hb : ∀ d ∈ List.replicate 16 3, d < 16 := by
    intro d hd
    rw [List.eq_of_mem_replicate hd]
    omega
  rw [hm, ofNibs_testBit _ hb, getD_replicate]
  by_cases h64 : j < 64
  · rw [if_pos (by omega)]
    have hr : j % 4 < 4 := by omega
    interval_cases h : (j % 4) <;> simp +decide [h64]
  · rw [if_neg (by omega)]
    simp [h64]

theorem maskF_testBit (j : Nat) :
    Nat.testBit 0xFFFFFFFFFFFFFFFF j = decide (j < 64) := by
  have hm : (0xFFFFFFFFFFFFFFFF : Nat) = ofNibs (List.replicate 16 15) := by decide
  have hb : ∀ d ∈ List.replicate 16 15, d < 16 := by
    intro d hd
    rw [List.eq_of_mem_replicate hd]
    omega
  rw [hm, ofNibs_testBit _ hb, getD_replicate]
  by_cases h64 : j < 64
  · rw [if_pos (by omega)]
    have hr : j % 4 < 4 := by omega
    interval_cases h : (j % 4) <;> simp +decide [h64]
  · rw [if_neg (by omega)]
    simp [h64]

theorem nib_zero_iff (x k : Nat) :
    nib x k = 0 ↔ (x.testBit (4 * k) = false ∧ x.testBit (4 * k + 1) = false ∧
      x.testBit (4 * k + 2) = false ∧ x.testBit (4 * k + 3) = false) := by
  have hdec : ∀ m < 16, (m = 0 ↔ (m.testBit 0 = false ∧ m.testBit 1 = false ∧
      m.testBit 2 = false ∧ m.testBit 3 = false)) := by decide
  have hnl : nib x k < 16 := by
    have := @Nat.and_le_right (x >>> (4 * k)) 15
    unfold nib
    omega
  have hbit : ∀ i, i < 4 → (nib x k).testBit i = x.testBit (4 * k + i) := by
    intro i hi
    unfold nib
    rw [show (15 : Nat) = 2 ^ 4 - 1 by norm_num, Nat.and_pow_two_sub_one_eq_mod,
      Nat.testBit_mod_two_pow, Nat.testBit_shiftRight]
    simp [hi]
  rw [hdec _ hnl, hbit 0 (by omega), hbit 1 (by omega), hbit 2 (by omega), hbit 3 (by omega)]
  norm_num

theorem eDig_le_one (x i : Nat) : eDig x i ≤ 1 := by
  unfold eDig
  split <;> omega

theorem eDigits_getD_lt (x i : Nat) (h : i < 16) : (eDigits x).getD i 0 = eDig x i := by
  interval_cases i <;> rfl

theorem eDigits_getD_ge (x i : Nat) (h : 16 ≤ i) : (eDigits x).getD i 0 = 0 := by
  unfold eDigits
  rw [List.getD_eq_default]
  simp
  omega

theorem eDigits_bound (x : Nat) : ∀ d ∈ eDigits x, d < 16 := by
  intro d hd
  unfold eDigits at hd
  fin_cases hd <;> (have h := eDig_le_one x; first
    | (exact lt_of_le_of_lt (eDig_le_one x 0) (by omega))
    | (exact lt_of_le_of_lt (eDig_le_one x 1) (by omega))
    | (exact lt_of_le_of_lt (eDig_le_one x 2) (by omega))
    | (exact lt_of_le_of_lt (eDig_le_one x 3) (by omega))
    | (exact lt_of_le_of_lt (eDig_le_one x 4) (by omega))
    | (exact lt_of_le_of_lt (eDig_le_one x 5) (by omega))
    | (exact lt_of_le_of_lt (eDig_le_one x 6) (by omega))
    | (exact lt_of_le_of_lt (eDig_le_one x 7) (by omega))
    | (exact lt_of_le_of_lt (eDig_le_one x 8) (by omega))
    | (exact lt_of_le_of_lt (eDig_le_one x 9) (by omega))
    | (exact lt_of_le_of_lt (eDig_le_one x 10) (by omega))
    | (exact lt_of_le_of_lt (eDig_le_one x 11) (by omega))
    | (exact lt_of_le_of_lt (eDig_le_one x 12) (by omega))
    | (exact lt_of_le_of_lt (eDig_le_one x 13) (by omega))
    | (exact lt_of_le_of_lt (eDig_le_one x 14) (by omega))
    | (exact lt_of_le_of_lt (eDig_le_one x 15) (by omega)))

set_option maxHeartbeats 1600000 in
theorem ceStep3_eq (x : Nat) :
    ceStep3 (ceStep2 (ceStep1 x)) = ofNibs (eDigits x) := by
  apply Nat.eq_of_testBit_eq
  intro j
  rw [ofNibs_testBit _ (eDigits_bound x)]
  simp only [ceStep3, ceStep2, ceStep1, Nat.testBit_land, Nat.testBit_lor, Nat.testBit_xor,
    Nat.testBit_shiftRight, mask1_testBit, mask3_testBit, maskF_testBit]
  by_cases h64 : j < 64
  · by_cases hr : j % 4 = 0
    · have hj4 : j / 4 < 16 := by omega
      rw [eDigits_getD_lt x _ hj4]
      have h40 : 4 * (j / 4) = j := by omega
      have h41 : 4 * (j / 4) + 1 = 1 + j := by omega
      have h42 : 4 * (j / 4) + 2 = 2 + j := by omega
      have h43 : 4 * (j / 4) + 3 = 2 + (1 + j) := by omega
      have h1j : (1 + j) % 4 = 1 := by omega
      have h2j : (2 + j) % 4 = 2 := by omega
      have h1j64 : 1 + j < 64 := by omega
      have h2j64 : 2 + j < 64 := by omega
      by_cases hn : nib x (j / 4) = 0
      · obtain ⟨hb0, hb1, hb2, hb3⟩ := (nib_zero_iff x (j / 4)).mp hn
        rw [h43] at hb3
        rw [h42] at hb2
        rw [h41] at hb1
        rw [h40] at hb0
        simp [eDig, hn, hb0, hb1, hb2, hb3, h64, hr, h1j, h2j, h1j64, h2j64]
      · simp only [eDig, if_neg hn]
        have hone : ¬ (x.testBit j = false ∧ x.testBit (1 + j) = false ∧
            x.testBit (2 + j) = false ∧ x.testBit (2 + (1 + j)) = false) := by
          intro hc
          refine hn ((nib_zero_iff x (j / 4)).mpr ⟨?_, ?_, ?_, ?_⟩)
          · rw [h40]; exact hc.1
          · rw [h41]; exact hc.2.1
          · rw [h42]; exact hc.2.2.1
          · rw [h43]; exact hc.2.2.2
        simp only [h64, hr, h1j, h2j, h1j64, h2j64]
        rcases hx0 : x.testBit j with _ | _ <;>
          rcases hx1 : x.testBit (1 + j) with _ | _ <;>
            rcases hx2 : x.testBit (2 + j) with _ | _ <;>
              rcases hx3 : x.testBit (2 + (1 + j)) with _ | _ <;>
                simp_all
    · have hj4 : j / 4 < 16 := by omega
      rw [eDigits_getD_lt x _ hj4]
      have hd1 : eDig x (j / 4) ≤ 1 := eDig_le_one x (j / 4)
      have hrhs : (eDig x (j / 4)).testBit (j % 4) = false := by
        interval_cases hd : (eDig x (j / 4))
        · simp
        · apply Nat.testBit_lt_two_pow
          have : j % 4 ≠ 0 := hr
          have h1 : (2 : Nat) ≤ 2 ^ (j % 4) := by
            calc (2 : Nat) = 2 ^ 1 := by norm_num
            _ ≤ 2 ^ (j % 4) := Nat.pow_le_pow_right (by omega) (by omega)
          omega
      rw [hrhs]
      simp [hr]
  · have hj4 : 16 ≤ j / 4 := by omega
    rw [eDigits_getD_ge x _ hj4]
    simp [h64]


theorem length_filter_eq_sum (l : List Nat) (p : Nat → Bool) :
    (l.filter p).length = (l.map fun i => if p i then 1 else 0).sum := by
  induction l with
  | nil => simp
  | cons a l ih =>
    rw [List.filter_cons]
    by_cases h : p a
    · simp [h, ih]
      omega
    · simp [h, ih]

theorem zeroNibbles_eq_sum (x : Nat) : zeroNibbles x = (eDigits x).sum := by
  unfold zeroNibbles
  rw [length_filter_eq_sum,
    (by decide : List.range 16 = [0, 1, 2, 3, 4, 5, 6, 7, 8, 9, 10, 11, 12, 13, 14, 15])]
  simp [eDigits, eDig]

theorem nib_div (x i : Nat) : nib x i = x / 2 ^ (4 * i) % 16 := by
  unfold nib
  rw [show (15 : Nat) = 2 ^ 4 - 1 by norm_num, Nat.and_pow_two_sub_one_eq_mod,
    Nat.shiftRight_eq_div_pow]

theorem getD_drop (ds : List Nat) (i : Nat) : (ds.drop i).getD 0 0 = ds.getD i 0 := by
  induction ds generalizing i with
  | nil => simp
  | cons a t ih =>
    cases i with
    | zero => simp
    | succ i => simpa using ih i

theorem nib_ofNibs (ds : List Nat) (hd : ∀ d ∈ ds, d < 16) (i : Nat) :
    nib (ofNibs ds) i = ds.getD i 0 := by
  unfold nib
  rw [ofNibs_shiftRight_mul4 _ _ hd, show (15 : Nat) = 2 ^ 4 - 1 by norm_num,
    Nat.and_pow_two_sub_one_eq_mod, show (2 : Nat) ^ 4 = 16 ^ 1 by norm_num,
    ofNibs_mod_pow16 _ _ (fun d hdm => hd d (List.mem_of_mem_drop hdm)), ← getD_drop]
  cases ds.drop i with
  | nil => simp [ofNibs]
  | cons a t => simp [ofNibs]

theorem eq_zero_of_nibs (x : Nat) (hx : x < 2 ^ 64) (h : ∀ i, i < 16 → nib x i = 0) :
    x = 0 := by
  obtain ⟨n0, n1, n2, n3, n4, n5, n6, n7, n8, n9, n10, n11, n12, n13, n14, n15,
    b0, b1, b2, b3, b4, b5, b6, b7, b8, b9, b10, b11, b12, b13, b14, b15, hxe⟩ :=
    exists16 x hx
  have hbnd : ∀ d ∈ [n0, n1, n2, n3, n4, n5, n6, n7, n8, n9, n10, n11, n12, n13, n14,
      n15], d < 16 := by
    intro d hd
    fin_cases hd <;> omega
  have hz : ∀ i, i < 16 → List.getD [n0, n1, n2, n3, n4, n5, n6, n7, n8, n9, n10, n11,
      n12, n13, n14, n15] i 0 = 0 := by
    intro i hi
    rw [← nib_ofNibs _ hbnd i, ← hxe]
    exact h i hi
  have g0 : n0 = 0 := hz 0 (by omega)
  have g1 : n1 = 0 := hz 1 (by omega)
  have g2 : n2 = 0 := hz 2 (by omega)
  have g3 : n3 = 0 := hz 3 (by omega)
  have g4 : n4 = 0 := hz 4 (by omega)
  have g5 : n5 = 0 := hz 5 (by omega)
  have g6 : n6 = 0 := hz 6 (by omega)
  have g7 : n7 = 0 := hz 7 (by omega)
  have g8 : n8 = 0 := hz 8 (by omega)
  have g9 : n9 = 0 := hz 9 (by omega)
  have g10 : n10 = 0 := hz 10 (by omega)
  have g11 : n11 = 0 := hz 11 (by omega)
  have g12 : n12 = 0 := hz 12 (by omega)
  have g13 : n13 = 0 := hz 13 (by omega)
  have g14 : n14 = 0 := hz 14 (by omega)
  have g15 : n15 = 0 := hz 15 (by omega)
  rw [hxe]
  simp only [ofNibs]
  omega

theorem countEmpty_eq_zeroNibbles (x : Nat) (hx : x < 2 ^ 64) (hnz : x ≠ 0) :
    countEmpty x = zeroNibbles x := by
  have h1 : countEmpty x = ceSum (ceStep3 (ceStep2 (ceStep1 x))) := rfl
  have h2 : eDigits x = [eDig x 0, eDig x 1, eDig x 2, eDig x 3, eDig x 4, eDig x 5,
      eDig x 6, eDig x 7, eDig x 8, eDig x 9, eDig x 10, eDig x 11, eDig x 12, eDig x 13,
      eDig x 14, eDig x 15] := rfl
  rw [h1, ceStep3_eq, h2,
    ceSum_ofNibs _ _ _ _ _ _ _ _ _ _ _ _ _ _ _ _ (eDig_le_one x 0) (eDig_le_one x 1)
      (eDig_le_one x 2) (eDig_le_one x 3) (eDig_le_one x 4) (eDig_le_one x 5)
      (eDig_le_one x 6) (eDig_le_one x 7) (eDig_le_one x 8) (eDig_le_one x 9)
      (eDig_le_one x 10) (eDig_le_one x 11) (eDig_le_one x 12) (eDig_le_one x 13)
      (eDig_le_one x 14) (eDig_le_one x 15),
    zeroNibbles_eq_sum, h2]
  obtain ⟨i, hi16, hne⟩ : ∃ i, i < 16 ∧ nib x i ≠ 0 := by
    by_contra hc
    push_neg at hc
    exact hnz (eq_zero_of_nibs x hx fun i hi => hc i hi)
  have hz : eDig x i = 0 := by simp [eDig, hne]
  have hb0 := eDig_le_one x 0
  have hb1 := eDig_le_one x 1
  have hb2 := eDig_le_one x 2
  have hb3 := eDig_le_one x 3
  have hb4 := eDig_le_one x 4
  have hb5 := eDig_le_one x 5
  have hb6 := eDig_le_one x 6
  have hb7 := eDig_le_one x 7
  have hb8 := eDig_le_one x 8
  have hb9 := eDig_le_one x 9
  have hb10 := eDig_le_one x 10
  have hb11 := eDig_le_one x 11
  have hb12 := eDig_le_one x 12
  have hb13 := eDig_le_one x 13
  have hb14 := eDig_le_one x 14
  have hb15 := eDig_le_one x 15
  simp only [List.sum_cons, List.sum_nil]
  interval_cases i <;> omega


/-- C7: `transpose` is an involution: for every 64-bit packed grid `g`,
`transpose (transpose g) = g`, where `transpose` is the bit-math variant
implemented with two 4-bit and two 8-bit masked swaps on the 64-bit word. -/
theorem transpose_involution (g : Nat) (hg : g < 2 ^ 64) :
    transpose (transpose g) = g := by
  obtain ⟨n0, n1, n2, n3, n4, n5, n6, n7, n8, n9, n10, n11, n12, n13, n14, n15,
    b0, b1, b2, b3, b4, b5, b6, b7, b8, b9, b10, b11, b12, b13, b14, b15, hxe⟩ :=
    exists16 g hg
  rw [hxe,
    transpose_nibs n0 n1 n2 n3 n4 n5 n6 n7 n8 n9 n10 n11 n12 n13 n14 n15
      b0 b1 b2 b3 b4 b5 b6 b7 b8 b9 b10 b11 b12 b13 b14 b15,
    transpose_nibs n0 n4 n8 n12 n1 n5 n9 n13 n2 n6 n10 n14 n3 n7 n11 n15
      b0 b4 b8 b12 b1 b5 b9 b13 b2 b6 b10 b14 b3 b7 b11 b15]

/-- Witness for C7 at the concrete grid 0x123456789ABCDEF0. -/
theorem transpose_involution_witness :
    (0x123456789ABCDEF0 : Nat) < 2 ^ 64 ∧
      transpose (transpose 0x123456789ABCDEF0) = 0x123456789ABCDEF0 :=
  ⟨by norm_num, transpose_involution 0x123456789ABCDEF0 (by norm_num)⟩

/-- C1: contrary to the claim, the four move lookup tables are built with
u16::MAX = 65535 entries (indices 0..=65534), not 65536; the lookup at row
value 0xFFFF = 65535 (four 32768 tiles) is out of bounds and fails. -/
theorem move_tables_short :
    cacheLeft.length = 65535 ∧ cacheRight.length = 65535 ∧
      cacheUp.length = 65535 ∧ cacheDown.length = 65535 ∧
      lookupLeft 0xFFFF = none ∧ lookupRight 0xFFFF = none ∧
      lookupUp 0xFFFF = none ∧ lookupDown 0xFFFF = none := by
  refine ⟨by simp [cacheLeft], by simp [cacheRight], by simp [cacheUp],
    by simp [cacheDown], ?_, ?_, ?_, ?_⟩ <;>
    simp [lookupLeft, lookupRight, lookupUp, lookupDown,
      cacheLeft, cacheRight, cacheUp, cacheDown, List.get?_eq_none]

/-- C10: the heuristic table is built with u16::MAX + 1 = 65536 entries, so
every u16 row value hits a valid entry (the hit returns the row heuristic),
unlike the move tables which have only u16::MAX = 65535 entries. -/
theorem heur_cache_total :
    heurCache.length = 65536 ∧
      (∀ r : Nat, r < 65536 → evalRowLookup r = some (evalRowNocache r)) ∧
      cacheLeft.length = 65535 := by
  refine ⟨by simp [heurCache], fun r hr => ?_, by simp [cacheLeft]⟩
  simp [evalRowLookup, heurCache, List.get?_map, List.get?_range, hr]

/-- Witness for C10 at the concrete row value 0. -/
theorem heur_cache_total_witness :
    (0 : Nat) < 65536 ∧ evalRowLookup 0 = some (evalRowNocache 0) :=
  ⟨by norm_num, heur_cache_total.2.1 0 (by norm_num)⟩

theorem logb25_gt : (2 : ℝ) < Real.logb 2 5 := by
  have h4 : Real.logb 2 4 = 2 := by
    rw [show (4 : ℝ) = (2 : ℝ) ^ (2 : ℕ) by norm_num, Real.logb_pow,
      Real.logb_self_eq_one (by norm_num)]
    norm_num
  calc (2 : ℝ) = Real.logb 2 4 := h4.symm
    _ < Real.logb 2 5 := by
        apply Real.logb_lt_logb (by norm_num) (by norm_num) (by norm_num)

theorem round_logb25 : round (Real.logb 2 5) = 2 := by
  have h32 : Real.logb 2 32 = 5 := by
    rw [show (32 : ℝ) = (2 : ℝ) ^ (5 : ℕ) by norm_num, Real.logb_pow,
      Real.logb_self_eq_one (by norm_num)]
    norm_num
  have h25 : Real.logb 2 25 = 2 * Real.logb 2 5 := by
    rw [show (25 : ℝ) = (5 : ℝ) ^ (2 : ℕ) by norm_num, Real.logb_pow]
    ring
  have hlt : Real.logb 2 25 < Real.logb 2 32 :=
    Real.logb_lt_logb (by norm_num) (by norm_num) (by norm_num)
  rw [h25, h32] at hlt
  rw [round_eq, Int.floor_eq_iff]
  constructor
  · push_cast; linarith [logb25_gt]
  · push_cast; linarith

theorem toLog_five : toLog 5 = some 2 := by
  unfold toLog
  norm_num [round_logb25]
  exact ⟨by linarith [logb25_gt], rfl⟩

theorem toLog_zero : toLog 0 = some 0 := by
  norm_num [toLog]

/-- C4: contrary to the claim, `from_human` does not reject every cell that
is not 0 or a power of two: the cell value 5 is accepted (`to_log` compares
`rounded - log < 1e-10` without taking the absolute value, so any value
whose log2 rounds DOWN passes), and the grid with a single 5 parses to the
packed grid holding rank 2, i.e. tile 4. -/
theorem fromHuman_accepts_five :
    toLog 5 = some 2 ∧
      fromHuman [[5, 0, 0, 0], [0, 0, 0, 0], [0, 0, 0, 0], [0, 0, 0, 0]] =
        some 0x2000000000000000 := by
  refine ⟨toLog_five, ?_⟩
  simp [fromHuman, List.mapM.loop, toLog_five, toLog_zero, packRow,
    packRowAux, fromRows]

/-- C9: the search depth is clamp(count_distinct_tiles − stage_adjustment,
MIN_DEPTH, MAX_DEPTH), with stage_adjustment 0 above 8192, 1 above 4096 and
2 otherwise; on the grid [[8,2,4,2],[32,32,4,2],[512,128,64,2],[1024,256,16,0]]
(packed 0x312155219761A840) the reported depth is 8. -/
theorem search_depth_policy :
    (∀ g : Nat, ∀ p : ℚ, (search g p).depth =
        clampNum (countDistinctTiles g -
            (if 8192 < biggestTile g then 0
             else if 4096 < biggestTile g then 1 else 2))
          MIN_DEPTH MAX_DEPTH) ∧
      unpackHuman 0x312155219761A840 =
        [[8, 2, 4, 2], [32, 32, 4, 2], [512, 128, 64, 2], [1024, 256, 16, 0]] ∧
      (search 0x312155219761A840 (1 / 10)).depth = 8 := by
  refine ⟨fun g p => ?_, by decide, ?_⟩
  · have h1 : ∀ d : Nat, (searchInner g d p).depth = d := fun d => rfl
    have h2 : (search g p).depth = calculateDepth g := h1 (calculateDepth g)
    have h3 : calculateDepth g = clampNum (countDistinctTiles g -
        (if 8192 < biggestTile g then 0
         else if 4096 < biggestTile g then 1 else 2))
        MIN_DEPTH MAX_DEPTH := rfl
    exact h2.trans h3
  · have h1 : ∀ d : Nat, (searchInner 0x312155219761A840 d (1 / 10)).depth = d :=
      fun d => rfl
    have h2 : (search 0x312155219761A840 (1 / 10)).depth =
        calculateDepth 0x312155219761A840 := h1 (calculateDepth 0x312155219761A840)
    have h3 : calculateDepth 0x312155219761A840 = 8 := by decide
    exact h2.trans h3

theorem playerMoves_eq_nil (g : Nat) (h : gameOver g = true) : playerMoves g = [] := by
  unfold gameOver at h
  rw [Option.isNone_iff_eq_none, List.find?_eq_none] at h
  unfold playerMoves
  rw [List.filterMap_eq_nil]
  intro m hm
  have hme := h m hm
  simp only [bne_iff_ne, ne_eq, not_not] at hme
  simp [hme]

/-- C8: a search on a terminal grid (game_over true) returns an empty
move_evaluations list and best_move = none. -/
theorem search_terminal (g : Nat) (p : ℚ) (h : gameOver g = true) :
    (search g p).moveEvaluations = [] ∧ (search g p).bestMove = none := by
  have hpm : playerMoves g = [] := playerMoves_eq_nil g h
  constructor <;>
    simp [search, searchInner, hpm, evalMoves, List.mergeSort]

/-- Witness for C8 at a concrete terminal grid. -/
theorem search_terminal_witness :
    gameOver 0x2432375115432121 = true ∧
      (search 0x2432375115432121 (1 / 10)).moveEvaluations = [] ∧
      (search 0x2432375115432121 (1 / 10)).bestMove = none :=
  ⟨by decide, search_terminal 0x2432375115432121 (1 / 10) (by decide)⟩

/-- C2 counterexample: on the all-empty grid (the all-zero word) count_empty
returns 0, not the number of zero nibbles, which is 16: the nibble-wise
count saturates the low nibble's carry chain... (sum 16 overflows the
4-bit field and wraps to 0). -/
theorem countEmpty_zero_counterexample :
    countEmpty 0 = 0 ∧ zeroNibbles 0 = 16 ∧ countEmpty 0 ≠ zeroNibbles 0 := by
  decide

/-- C2 (amended): for every NONZERO grid g < 2^64, count_empty(g) equals the
number of zero nibbles of g, a value in 0..=16; the all-zero grid is the
sole exception (it yields 0 instead of 16). -/
theorem countEmpty_correct_nonzero (g : Nat) (hg : g < 2 ^ 64) (hnz : g ≠ 0) :
    countEmpty g = zeroNibbles g ∧ countEmpty g ≤ 16 := by
  have h := countEmpty_eq_zeroNibbles g hg hnz
  refine ⟨h, ?_⟩
  rw [h]
  have := List.length_filter_le (fun i => nib g i == 0) (List.range 16)
  simpa [zeroNibbles] using this

/-- Witness for the amended C2 at a concrete nonzero grid. -/
theorem countEmpty_correct_nonzero_witness :
    (0x0123456789ABCDEF : Nat) < 2 ^ 64 ∧ (0x0123456789ABCDEF : Nat) ≠ 0 ∧
      countEmpty 0x0123456789ABCDEF = zeroNibbles 0x0123456789ABCDEF ∧
      countEmpty 0x0123456789ABCDEF ≤ 16 :=
  ⟨by decide, by decide, countEmpty_correct_nonzero 0x0123456789ABCDEF
    (by decide) (by decide)⟩



theorem ofNibs4_val (a b c d : Nat) :
    ofNibs [a, b, c, d] = a + 16 * b + 256 * c + 4096 * d := by
  simp [ofNibs]; ring

theorem ofNibs16_lt (ds : List Nat) (h : ∀ d ∈ ds, d < 16) (h16 : ds.length = 16) :
    ofNibs ds < 2 ^ 64 := by
  have := ofNibs_lt ds h
  rw [h16] at this
  norm_num at this ⊢
  exact this

theorem countEmpty_pos_of_nib (G : Nat) (hG : G < 2 ^ 64) (hnz : G ≠ 0)
    (j : Nat) (hj : j < 16) (hz : nib G j = 0) : 1 ≤ countEmpty G := by
  rw [countEmpty_eq_zeroNibbles G hG hnz]
  have hmem : j ∈ (List.range 16).filter fun i => nib G i == 0 := by
    rw [List.mem_filter]
    exact ⟨List.mem_range.mpr hj, by simp [hz]⟩
  exact List.length_pos_of_mem hmem

theorem rows_nibs (n0 n1 n2 n3 n4 n5 n6 n7 n8 n9 n10 n11 n12 n13 n14 n15 : Nat)
    (hb : ∀ d ∈ [n0, n1, n2, n3, n4, n5, n6, n7, n8, n9, n10, n11, n12, n13, n14,
      n15], d < 16) :
    rows (ofNibs [n0, n1, n2, n3, n4, n5, n6, n7, n8, n9, n10, n11, n12, n13, n14,
        n15]) =
      [ofNibs [n12, n13, n14, n15], ofNibs [n8, n9, n10, n11],
       ofNibs [n4, n5, n6, n7], ofNibs [n0, n1, n2, n3]] := by
  simp only [rows]
  have e0 : (ofNibs [n0, n1, n2, n3, n4, n5, n6, n7, n8, n9, n10, n11, n12, n13, n14,
      n15] &&& 0xFFFF000000000000) >>> 48 = ofNibs [n12, n13, n14, n15] := by
    rw [show (0xFFFF000000000000 : Nat) = 0xFFFF <<< 48 by decide, and_shift_shift,
      show (48 : Nat) = 4 * 12 by norm_num, ofNibs_shiftRight_mul4 _ _ hb,
      show (0xFFFF : Nat) = 2 ^ 16 - 1 by norm_num, Nat.and_pow_two_sub_one_eq_mod,
      show (2 : Nat) ^ 16 = 16 ^ 4 by norm_num,
      ofNibs_mod_pow16 _ _ (fun d hd => hb d (List.mem_of_mem_drop hd))]
    rfl
  have e1 : (ofNibs [n0, n1, n2, n3, n4, n5, n6, n7, n8, n9, n10, n11, n12, n13, n14,
      n15] &&& 0x0000FFFF00000000) >>> 32 = ofNibs [n8, n9, n10, n11] := by
    rw [show (0x0000FFFF00000000 : Nat) = 0xFFFF <<< 32 by decide, and_shift_shift,
      show (32 : Nat) = 4 * 8 by norm_num, ofNibs_shiftRight_mul4 _ _ hb,
      show (0xFFFF : Nat) = 2 ^ 16 - 1 by norm_num, Nat.and_pow_two_sub_one_eq_mod,
      show (2 : Nat) ^ 16 = 16 ^ 4 by norm_num,
      ofNibs_mod_pow16 _ _ (fun d hd => hb d (List.mem_of_mem_drop hd))]
    rfl
  have e2 : (ofNibs [n0, n1, n2, n3, n4, n5, n6, n7, n8, n9, n10, n11, n12, n13, n14,
      n15] &&& 0x00000000FFFF0000) >>> 16 = ofNibs [n4, n5, n6, n7] := by
    rw [show (0x00000000FFFF0000 : Nat) = 0xFFFF <<< 16 by decide, and_shift_shift,
      show (16 : Nat) = 4 * 4 by norm_num, ofNibs_shiftRight_mul4 _ _ hb,
      show (0xFFFF : Nat) = 2 ^ 16 - 1 by norm_num, Nat.and_pow_two_sub_one_eq_mod,
      show (2 : Nat) ^ 16 = 16 ^ 4 by norm_num,
      ofNibs_mod_pow16 _ _ (fun d hd => hb d (List.mem_of_mem_drop hd))]
    rfl
  have e3 : ofNibs [n0, n1, n2, n3, n4, n5, n6, n7, n8, n9, n10, n11, n12, n13, n14,
      n15] &&& 0x000000000000FFFF = ofNibs [n0, n1, n2, n3] := by
    rw [show (0x000000000000FFFF : Nat) = 2 ^ 16 - 1 by norm_num,
      Nat.and_pow_two_sub_one_eq_mod, show (2 : Nat) ^ 16 = 16 ^ 4 by norm_num,
      ofNibs_mod_pow16 _ _ hb]
    rfl
  rw [e0, e1, e2, e3]


theorem mrl_digits (a b c d : Nat) (ha : a < 16) (hb : b < 16) (hc : c < 16)
    (hd : d < 16) :
    ∃ qa qb qc qd : Nat, qa < 16 ∧ qb < 16 ∧ qc < 16 ∧ qd < 16 ∧
      moveRowLeft (ofNibs [a, b, c, d]) = ofNibs [qa, qb, qc, qd] ∧
      (ofNibs [qa, qb, qc, qd] = ofNibs [a, b, c, d] ∨
        qa = 0 ∨ qb = 0 ∨ qc = 0 ∨ qd = 0) ∧
      (ofNibs [a, b, c, d] ≠ 0 → ofNibs [qa, qb, qc, qd] ≠ 0) := by
  have hv : ofNibs [a, b, c, d] = 4096 * d + 256 * c + 16 * b + a := by
    rw [ofNibs4_val]; ring
  obtain ⟨hlt, hdich, hnz⟩ := mrl_master d c b a hd hc hb ha
  rw [← hv] at hlt hdich hnz
  obtain ⟨u0, u1, u2, u3, hu0, hu1, hu2, hu3, hue⟩ :=
    exists4 (moveRowLeft (ofNibs [a, b, c, d])) hlt
  refine ⟨u3, u2, u1, u0, hu3, hu2, hu1, hu0, by rw [hue, ofNibs4_val]; ring, ?_, ?_⟩
  · rcases hdich with h | h | h | h | h
    · exact Or.inl (by rw [ofNibs4_val]; omega)
    · exact Or.inr (Or.inl (by rw [hue] at h; omega))
    · exact Or.inr (Or.inr (Or.inl (by rw [hue] at h; omega)))
    · exact Or.inr (Or.inr (Or.inr (Or.inl (by rw [hue] at h; omega))))
    · exact Or.inr (Or.inr (Or.inr (Or.inr (by rw [hue] at h; omega))))
  · intro h0
    have := hnz h0
    rw [hue] at this
    rw [ofNibs4_val]
    omega

theorem mrlRight_digits (a b c d : Nat) (ha : a < 16) (hb : b < 16) (hc : c < 16)
    (hd : d < 16) :
    ∃ qa qb qc qd : Nat, qa < 16 ∧ qb < 16 ∧ qc < 16 ∧ qd < 16 ∧
      lookupRightFn (ofNibs [a, b, c, d]) = ofNibs [qa, qb, qc, qd] ∧
      (ofNibs [qa, qb, qc, qd] = ofNibs [a, b, c, d] ∨
        qa = 0 ∨ qb = 0 ∨ qc = 0 ∨ qd = 0) ∧
      (ofNibs [a, b, c, d] ≠ 0 → ofNibs [qa, qb, qc, qd] ≠ 0) := by
  obtain ⟨pa, pb, pc, pd, hpa, hpb, hpc, hpd, hpe, hpd2, hpnz⟩ :=
    mrl_digits d c b a hd hc hb ha
  unfold lookupRightFn
  rw [reverseRow_nibs a b c d ha hb hc hd, hpe,
    reverseRow_nibs pa pb pc pd hpa hpb hpc hpd]
  refine ⟨pd, pc, pb, pa, hpd, hpc, hpb, hpa, rfl, ?_, ?_⟩
  · rcases hpd2 with h | h | h | h | h
    · refine Or.inl ?_
      rw [ofNibs4_val, ofNibs4_val] at h ⊢
      omega
    · exact Or.inr (Or.inr (Or.inr (Or.inr h)))
    · exact Or.inr (Or.inr (Or.inr (Or.inl h)))
    · exact Or.inr (Or.inr (Or.inl h))
    · exact Or.inr (Or.inl h)
  · intro h0
    have hrev : ofNibs [d, c, b, a] ≠ 0 := by
      rw [ofNibs4_val] at h0 ⊢
      omega
    have := hpnz hrev
    rw [ofNibs4_val] at this
    rw [ofNibs4_val]
    omega


theorem ofNibs16_val (n0 n1 n2 n3 n4 n5 n6 n7 n8 n9 n10 n11 n12 n13 n14 n15 : Nat) :
    ofNibs [n0, n1, n2, n3, n4, n5, n6, n7, n8, n9, n10, n11, n12, n13, n14, n15] =
      n0 + 16 * n1 + 256 * n2 + 4096 * n3 + 65536 * n4 + 1048576 * n5 + 16777216 * n6 + 268435456 * n7 +
        4294967296 * n8 + 68719476736 * n9 + 1099511627776 * n10 + 17592186044416 * n11 + 281474976710656 * n12 + 4503599627370496 * n13 + 72057594037927936 * n14 + 1152921504606846976 * n15 := by
  simp [ofNibs]
  ring
theorem moveLeft_empty (g : Nat) (hg : g < 2 ^ 64) (hne : moveLeft g ≠ g) :
    1 ≤ countEmpty (moveLeft g) := by
  obtain ⟨n0, n1, n2, n3, n4, n5, n6, n7, n8, n9, n10, n11, n12, n13, n14, n15,
    b0, b1, b2, b3, b4, b5, b6, b7, b8, b9, b10, b11, b12, b13, b14, b15, hxe⟩ := exists16 g hg
  have hbn : ∀ d ∈ [n0, n1, n2, n3, n4, n5, n6, n7, n8, n9, n10, n11, n12, n13, n14, n15], d < 16 := by
    intro d hd
    fin_cases hd <;> omega
  have hrows : rows g = [ofNibs [n12, n13, n14, n15], ofNibs [n8, n9, n10, n11],
      ofNibs [n4, n5, n6, n7], ofNibs [n0, n1, n2, n3]] := by
    rw [hxe]
    exact rows_nibs n0 n1 n2 n3 n4 n5 n6 n7 n8 n9 n10 n11 n12 n13 n14 n15 hbn
  obtain ⟨q0a, q0b, q0c, q0d, hq0a, hq0b, hq0c, hq0d, hQ0, dich0, nz0⟩ :=
    mrl_digits n12 n13 n14 n15 b12 b13 b14 b15
  obtain ⟨q1a, q1b, q1c, q1d, hq1a, hq1b, hq1c, hq1d, hQ1, dich1, nz1⟩ :=
    mrl_digits n8 n9 n10 n11 b8 b9 b10 b11
  obtain ⟨q2a, q2b, q2c, q2d, hq2a, hq2b, hq2c, hq2d, hQ2, dich2, nz2⟩ :=
    mrl_digits n4 n5 n6 n7 b4 b5 b6 b7
  obtain ⟨q3a, q3b, q3c, q3d, hq3a, hq3b, hq3c, hq3d, hQ3, dich3, nz3⟩ :=
    mrl_digits n0 n1 n2 n3 b0 b1 b2 b3
  have hmu : moveLeft g = ofNibs [q3a, q3b, q3c, q3d, q2a, q2b, q2c, q2d, q1a, q1b, q1c, q1d, q0a, q0b, q0c, q0d] := by
    unfold moveLeft
    rw [hrows]
    simp only [List.map_cons, List.map_nil, lookupLeftFn]
    rw [hQ0, hQ1, hQ2, hQ3]
    exact fromRows_nibs q0a q0b q0c q0d q1a q1b q1c q1d q2a q2b q2c q2d q3a q3b q3c q3d
      hq0a hq0b hq0c hq0d hq1a hq1b hq1c hq1d hq2a hq2b hq2c hq2d hq3a hq3b hq3c hq3d
  have hbL : ∀ d ∈ [q3a, q3b, q3c, q3d, q2a, q2b, q2c, q2d, q1a, q1b, q1c, q1d, q0a, q0b, q0c, q0d], d < 16 := by
    intro d hd
    fin_cases hd <;> omega
  have hlt : moveLeft g < 2 ^ 64 := by
    rw [hmu]
    exact ofNibs16_lt _ hbL rfl
  have hgnz : g ≠ 0 := by
    intro h
    apply hne
    rw [h]
    decide
  have hGnz : moveLeft g ≠ 0 := by
    rw [hmu]
    rw [hxe] at hgnz
    simp only [ofNibs16_val] at hgnz ⊢
    simp only [ofNibs4_val] at nz0 nz1 nz2 nz3
    omega
  have hex : ∃ j, j < 16 ∧ nib (moveLeft g) j = 0 := by
    by_contra hcon
    push_neg at hcon
    have hz0 : q3a ≠ 0 := by
      have h' := hcon 0 (by omega)
      rw [hmu, nib_ofNibs _ hbL 0] at h'
      exact h'
    have hz1 : q3b ≠ 0 := by
      have h' := hcon 1 (by omega)
      rw [hmu, nib_ofNibs _ hbL 1] at h'
      exact h'
    have hz2 : q3c ≠ 0 := by
      have h' := hcon 2 (by omega)
      rw [hmu, nib_ofNibs _ hbL 2] at h'
      exact h'
    have hz3 : q3d ≠ 0 := by
      have h' := hcon 3 (by omega)
      rw [hmu, nib_ofNibs _ hbL 3] at h'
      exact h'
    have hz4 : q2a ≠ 0 := by
      have h' := hcon 4 (by omega)
      rw [hmu, nib_ofNibs _ hbL 4] at h'
      exact h'
    have hz5 : q2b ≠ 0 := by
      have h' := hcon 5 (by omega)
      rw [hmu, nib_ofNibs _ hbL 5] at h'
      exact h'
    have hz6 : q2c ≠ 0 := by
      have h' := hcon 6 (by omega)
      rw [hmu, nib_ofNibs _ hbL 6] at h'
      exact h'
    have hz7 : q2d ≠ 0 := by
      have h' := hcon 7 (by omega)
      rw [hmu, nib_ofNibs _ hbL 7] at h'
      exact h'
    have hz8 : q1a ≠ 0 := by
      have h' := hcon 8 (by omega)
      rw [hmu, nib_ofNibs _ hbL 8] at h'
      exact h'
    have hz9 : q1b ≠ 0 := by
      have h' := hcon 9 (by omega)
      rw [hmu, nib_ofNibs _ hbL 9] at h'
      exact h'
    have hz10 : q1c ≠ 0 := by
      have h' := hcon 10 (by omega)
      rw [hmu, nib_ofNibs _ hbL 10] at h'
      exact h'
    have hz11 : q1d ≠ 0 := by
      have h' := hcon 11 (by omega)
      rw [hmu, nib_ofNibs _ hbL 11] at h'
      exact h'
    have hz12 : q0a ≠ 0 := by
      have h' := hcon 12 (by omega)
      rw [hmu, nib_ofNibs _ hbL 12] at h'
      exact h'
    have hz13 : q0b ≠ 0 := by
      have h' := hcon 13 (by omega)
      rw [hmu, nib_ofNibs _ hbL 13] at h'
      exact h'
    have hz14 : q0c ≠ 0 := by
      have h' := hcon 14 (by omega)
      rw [hmu, nib_ofNibs _ hbL 14] at h'
      exact h'
    have hz15 : q0d ≠ 0 := by
      have h' := hcon 15 (by omega)
      rw [hmu, nib_ofNibs _ hbL 15] at h'
      exact h'
    have heq0 : ofNibs [q0a, q0b, q0c, q0d] = ofNibs [n12, n13, n14, n15] := by
      rcases dich0 with h | h | h | h | h
      · exact h
      · exact absurd h hz12
      · exact absurd h hz13
      · exact absurd h hz14
      · exact absurd h hz15
    have heq1 : ofNibs [q1a, q1b, q1c, q1d] = ofNibs [n8, n9, n10, n11] := by
      rcases dich1 with h | h | h | h | h
      · exact h
      · exact absurd h hz8
      · exact absurd h hz9
      · exact absurd h hz10
      · exact absurd h hz11
    have heq2 : ofNibs [q2a, q2b, q2c, q2d] = ofNibs [n4, n5, n6, n7] := by
      rcases dich2 with h | h | h | h | h
      · exact h
      · exact absurd h hz4
      · exact absurd h hz5
      · exact absurd h hz6
      · exact absurd h hz7
    have heq3 : ofNibs [q3a, q3b, q3c, q3d] = ofNibs [n0, n1, n2, n3] := by
      rcases dich3 with h | h | h | h | h
      · exact h
      · exact absurd h hz0
      · exact absurd h hz1
      · exact absurd h hz2
      · exact absurd h hz3
    apply hne
    rw [hmu, hxe]
    simp only [ofNibs16_val]
    simp only [ofNibs4_val] at heq0 heq1 heq2 heq3
    omega
  obtain ⟨j, hj, hz⟩ := hex
  exact countEmpty_pos_of_nib _ hlt hGnz j hj hz

theorem moveRight_empty (g : Nat) (hg : g < 2 ^ 64) (hne : moveRight g ≠ g) :
    1 ≤ countEmpty (moveRight g) := by
  obtain ⟨n0, n1, n2, n3, n4, n5, n6, n7, n8, n9, n10, n11, n12, n13, n14, n15,
    b0, b1, b2, b3, b4, b5, b6, b7, b8, b9, b10, b11, b12, b13, b14, b15, hxe⟩ := exists16 g hg
  have hbn : ∀ d ∈ [n0, n1, n2, n3, n4, n5, n6, n7, n8, n9, n10, n11, n12, n13, n14, n15], d < 16 := by
    intro d hd
    fin_cases hd <;> omega
  have hrows : rows g = [ofNibs [n12, n13, n14, n15], ofNibs [n8, n9, n10, n11],
      ofNibs [n4, n5, n6, n7], ofNibs [n0, n1, n2, n3]] := by
    rw [hxe]
    exact rows_nibs n0 n1 n2 n3 n4 n5 n6 n7 n8 n9 n10 n11 n12 n13 n14 n15 hbn
  obtain ⟨q0a, q0b, q0c, q0d, hq0a, hq0b, hq0c, hq0d, hQ0, dich0, nz0⟩ :=
    mrlRight_digits n12 n13 n14 n15 b12 b13 b14 b15
  obtain ⟨q1a, q1b, q1c, q1d, hq1a, hq1b, hq1c, hq1d, hQ1, dich1, nz1⟩ :=
    mrlRight_digits n8 n9 n10 n11 b8 b9 b10 b11
  obtain ⟨q2a, q2b, q2c, q2d, hq2a, hq2b, hq2c, hq2d, hQ2, dich2, nz2⟩ :=
    mrlRight_digits n4 n5 n6 n7 b4 b5 b6 b7
  obtain ⟨q3a, q3b, q3c, q3d, hq3a, hq3b, hq3c, hq3d, hQ3, dich3, nz3⟩ :=
    mrlRight_digits n0 n1 n2 n3 b0 b1 b2 b3
  have hmu : moveRight g = ofNibs [q3a, q3b, q3c, q3d, q2a, q2b, q2c, q2d, q1a, q1b, q1c, q1d, q0a, q0b, q0c, q0d] := by
    unfold moveRight
    rw [hrows]
    simp only [List.map_cons, List.map_nil]
    rw [hQ0, hQ1, hQ2, hQ3]
    exact fromRows_nibs q0a q0b q0c q0d q1a q1b q1c q1d q2a q2b q2c q2d q3a q3b q3c q3d
      hq0a hq0b hq0c hq0d hq1a hq1b hq1c hq1d hq2a hq2b hq2c hq2d hq3a hq3b hq3c hq3d
  have hbL : ∀ d ∈ [q3a, q3b, q3c, q3d, q2a, q2b, q2c, q2d, q1a, q1b, q1c, q1d, q0a, q0b, q0c, q0d], d < 16 := by
    intro d hd
    fin_cases hd <;> omega
  have hlt : moveRight g < 2 ^ 64 := by
    rw [hmu]
    exact ofNibs16_lt _ hbL rfl
  have hgnz : g ≠ 0 := by
    intro h
    apply hne
    rw [h]
    decide
  have hGnz : moveRight g ≠ 0 := by
    rw [hmu]
    rw [hxe] at hgnz
    simp only [ofNibs16_val] at hgnz ⊢
    simp only [ofNibs4_val] at nz0 nz1 nz2 nz3
    omega
  have hex : ∃ j, j < 16 ∧ nib (moveRight g) j = 0 := by
    by_contra hcon
    push_neg at hcon
    have hz0 : q3a ≠ 0 := by
      have h' := hcon 0 (by omega)
      rw [hmu, nib_ofNibs _ hbL 0] at h'
      exact h'
    have hz1 : q3b ≠ 0 := by
      have h' := hcon 1 (by omega)
      rw [hmu, nib_ofNibs _ hbL 1] at h'
      exact h'
    have hz2 : q3c ≠ 0 := by
      have h' := hcon 2 (by omega)
      rw [hmu, nib_ofNibs _ hbL 2] at h'
      exact h'
    have hz3 : q3d ≠ 0 := by
      have h' := hcon 3 (by omega)
      rw [hmu, nib_ofNibs _ hbL 3] at h'
      exact h'
    have hz4 : q2a ≠ 0 := by
      have h' := hcon 4 (by omega)
      rw [hmu, nib_ofNibs _ hbL 4] at h'
      exact h'
    have hz5 : q2b ≠ 0 := by
      have h' := hcon 5 (by omega)
      rw [hmu, nib_ofNibs _ hbL 5] at h'
      exact h'
    have hz6 : q2c ≠ 0 := by
      have h' := hcon 6 (by omega)
      rw [hmu, nib_ofNibs _ hbL 6] at h'
      exact h'
    have hz7 : q2d ≠ 0 := by
      have h' := hcon 7 (by omega)
      rw [hmu, nib_ofNibs _ hbL 7] at h'
      exact h'
    have hz8 : q1a ≠ 0 := by
      have h' := hcon 8 (by omega)
      rw [hmu, nib_ofNibs _ hbL 8] at h'
      exact h'
    have hz9 : q1b ≠ 0 := by
      have h' := hcon 9 (by omega)
      rw [hmu, nib_ofNibs _ hbL 9] at h'
      exact h'
    have hz10 : q1c ≠ 0 := by
      have h' := hcon 10 (by omega)
      rw [hmu, nib_ofNibs _ hbL 10] at h'
      exact h'
    have hz11 : q1d ≠ 0 := by
      have h' := hcon 11 (by omega)
      rw [hmu, nib_ofNibs _ hbL 11] at h'
      exact h'
    have hz12 : q0a ≠ 0 := by
      have h' := hcon 12 (by omega)
      rw [hmu, nib_ofNibs _ hbL 12] at h'
      exact h'
    have hz13 : q0b ≠ 0 := by
      have h' := hcon 13 (by omega)
      rw [hmu, nib_ofNibs _ hbL 13] at h'
      exact h'
    have hz14 : q0c ≠ 0 := by
      have h' := hcon 14 (by omega)
      rw [hmu, nib_ofNibs _ hbL 14] at h'
      exact h'
    have hz15 : q0d ≠ 0 := by
      have h' := hcon 15 (by omega)
      rw [hmu, nib_ofNibs _ hbL 15] at h'
      exact h'
    have heq0 : ofNibs [q0a, q0b, q0c, q0d] = ofNibs [n12, n13, n14, n15] := by
      rcases dich0 with h | h | h | h | h
      · exact h
      · exact absurd h hz12
      · exact absurd h hz13
      · exact absurd h hz14
      · exact absurd h hz15
    have heq1 : ofNibs [q1a, q1b, q1c, q1d] = ofNibs [n8, n9, n10, n11] := by
      rcases dich1 with h | h | h | h | h
      · exact h
      · exact absurd h hz8
      · exact absurd h hz9
      · exact absurd h hz10
      · exact absurd h hz11
    have heq2 : ofNibs [q2a, q2b, q2c, q2d] = ofNibs [n4, n5, n6, n7] := by
      rcases dich2 with h | h | h | h | h
      · exact h
      · exact absurd h hz4
      · exact absurd h hz5
      · exact absurd h hz6
      · exact absurd h hz7
    have heq3 : ofNibs [q3a, q3b, q3c, q3d] = ofNibs [n0, n1, n2, n3] := by
      rcases dich3 with h | h | h | h | h
      · exact h
      · exact absurd h hz0
      · exact absurd h hz1
      · exact absurd h hz2
      · exact absurd h hz3
    apply hne
    rw [hmu, hxe]
    simp only [ofNibs16_val]
    simp only [ofNibs4_val] at heq0 heq1 heq2 heq3
    omega
  obtain ⟨j, hj, hz⟩ := hex
  exact countEmpty_pos_of_nib _ hlt hGnz j hj hz

theorem moveUp_empty (g : Nat) (hg : g < 2 ^ 64) (hne : moveUp g ≠ g) :
    1 ≤ countEmpty (moveUp g) := by
  obtain ⟨n0, n1, n2, n3, n4, n5, n6, n7, n8, n9, n10, n11, n12, n13, n14, n15,
    b0, b1, b2, b3, b4, b5, b6, b7, b8, b9, b10, b11, b12, b13, b14, b15, hxe⟩ := exists16 g hg
  have hbn : ∀ d ∈ [n0, n1, n2, n3, n4, n5, n6, n7, n8, n9, n10, n11, n12, n13, n14, n15], d < 16 := by
    intro d hd
    fin_cases hd <;> omega
  have ht : transpose g = ofNibs [n0, n4, n8, n12, n1, n5, n9, n13, n2, n6, n10, n14, n3, n7, n11, n15] := by
    rw [hxe]
    exact transpose_nibs n0 n1 n2 n3 n4 n5 n6 n7 n8 n9 n10 n11 n12 n13 n14 n15 b0 b1 b2 b3 b4 b5 b6 b7 b8 b9 b10 b11 b12 b13 b14 b15
  have hbP : ∀ d ∈ [n0, n4, n8, n12, n1, n5, n9, n13, n2, n6, n10, n14, n3, n7, n11, n15], d < 16 := by
    intro d hd
    fin_cases hd <;> omega
  have hrows : rows (transpose g) = [ofNibs [n3, n7, n11, n15], ofNibs [n2, n6, n10, n14],
      ofNibs [n1, n5, n9, n13], ofNibs [n0, n4, n8, n12]] := by
    rw [ht]
    exact rows_nibs n0 n4 n8 n12 n1 n5 n9 n13 n2 n6 n10 n14 n3 n7 n11 n15 hbP
  obtain ⟨q0a, q0b, q0c, q0d, hq0a, hq0b, hq0c, hq0d, hQ0, dich0, nz0⟩ :=
    mrl_digits n3 n7 n11 n15 b3 b7 b11 b15
  obtain ⟨q1a, q1b, q1c, q1d, hq1a, hq1b, hq1c, hq1d, hQ1, dich1, nz1⟩ :=
    mrl_digits n2 n6 n10 n14 b2 b6 b10 b14
  obtain ⟨q2a, q2b, q2c, q2d, hq2a, hq2b, hq2c, hq2d, hQ2, dich2, nz2⟩ :=
    mrl_digits n1 n5 n9 n13 b1 b5 b9 b13
  obtain ⟨q3a, q3b, q3c, q3d, hq3a, hq3b, hq3c, hq3d, hQ3, dich3, nz3⟩ :=
    mrl_digits n0 n4 n8 n12 b0 b4 b8 b12
  have hmu : moveUp g = ofNibs [q3a, q2a, q1a, q0a, q3b, q2b, q1b, q0b, q3c, q2c, q1c, q0c, q3d, q2d, q1d, q0d] := by
    unfold moveUp
    rw [hrows]
    simp only [List.map_cons, List.map_nil, lookupUpFn, lookupLeftFn]
    rw [hQ0, hQ1, hQ2, hQ3,
      columnFromRow_nibs q0a q0b q0c q0d hq0a hq0b hq0c hq0d,
      columnFromRow_nibs q1a q1b q1c q1d hq1a hq1b hq1c hq1d,
      columnFromRow_nibs q2a q2b q2c q2d hq2a hq2b hq2c hq2d,
      columnFromRow_nibs q3a q3b q3c q3d hq3a hq3b hq3c hq3d]
    exact fromColumns_nibs q0a q0b q0c q0d q1a q1b q1c q1d q2a q2b q2c q2d q3a q3b q3c q3d
      hq0a hq0b hq0c hq0d hq1a hq1b hq1c hq1d hq2a hq2b hq2c hq2d hq3a hq3b hq3c hq3d
  have hbL : ∀ d ∈ [q3a, q2a, q1a, q0a, q3b, q2b, q1b, q0b, q3c, q2c, q1c, q0c, q3d, q2d, q1d, q0d], d < 16 := by
    intro d hd
    fin_cases hd <;> omega
  have hlt : moveUp g < 2 ^ 64 := by
    rw [hmu]
    exact ofNibs16_lt _ hbL rfl
  have hgnz : g ≠ 0 := by
    intro h
    apply hne
    rw [h]
    decide
  have hGnz : moveUp g ≠ 0 := by
    rw [hmu]
    rw [hxe] at hgnz
    simp only [ofNibs16_val] at hgnz ⊢
    simp only [ofNibs4_val] at nz0 nz1 nz2 nz3
    omega
  have hex : ∃ j, j < 16 ∧ nib (moveUp g) j = 0 := by
    by_contra hcon
    push_neg at hcon
    have hz0 : q3a ≠ 0 := by
      have h' := hcon 0 (by omega)
      rw [hmu, nib_ofNibs _ hbL 0] at h'
      exact h'
    have hz1 : q2a ≠ 0 := by
      have h' := hcon 1 (by omega)
      rw [hmu, nib_ofNibs _ hbL 1] at h'
      exact h'
    have hz2 : q1a ≠ 0 := by
      have h' := hcon 2 (by omega)
      rw [hmu, nib_ofNibs _ hbL 2] at h'
      exact h'
    have hz3 : q0a ≠ 0 := by
      have h' := hcon 3 (by omega)
      rw [hmu, nib_ofNibs _ hbL 3] at h'
      exact h'
    have hz4 : q3b ≠ 0 := by
      have h' := hcon 4 (by omega)
      rw [hmu, nib_ofNibs _ hbL 4] at h'
      exact h'
    have hz5 : q2b ≠ 0 := by
      have h' := hcon 5 (by omega)
      rw [hmu, nib_ofNibs _ hbL 5] at h'
      exact h'
    have hz6 : q1b ≠ 0 := by
      have h' := hcon 6 (by omega)
      rw [hmu, nib_ofNibs _ hbL 6] at h'
      exact h'
    have hz7 : q0b ≠ 0 := by
      have h' := hcon 7 (by omega)
      rw [hmu, nib_ofNibs _ hbL 7] at h'
      exact h'
    have hz8 : q3c ≠ 0 := by
      have h' := hcon 8 (by omega)
      rw [hmu, nib_ofNibs _ hbL 8] at h'
      exact h'
    have hz9 : q2c ≠ 0 := by
      have h' := hcon 9 (by omega)
      rw [hmu, nib_ofNibs _ hbL 9] at h'
      exact h'
    have hz10 : q1c ≠ 0 := by
      have h' := hcon 10 (by omega)
      rw [hmu, nib_ofNibs _ hbL 10] at h'
      exact h'
    have hz11 : q0c ≠ 0 := by
      have h' := hcon 11 (by omega)
      rw [hmu, nib_ofNibs _ hbL 11] at h'
      exact h'
    have hz12 : q3d ≠ 0 := by
      have h' := hcon 12 (by omega)
      rw [hmu, nib_ofNibs _ hbL 12] at h'
      exact h'
    have hz13 : q2d ≠ 0 := by
      have h' := hcon 13 (by omega)
      rw [hmu, nib_ofNibs _ hbL 13] at h'
      exact h'
    have hz14 : q1d ≠ 0 := by
      have h' := hcon 14 (by omega)
      rw [hmu, nib_ofNibs _ hbL 14] at h'
      exact h'
    have hz15 : q0d ≠ 0 := by
      have h' := hcon 15 (by omega)
      rw [hmu, nib_ofNibs _ hbL 15] at h'
      exact h'
    have heq0 : ofNibs [q0a, q0b, q0c, q0d] = ofNibs [n3, n7, n11, n15] := by
      rcases dich0 with h | h | h | h | h
      · exact h
      · exact absurd h hz3
      · exact absurd h hz7
      · exact absurd h hz11
      · exact absurd h hz15
    have heq1 : ofNibs [q1a, q1b, q1c, q1d] = ofNibs [n2, n6, n10, n14] := by
      rcases dich1 with h | h | h | h | h
      · exact h
      · exact absurd h hz2
      · exact absurd h hz6
      · exact absurd h hz10
      · exact absurd h hz14
    have heq2 : ofNibs [q2a, q2b, q2c, q2d] = ofNibs [n1, n5, n9, n13] := by
      rcases dich2 with h | h | h | h | h
      · exact h
      · exact absurd h hz1
      · exact absurd h hz5
      · exact absurd h hz9
      · exact absurd h hz13
    have heq3 : ofNibs [q3a, q3b, q3c, q3d] = ofNibs [n0, n4, n8, n12] := by
      rcases dich3 with h | h | h | h | h
      · exact h
      · exact absurd h hz0
      · exact absurd h hz4
      · exact absurd h hz8
      · exact absurd h hz12
    apply hne
    rw [hmu, hxe]
    simp only [ofNibs16_val]
    simp only [ofNibs4_val] at heq0 heq1 heq2 heq3
    omega
  obtain ⟨j, hj, hz⟩ := hex
  exact countEmpty_pos_of_nib _ hlt hGnz j hj hz

theorem moveDown_empty (g : Nat) (hg : g < 2 ^ 64) (hne : moveDown g ≠ g) :
    1 ≤ countEmpty (moveDown g) := by
  obtain ⟨n0, n1, n2, n3, n4, n5, n6, n7, n8, n9, n10, n11, n12, n13, n14, n15,
    b0, b1, b2, b3, b4, b5, b6, b7, b8, b9, b10, b11, b12, b13, b14, b15, hxe⟩ := exists16 g hg
  have hbn : ∀ d ∈ [n0, n1, n2, n3, n4, n5, n6, n7, n8, n9, n10, n11, n12, n13, n14, n15], d < 16 := by
    intro d hd
    fin_cases hd <;> omega
  have ht : transpose g = ofNibs [n0, n4, n8, n12, n1, n5, n9, n13, n2, n6, n10, n14, n3, n7, n11, n15] := by
    rw [hxe]
    exact transpose_nibs n0 n1 n2 n3 n4 n5 n6 n7 n8 n9 n10 n11 n12 n13 n14 n15 b0 b1 b2 b3 b4 b5 b6 b7 b8 b9 b10 b11 b12 b13 b14 b15
  have hbP : ∀ d ∈ [n0, n4, n8, n12, n1, n5, n9, n13, n2, n6, n10, n14, n3, n7, n11, n15], d < 16 := by
    intro d hd
    fin_cases hd <;> omega
  have hrows : rows (transpose g) = [ofNibs [n3, n7, n11, n15], ofNibs [n2, n6, n10, n14],
      ofNibs [n1, n5, n9, n13], ofNibs [n0, n4, n8, n12]] := by
    rw [ht]
    exact rows_nibs n0 n4 n8 n12 n1 n5 n9 n13 n2 n6 n10 n14 n3 n7 n11 n15 hbP
  obtain ⟨q0a, q0b, q0c, q0d, hq0a, hq0b, hq0c, hq0d, hQ0, dich0, nz0⟩ :=
    mrlRight_digits n3 n7 n11 n15 b3 b7 b11 b15
  obtain ⟨q1a, q1b, q1c, q1d, hq1a, hq1b, hq1c, hq1d, hQ1, dich1, nz1⟩ :=
    mrlRight_digits n2 n6 n10 n14 b2 b6 b10 b14
  obtain ⟨q2a, q2b, q2c, q2d, hq2a, hq2b, hq2c, hq2d, hQ2, dich2, nz2⟩ :=
    mrlRight_digits n1 n5 n9 n13 b1 b5 b9 b13
  obtain ⟨q3a, q3b, q3c, q3d, hq3a, hq3b, hq3c, hq3d, hQ3, dich3, nz3⟩ :=
    mrlRight_digits n0 n4 n8 n12 b0 b4 b8 b12
  have hmu : moveDown g = ofNibs [q3a, q2a, q1a, q0a, q3b, q2b, q1b, q0b, q3c, q2c, q1c, q0c, q3d, q2d, q1d, q0d] := by
    unfold moveDown
    rw [hrows]
    simp only [List.map_cons, List.map_nil, lookupDownFn]
    rw [hQ0, hQ1, hQ2, hQ3,
      columnFromRow_nibs q0a q0b q0c q0d hq0a hq0b hq0c hq0d,
      columnFromRow_nibs q1a q1b q1c q1d hq1a hq1b hq1c hq1d,
      columnFromRow_nibs q2a q2b q2c q2d hq2a hq2b hq2c hq2d,
      columnFromRow_nibs q3a q3b q3c q3d hq3a hq3b hq3c hq3d]
    exact fromColumns_nibs q0a q0b q0c q0d q1a q1b q1c q1d q2a q2b q2c q2d q3a q3b q3c q3d
      hq0a hq0b hq0c hq0d hq1a hq1b hq1c hq1d hq2a hq2b hq2c hq2d hq3a hq3b hq3c hq3d
  have hbL : ∀ d ∈ [q3a, q2a, q1a, q0a, q3b, q2b, q1b, q0b, q3c, q2c, q1c, q0c, q3d, q2d, q1d, q0d], d < 16 := by
    intro d hd
    fin_cases hd <;> omega
  have hlt : moveDown g < 2 ^ 64 := by
    rw [hmu]
    exact ofNibs16_lt _ hbL rfl
  have hgnz : g ≠ 0 := by
    intro h
    apply hne
    rw [h]
    decide
  have hGnz : moveDown g ≠ 0 := by
    rw [hmu]
    rw [hxe] at hgnz
    simp only [ofNibs16_val] at hgnz ⊢
    simp only [ofNibs4_val] at nz0 nz1 nz2 nz3
    omega
  have hex : ∃ j, j < 16 ∧ nib (moveDown g) j = 0 := by
    by_contra hcon
    push_neg at hcon
    have hz0 : q3a ≠ 0 := by
      have h' := hcon 0 (by omega)
      rw [hmu, nib_ofNibs _ hbL 0] at h'
      exact h'
    have hz1 : q2a ≠ 0 := by
      have h' := hcon 1 (by omega)
      rw [hmu, nib_ofNibs _ hbL 1] at h'
      exact h'
    have hz2 : q1a ≠ 0 := by
      have h' := hcon 2 (by omega)
      rw [hmu, nib_ofNibs _ hbL 2] at h'
      exact h'
    have hz3 : q0a ≠ 0 := by
      have h' := hcon 3 (by omega)
      rw [hmu, nib_ofNibs _ hbL 3] at h'
      exact h'
    have hz4 : q3b ≠ 0 := by
      have h' := hcon 4 (by omega)
      rw [hmu, nib_ofNibs _ hbL 4] at h'
      exact h'
    have hz5 : q2b ≠ 0 := by
      have h' := hcon 5 (by omega)
      rw [hmu, nib_ofNibs _ hbL 5] at h'
      exact h'
    have hz6 : q1b ≠ 0 := by
      have h' := hcon 6 (by omega)
      rw [hmu, nib_ofNibs _ hbL 6] at h'
      exact h'
    have hz7 : q0b ≠ 0 := by
      have h' := hcon 7 (by omega)
      rw [hmu, nib_ofNibs _ hbL 7] at h'
      exact h'
    have hz8 : q3c ≠ 0 := by
      have h' := hcon 8 (by omega)
      rw [hmu, nib_ofNibs _ hbL 8] at h'
      exact h'
    have hz9 : q2c ≠ 0 := by
      have h' := hcon 9 (by omega)
      rw [hmu, nib_ofNibs _ hbL 9] at h'
      exact h'
    have hz10 : q1c ≠ 0 := by
      have h' := hcon 10 (by omega)
      rw [hmu, nib_ofNibs _ hbL 10] at h'
      exact h'
    have hz11 : q0c ≠ 0 := by
      have h' := hcon 11 (by omega)
      rw [hmu, nib_ofNibs _ hbL 11] at h'
      exact h'
    have hz12 : q3d ≠ 0 := by
      have h' := hcon 12 (by omega)
      rw [hmu, nib_ofNibs _ hbL 12] at h'
      exact h'
    have hz13 : q2d ≠ 0 := by
      have h' := hcon 13 (by omega)
      rw [hmu, nib_ofNibs _ hbL 13] at h'
      exact h'
    have hz14 : q1d ≠ 0 := by
      have h' := hcon 14 (by omega)
      rw [hmu, nib_ofNibs _ hbL 14] at h'
      exact h'
    have hz15 : q0d ≠ 0 := by
      have h' := hcon 15 (by omega)
      rw [hmu, nib_ofNibs _ hbL 15] at h'
      exact h'
    have heq0 : ofNibs [q0a, q0b, q0c, q0d] = ofNibs [n3, n7, n11, n15] := by
      rcases dich0 with h | h | h | h | h
      · exact h
      · exact absurd h hz3
      · exact absurd h hz7
      · exact absurd h hz11
      · exact absurd h hz15
    have heq1 : ofNibs [q1a, q1b, q1c, q1d] = ofNibs [n2, n6, n10, n14] := by
      rcases dich1 with h | h | h | h | h
      · exact h
      · exact absurd h hz2
      · exact absurd h hz6
      · exact absurd h hz10
      · exact absurd h hz14
    have heq2 : ofNibs [q2a, q2b, q2c, q2d] = ofNibs [n1, n5, n9, n13] := by
      rcases dich2 with h | h | h | h | h
      · exact h
      · exact absurd h hz1
      · exact absurd h hz5
      · exact absurd h hz9
      · exact absurd h hz13
    have heq3 : ofNibs [q3a, q3b, q3c, q3d] = ofNibs [n0, n4, n8, n12] := by
      rcases dich3 with h | h | h | h | h
      · exact h
      · exact absurd h hz0
      · exact absurd h hz4
      · exact absurd h hz8
      · exact absurd h hz12
    apply hne
    rw [hmu, hxe]
    simp only [ofNibs16_val]
    simp only [ofNibs4_val] at heq0 heq1 heq2 heq3
    omega
  obtain ⟨j, hj, hz⟩ := hex
  exact countEmpty_pos_of_nib _ hlt hGnz j hj hz




theorem playerMoves_mem (g : Nat) (m : Move) (g' : Nat)
    (h : (m, g') ∈ playerMoves g) : g' = makeMove g m ∧ makeMove g m ≠ g := by
  unfold playerMoves at h
  rw [List.mem_filterMap] at h
  obtain ⟨m', hm', hf⟩ := h
  by_cases hc : makeMove g m' = g
  · simp [hc] at hf
  · rw [if_neg hc] at hf
    rw [Option.some_inj, Prod.mk.injEq] at hf
    obtain ⟨he1, he2⟩ := hf
    subst he1
    exact ⟨he2.symm, hc⟩


/-- C6: a move that changes the grid always leaves at least one empty tile:
for every grid g < 2^64 and move m with make_move(g,m) ≠ g,
count_empty(make_move(g,m)) ≥ 1; hence every successor grid delivered by
player_moves has count_empty ≥ 1, and the chance node's division by
count_empty never divides by zero. -/
theorem makeMove_leaves_empty (g : Nat) (hg : g < 2 ^ 64) :
    (∀ m : Move, makeMove g m ≠ g → 1 ≤ countEmpty (makeMove g m)) ∧
      ∀ m : Move, ∀ g' : Nat, (m, g') ∈ playerMoves g → 1 ≤ countEmpty g' := by
  have hmain : ∀ m : Move, makeMove g m ≠ g → 1 ≤ countEmpty (makeMove g m) := by
    intro m hne
    cases m with
    | left => exact moveLeft_empty g hg hne
    | right => exact moveRight_empty g hg hne
    | up => exact moveUp_empty g hg hne
    | down => exact moveDown_empty g hg hne
  refine ⟨hmain, fun m g' hmem => ?_⟩
  obtain ⟨he, hne⟩ := playerMoves_mem g m g' hmem
  rw [he]
  exact hmain m hne

/-- Witness for C6 at a concrete grid with one legal move. -/
theorem makeMove_leaves_empty_witness :
    (0x11 : Nat) < 2 ^ 64 ∧ makeMove 0x11 Move.left ≠ 0x11 ∧
      1 ≤ countEmpty (makeMove 0x11 Move.left) :=
  ⟨by decide, by decide,
    (makeMove_leaves_empty 0x11 (by decide)).1 Move.left (by decide)⟩


theorem lookup_cons_self (k : Nat) (b : ℚ × ℝ) (c : List (Nat × ℚ × ℝ)) :
    List.lookup k ((k, b) :: c) = some b := by
  simp [List.lookup]

theorem lookup_cons_ne (g k : Nat) (b : ℚ × ℝ) (c : List (Nat × ℚ × ℝ))
    (h : g ≠ k) : List.lookup g ((k, b) :: c) = List.lookup g c := by
  have hb : (g == k) = false := beq_eq_false_iff_ne.mpr h
  simp [List.lookup, hb]

theorem cacheLe_refl (c : List (Nat × ℚ × ℝ)) : cacheLe c c :=
  fun g q v h => ⟨q, v, h, le_refl q⟩

theorem cacheLe_trans {c₁ c₂ c₃ : List (Nat × ℚ × ℝ)} (h₁ : cacheLe c₁ c₂)
    (h₂ : cacheLe c₂ c₃) : cacheLe c₁ c₃ := by
  intro g q v h
  obtain ⟨q', v', hl, hle⟩ := h₁ g q v h
  obtain ⟨q'', v'', hl', hle'⟩ := h₂ g q' v' hl
  exact ⟨q'', v'', hl', le_trans hle hle'⟩

theorem foldSum_cacheLe (child : Nat → SearchState → ℝ × SearchState)
    (hc : ∀ g st, cacheLe st.cache ((child g st).2).cache) :
    ∀ gs acc st, cacheLe st.cache ((foldSum child gs acc st).2).cache := by
  intro gs
  induction gs with
  | nil =>
    intro acc st
    exact cacheLe_refl _
  | cons g gs ih =>
    intro acc st
    simp only [foldSum]
    exact cacheLe_trans (hc g st) (ih _ _)

theorem foldMax_cacheLe (child : Nat → SearchState → ℝ × SearchState)
    (hc : ∀ g st, cacheLe st.cache ((child g st).2).cache) :
    ∀ gs acc st, cacheLe st.cache ((foldMax child gs acc st).2).cache := by
  intro gs
  induction gs with
  | nil =>
    intro acc st
    exact cacheLe_refl _
  | cons g gs ih =>
    intro acc st
    simp only [foldMax]
    exact cacheLe_trans (hc g st) (ih _ _)

theorem randomMoveEvalAux_cacheLe (child : Nat → SearchState → ℝ × SearchState)
    (hc : ∀ g st, cacheLe st.cache ((child g st).2).cache) (grid : Nat)
    (st : SearchState) :
    cacheLe st.cache ((randomMoveEvalAux child grid st).2).cache := by
  unfold randomMoveEvalAux
  exact foldMax_cacheLe child hc ((playerMoves grid).map Prod.snd) 0
    (bumpAverage (bumpNodes st))

theorem computeEval_lookup_self (recur : Nat → ℚ → SearchState → ℝ × SearchState)
    (grid : Nat) (p : ℚ) (st : SearchState) :
    List.lookup grid ((computeEval recur grid p st).2).cache =
      some (p, (computeEval recur grid p st).1) := by
  simp only [computeEval, cacheInsert]
  simp [List.lookup]

theorem computeEval_cacheLe (recur : Nat → ℚ → SearchState → ℝ × SearchState)
    (hrec : ∀ g q st', cacheLe st'.cache ((recur g q st').2).cache)
    (grid : Nat) (p : ℚ) (st : SearchState)
    (hlk : List.lookup grid st.cache = none ∨
      ∃ q v, List.lookup grid st.cache = some (q, v) ∧ q < p) :
    cacheLe st.cache ((computeEval recur grid p st).2).cache := by
  have hr4 : cacheLe st.cache
      ((foldSum (fun gs st' => randomMoveEvalAux
          (fun gc stc => recur gc (p * probabilityOf4 / (countEmpty grid : ℚ)) stc)
          gs st')
        (randomMovesWith4 grid) 0
        ((foldSum (fun gs st' => randomMoveEvalAux
            (fun gc stc => recur gc (p * probabilityOf2 / (countEmpty grid : ℚ)) stc)
            gs st')
          (randomMovesWith2 grid) 0 (bumpAverage st)).2)).2).cache := by
    refine @cacheLe_trans st.cache
      ((foldSum (fun gs st' => randomMoveEvalAux
          (fun gc stc => recur gc (p * probabilityOf2 / (countEmpty grid : ℚ)) stc)
          gs st')
        (randomMovesWith2 grid) 0 (bumpAverage st)).2).cache _ ?_ ?_
    · exact foldSum_cacheLe
        (fun gs st' => randomMoveEvalAux
          (fun gc stc => recur gc (p * probabilityOf2 / (countEmpty grid : ℚ)) stc)
          gs st')
        (fun g st' => randomMoveEvalAux_cacheLe _ (fun gc stc => hrec gc _ stc) g st')
        (randomMovesWith2 grid) 0 (bumpAverage st)
    · exact foldSum_cacheLe
        (fun gs st' => randomMoveEvalAux
          (fun gc stc => recur gc (p * probabilityOf4 / (countEmpty grid : ℚ)) stc)
          gs st')
        (fun g st' => randomMoveEvalAux_cacheLe _ (fun gc stc => hrec gc _ stc) g st')
        (randomMovesWith4 grid) 0
        ((foldSum (fun gs st' => randomMoveEvalAux
            (fun gc stc => recur gc (p * probabilityOf2 / (countEmpty grid : ℚ)) stc)
            gs st')
          (randomMovesWith2 grid) 0 (bumpAverage st)).2)
  intro g q v hg
  by_cases hgg : g = grid
  · subst hgg
    refine ⟨p, (computeEval recur g p st).1, computeEval_lookup_self recur g p st, ?_⟩
    rcases hlk with h | ⟨q₀, v₀, h, hq₀⟩
    · rw [hg] at h
      cases h
    · rw [hg] at h
      rw [Option.some_inj, Prod.mk.injEq] at h
      obtain ⟨hq, _⟩ := h
      rw [← hq] at hq₀
      exact le_of_lt hq₀
  · obtain ⟨q', v', hl', hle'⟩ := hr4 g q v hg
    refine ⟨q', v', ?_, hle'⟩
    simp only [computeEval, cacheInsert]
    rw [lookup_cons_ne g grid _ _ hgg]
    exact hl'

theorem playerMoveEval_hit (d grid : Nat) (p : ℚ) (st : SearchState) (q : ℚ) (v : ℝ)
    (hmin : ¬ p < st.minProbability)
    (hl : List.lookup grid st.cache = some (q, v)) (hpq : p ≤ q) :
    playerMoveEval (d + 1) grid p st = (v, bumpHits (bumpNodes st)) := by
  show playerMoveEvalStep (playerMoveEval d) grid p st = _
  unfold playerMoveEvalStep
  have hmin' : ¬ p < (bumpNodes st).minProbability := hmin
  have hl' : List.lookup grid (bumpNodes st).cache = some (q, v) := hl
  rw [if_neg hmin', hl']
  have hpq' : p ≤ ((q, v) : ℚ × ℝ).1 := hpq
  simp only [if_pos hpq']

theorem playerMoveEval_recompute (d grid : Nat) (p : ℚ) (st : SearchState)
    (q : ℚ) (v : ℝ) (hmin : ¬ p < st.minProbability)
    (hl : List.lookup grid st.cache = some (q, v)) (hpq : ¬ p ≤ q) :
    playerMoveEval (d + 1) grid p st =
      computeEval (playerMoveEval d) grid p (bumpNodes st) := by
  show playerMoveEvalStep (playerMoveEval d) grid p st = _
  unfold playerMoveEvalStep
  have hmin' : ¬ p < (bumpNodes st).minProbability := hmin
  have hl' : List.lookup grid (bumpNodes st).cache = some (q, v) := hl
  rw [if_neg hmin', hl']
  have hpq' : ¬ p ≤ ((q, v) : ℚ × ℝ).1 := hpq
  simp only [if_neg hpq']

theorem playerMoveEval_overwrite (d grid : Nat) (p : ℚ) (st : SearchState)
    (q : ℚ) (v : ℝ) (hmin : ¬ p < st.minProbability)
    (hl : List.lookup grid st.cache = some (q, v)) (hpq : ¬ p ≤ q) :
    List.lookup grid ((playerMoveEval (d + 1) grid p st).2).cache =
      some (p, (playerMoveEval (d + 1) grid p st).1) := by
  rw [playerMoveEval_recompute d grid p st q v hmin hl hpq]
  exact computeEval_lookup_self _ grid p (bumpNodes st)

theorem playerMoveEval_cacheLe :
    ∀ (d grid : Nat) (p : ℚ) (st : SearchState),
      cacheLe st.cache ((playerMoveEval d grid p st).2).cache := by
  intro d
  induction d with
  | zero =>
    intro grid p st
    exact cacheLe_refl _
  | succ d ih =>
    intro grid p st
    show cacheLe st.cache ((playerMoveEvalStep (playerMoveEval d) grid p st).2).cache
    unfold playerMoveEvalStep
    by_cases hmin : p < (bumpNodes st).minProbability
    · rw [if_pos hmin]
      exact cacheLe_refl _
    · rw [if_neg hmin]
      rcases hlk : List.lookup grid (bumpNodes st).cache with _ | ⟨q, v⟩
      · exact computeEval_cacheLe _ ih grid p (bumpNodes st) (Or.inl hlk)
      · by_cases hpq : p ≤ q
        · have hpq' : p ≤ ((q, v) : ℚ × ℝ).1 := hpq
          simp only [if_pos hpq']
          exact cacheLe_refl _
        · have hpq' : ¬ p ≤ ((q, v) : ℚ × ℝ).1 := hpq
          simp only [if_neg hpq']
          exact computeEval_cacheLe _ ih grid p (bumpNodes st)
            (Or.inr ⟨q, v, hlk, lt_of_not_le hpq⟩)

theorem evalMoves_cacheLe (d : Nat) :
    ∀ (ms : List (Move × Nat)) (st : SearchState),
      cacheLe st.cache ((evalMoves d ms st).2).cache := by
  intro ms
  induction ms with
  | nil =>
    intro st
    exact cacheLe_refl _
  | cons mg rest ih =>
    intro st
    obtain ⟨m, g⟩ := mg
    simp only [evalMoves]
    exact cacheLe_trans (playerMoveEval_cacheLe d g 1 st) (ih _)

/-- C5: the transposition-cache discipline of player_move_eval.  (i) A hit
returns the stored value only when the query probability p is at most the
stored p*, and leaves the cache untouched (only the node and hit counters
are bumped).  (ii) When instead p exceeds the stored p*, the entry is
recomputed and replaced wholesale: afterwards the key maps to (p, v') with
v' the newly returned value.  (iii) Across any player_move_eval call, and
hence across the whole root evaluation of one search, every cached key's
stored p* never decreases. -/
theorem cache_probability_monotone :
    (∀ (d grid : Nat) (p : ℚ) (st : SearchState) (q : ℚ) (v : ℝ),
        ¬ p < st.minProbability → List.lookup grid st.cache = some (q, v) →
        p ≤ q → playerMoveEval (d + 1) grid p st = (v, bumpHits (bumpNodes st))) ∧
      (∀ (d grid : Nat) (p : ℚ) (st : SearchState) (q : ℚ) (v : ℝ),
        ¬ p < st.minProbability → List.lookup grid st.cache = some (q, v) →
        ¬ p ≤ q →
        List.lookup grid ((playerMoveEval (d + 1) grid p st).2).cache =
          some (p, (playerMoveEval (d + 1) grid p st).1)) ∧
      (∀ (d grid : Nat) (p : ℚ) (st : SearchState),
        cacheLe st.cache ((playerMoveEval d grid p st).2).cache) ∧
      ∀ (d : Nat) (ms : List (Move × Nat)) (st : SearchState),
        cacheLe st.cache ((evalMoves d ms st).2).cache :=
  ⟨playerMoveEval_hit, playerMoveEval_overwrite, playerMoveEval_cacheLe,
    evalMoves_cacheLe⟩

/-- Witness for C5: a depth-1 evaluation over a one-entry cache whose
stored probability 1/2 dominates the query probability 1/4 is a hit. -/
theorem cache_probability_monotone_witness :
    ¬ ((1 / 4 : ℚ) < (1 / 100 : ℚ)) ∧ ((1 / 4 : ℚ) ≤ (1 / 2 : ℚ)) ∧
      playerMoveEval 1 7 (1 / 4)
          ⟨[(7, (1 / 2, (42 : ℝ)))], ⟨0, 0, 0, 0, 0⟩, 1 / 100⟩ =
        ((42 : ℝ), bumpHits (bumpNodes
          ⟨[(7, (1 / 2, (42 : ℝ)))], ⟨0, 0, 0, 0, 0⟩, 1 / 100⟩)) :=
  ⟨by norm_num, by norm_num,
    cache_probability_monotone.1 0 7 (1 / 4)
      ⟨[(7, (1 / 2, (42 : ℝ)))], ⟨0, 0, 0, 0, 0⟩, 1 / 100⟩ (1 / 2) 42
      (by exact (by norm_num : ¬ ((1 / 4 : ℚ) < (1 / 100 : ℚ)))) rfl
      (by norm_num)⟩


theorem pow35_fifteen_ge : (12825 : ℝ) ≤ pow35 15 := by
  unfold pow35
  have hpos : (0 : ℝ) < ((15 : Nat) : ℝ) ^ (3.5 : ℝ) := Real.rpow_pos_of_pos (by norm_num) _
  have hsq : (((15 : Nat) : ℝ) ^ (3.5 : ℝ)) ^ (2 : ℕ) = ((15 : Nat) : ℝ) ^ (7 : ℕ) := by
    rw [← Real.rpow_natCast (((15 : Nat) : ℝ) ^ (3.5 : ℝ)) 2, ← Real.rpow_mul (by norm_num)]
    rw [show (3.5 : ℝ) * (2 : ℕ) = ((7 : ℕ) : ℝ) by norm_num, Real.rpow_natCast]
  nlinarith [hsq, hpos]

theorem pow35_zero : pow35 0 = 0 := by
  unfold pow35
  rw [show ((0 : Nat) : ℝ) = 0 by norm_num]
  exact Real.zero_rpow (by norm_num)

theorem evalRow_FF00 : evalRowNocache 0xFF00 = 201240 - 22 * pow35 15 := by
  unfold evalRowNocache sumRow
  rw [show unpackRow 0xFF00 = [15, 15, 0, 0] from rfl,
    show emptyTileCountRow 0xFF00 = 2 from rfl,
    show monotonicityRow 0xFF00 = 0 from rfl,
    show adjacentRow 0xFF00 = 1 from rfl]
  simp [pow35_zero]
  ring

theorem evalRow_00FF : evalRowNocache 0x00FF = 201240 - 22 * pow35 15 := by
  unfold evalRowNocache sumRow
  rw [show unpackRow 0x00FF = [0, 0, 15, 15] from rfl,
    show emptyTileCountRow 0x00FF = 2 from rfl,
    show monotonicityRow 0x00FF = 0 from rfl,
    show adjacentRow 0x00FF = 1 from rfl]
  simp [pow35_zero]
  ring

theorem evalRow_FFFF : evalRowNocache 0xFFFF = 201400 - 44 * pow35 15 := by
  unfold evalRowNocache sumRow
  rw [show unpackRow 0xFFFF = [15, 15, 15, 15] from rfl,
    show emptyTileCountRow 0xFFFF = 0 from rfl,
    show monotonicityRow 0xFFFF = 0 from rfl,
    show adjacentRow 0xFFFF = 2 from rfl]
  simp
  ring

theorem evalRow_0000 : evalRowNocache 0 = 201080 := by
  unfold evalRowNocache sumRow
  rw [show unpackRow 0 = [0, 0, 0, 0] from rfl,
    show emptyTileCountRow 0 = 4 from rfl,
    show monotonicityRow 0 = 0 from rfl,
    show adjacentRow 0 = 0 from rfl]
  simp [pow35_zero]
  norm_num

theorem heur_gLR : heuristicEval 0xFF00FF00FF00FF00 = 1609920 - 176 * pow35 15 ∧
    heuristicEval 0x00FF00FF00FF00FF = 1609920 - 176 * pow35 15 ∧
    heuristicEval 0xFFFFFFFF00000000 = 1609920 - 176 * pow35 15 ∧
    heuristicEval 0x00000000FFFFFFFF = 1609920 - 176 * pow35 15 := by
  refine ⟨?_, ?_, ?_, ?_⟩ <;>
  · unfold heuristicEval
    first
      | rw [show rows 0xFF00FF00FF00FF00 ++ rows (transpose 0xFF00FF00FF00FF00) =
            [0xFF00, 0xFF00, 0xFF00, 0xFF00, 0xFFFF, 0xFFFF, 0, 0] from rfl]
      | rw [show rows 0x00FF00FF00FF00FF ++ rows (transpose 0x00FF00FF00FF00FF) =
            [0x00FF, 0x00FF, 0x00FF, 0x00FF, 0, 0, 0xFFFF, 0xFFFF] from rfl]
      | rw [show rows 0xFFFFFFFF00000000 ++ rows (transpose 0xFFFFFFFF00000000) =
            [0xFFFF, 0xFFFF, 0, 0, 0xFF00, 0xFF00, 0xFF00, 0xFF00] from rfl]
      | rw [show rows 0x00000000FFFFFFFF ++ rows (transpose 0x00000000FFFFFFFF) =
            [0, 0, 0xFFFF, 0xFFFF, 0x00FF, 0x00FF, 0x00FF, 0x00FF] from rfl]
    simp only [List.map_cons, List.map_nil, List.sum_cons, List.sum_nil]
    simp only [evalRow_FF00, evalRow_00FF, evalRow_FFFF, evalRow_0000]
    ring

theorem heur_succs_neg :
    heuristicEval 0xFF00FF00FF00FF00 < 0 ∧ heuristicEval 0x00FF00FF00FF00FF < 0 ∧
      heuristicEval 0xFFFFFFFF00000000 < 0 ∧ heuristicEval 0x00000000FFFFFFFF < 0 := by
  obtain ⟨h1, h2, h3, h4⟩ := heur_gLR
  have hq := pow35_fifteen_ge
  exact ⟨by rw [h1]; linarith, by rw [h2]; linarith, by rw [h3]; linarith,
    by rw [h4]; linarith⟩

theorem foldMax_ge_acc (child : Nat → SearchState → ℝ × SearchState) :
    ∀ (gs : List Nat) (acc : ℝ) (st : SearchState),
      acc ≤ (foldMax child gs acc st).1 := by
  intro gs
  induction gs with
  | nil =>
    intro acc st
    simp [foldMax]
  | cons g gs ih =>
    intro acc st
    simp only [foldMax]
    exact le_trans (le_max_left _ _) (ih _ _)

/-- C3 counterexample: the grid of sixteen 16384 tiles is not terminal
(every move merges), each of its four legal successors has a strictly
negative heuristic evaluation, and yet the max node returns 0 for it:
the fold's initial element is 0f32, not NaN. -/
theorem maxfold_zero_counterexample :
    gameOver 0xEEEEEEEEEEEEEEEE = false ∧
      playerMoves 0xEEEEEEEEEEEEEEEE =
        [(Move.left, 0xFF00FF00FF00FF00), (Move.right, 0x00FF00FF00FF00FF),
         (Move.up, 0xFFFFFFFF00000000), (Move.down, 0x00000000FFFFFFFF)] ∧
      (∀ p ∈ playerMoves 0xEEEEEEEEEEEEEEEE, heuristicEval p.2 < 0) ∧
      (randomMoveEval 0xEEEEEEEEEEEEEEEE 1 0
          ⟨[], ⟨0, 0, 0, 0, 0⟩, 1 / 10⟩).1 = 0 := by
  have hpm : playerMoves 0xEEEEEEEEEEEEEEEE =
      [(Move.left, 0xFF00FF00FF00FF00), (Move.right, 0x00FF00FF00FF00FF),
       (Move.up, 0xFFFFFFFF00000000), (Move.down, 0x00000000FFFFFFFF)] := by decide
  obtain ⟨h1, h2, h3, h4⟩ := heur_succs_neg
  refine ⟨by decide, hpm, ?_, ?_⟩
  · intro p hp
    rw [hpm] at hp
    fin_cases hp
    · exact h1
    · exact h2
    · exact h3
    · exact h4
  · unfold randomMoveEval randomMoveEvalAux
    rw [hpm]
    simp only [List.map_cons, List.map_nil, foldMax, playerMoveEval, leafEval]
    rw [max_eq_left h1.le, max_eq_left h2.le, max_eq_left h3.le, max_eq_left h4.le]

/-- C3 (amended): the max fold of the player (max) node starts from the
initial element 0f32, not NaN: random_move_eval is literally the fold of
f32::max over the legal successors with initial accumulator 0, and its
result is therefore never negative — when every legal successor evaluates
negative, the node returns 0 rather than the negative maximum. -/
theorem randomMoveEval_zero_init :
    (∀ (grid : Nat) (p : ℚ) (d : Nat) (st : SearchState),
        randomMoveEval grid p d st =
          foldMax (fun g st' => playerMoveEval d g p st')
            ((playerMoves grid).map Prod.snd) 0 (bumpAverage (bumpNodes st))) ∧
      ∀ (grid : Nat) (p : ℚ) (d : Nat) (st : SearchState),
        0 ≤ (randomMoveEval grid p d st).1 :=
  ⟨fun grid p d st => rfl,
    fun grid p d st => foldMax_ge_acc _ ((playerMoves grid).map Prod.snd) 0
      (bumpAverage (bumpNodes st))⟩
